import Mathlib

/-!
MAX3010x sensor library: a shallow embedding of the driver.

The C++ driver talks to an Arduino `TwoWire` object and to the Arduino clock
(`millis`, `delay`).  Both are external to the repository, so they are taken
here as an abstract environment `Arduino W` over a state type `W`: every call
the driver makes is a state transformer on `W`.  The driver functions are
translated one by one on top of that environment.

Machine integers are natural numbers with explicit reductions: `uint8_t`
values are reduced modulo 256, `uint16_t` modulo 65536, `uint32_t` and the
Arduino `unsigned long` modulo 2^32.
-/

namespace MAX3010x

/-! ## Environment: the TwoWire bus and the clock -/

/-- Environment seen by the driver: the calls it makes on `TwoWire`
(`beginTransmission`, `write`, `endTransmission`, `requestFrom`, `available`,
`read`) and on the Arduino clock (`millis`, `delay`), each as a transformer of
the environment state `W`. -/
structure Arduino (W : Type) where
  beginTransmission : Nat → W → W
  write : Nat → W → W
  endTransmission : Bool → W → Nat × W
  requestFrom : Nat → Nat → W → Nat × W
  available : W → Nat × W
  read : W → Nat × W
  millis : W → Nat × W
  delay : Nat → W → W

/-- Conversion of a non-negative value to `uint8_t`. -/
def u8 (n : Nat) : Nat := n % 256

/-- Conversion of a signed `int` value to `uint8_t`. -/
def intToU8 (x : Int) : Nat := (x % 256).toNat

/-- Modulus of the Arduino `unsigned long` (32 bits). -/
def ULONG_MOD : Nat := 2 ^ 32

/-- Unsigned subtraction `now - startTime` on `unsigned long`. -/
def elapsed (now startTime : Nat) : Nat :=
  (now % ULONG_MOD + ULONG_MOD - startTime % ULONG_MOD) % ULONG_MOD

/-! ## Variant descriptor -/

/-- Constants that the generic engine `MAX3010x<MAX3010xImpl, MAX3010xSample>`
takes from its `MAX3010xImpl` parameter. -/
structure Variant where
  MAX3010x_PART_ID : Nat
  FIFO_BASE : Nat
  FIFO_SIZE : Nat
  SAMPLE_SIZE : Nat
  MAX_ACTIVE_LEDS : Nat
  MODE_CFG_REG : Nat
  MODE_SHDN_BIT : Nat
  MODE_RST_BIT : Nat
  TEMP_CONFIG_REG : Nat
  TEMP_CONFIG_BIT : Nat
  TINT_REG : Nat
  TFRAC_REG : Nat
  INT_CNT : Nat
  INT_CFG_REG : List Nat
  INT_CFG_BIT : List Nat
  INT_ST_REG : List Nat
  INT_ST_BIT : List Nat
  INT_TEMP_RDY : Nat

/-- Constants of `class MAX30100` (MAX30100.h, MAX30100.cpp). -/
def MAX30100 : Variant where
  MAX3010x_PART_ID := 0x11
  FIFO_BASE := 0x02
  FIFO_SIZE := 16
  SAMPLE_SIZE := 2
  MAX_ACTIVE_LEDS := 2
  MODE_CFG_REG := 0x6
  MODE_SHDN_BIT := 7
  MODE_RST_BIT := 6
  TEMP_CONFIG_REG := 0x06
  TEMP_CONFIG_BIT := 3
  TINT_REG := 0x16
  TFRAC_REG := 0x17
  INT_CNT := 5
  INT_CFG_REG := [0x01, 0x01, 0x01, 0x01, 0xFF]
  INT_CFG_BIT := [7, 6, 5, 4, 255]
  INT_ST_REG := [0x00, 0x00, 0x00, 0x00, 0x00]
  INT_ST_BIT := [7, 6, 5, 4, 0]
  INT_TEMP_RDY := 1

/-- Constants of `class MAX30101` (MAX30101.h, MAX30101.cpp) together with
those it inherits from `MAX3010xMultiLed` (MAX3010x_multiLed_core.h). -/
def MAX30101 : Variant where
  MAX3010x_PART_ID := 0x15
  FIFO_BASE := 0x4
  FIFO_SIZE := 32
  SAMPLE_SIZE := 3
  MAX_ACTIVE_LEDS := 4
  MODE_CFG_REG := 0x9
  MODE_SHDN_BIT := 7
  MODE_RST_BIT := 6
  TEMP_CONFIG_REG := 0x21
  TEMP_CONFIG_BIT := 0
  TINT_REG := 0x1F
  TFRAC_REG := 0x20
  INT_CNT := 5
  INT_CFG_REG := [0x02, 0x03, 0x02, 0x02, 0xFF]
  INT_CFG_BIT := [7, 1, 6, 5, 255]
  INT_ST_REG := [0x00, 0x01, 0x00, 0x00, 0x00]
  INT_ST_BIT := [7, 1, 6, 5, 0]
  INT_TEMP_RDY := 1

/-- Register `FIFO_WR_PTR_REG = FIFO_BASE`. -/
def FIFO_WR_PTR_REG (v : Variant) : Nat := v.FIFO_BASE

/-- Register `FIFO_OVF_CNT_REG = FIFO_BASE + 1`. -/
def FIFO_OVF_CNT_REG (v : Variant) : Nat := u8 (v.FIFO_BASE + 1)

/-- Register `FIFO_RD_PTR_REG = FIFO_BASE + 2`. -/
def FIFO_RD_PTR_REG (v : Variant) : Nat := u8 (v.FIFO_BASE + 2)

/-- Register `FIFO_DATA_REG = FIFO_BASE + 3`. -/
def FIFO_DATA_REG (v : Variant) : Nat := u8 (v.FIFO_BASE + 3)

/-- The struct `FIFORegisters`: three consecutive bytes, in memory order. -/
structure FIFORegisters where
  write : Nat
  overflow : Nat
  read : Nat
deriving DecidableEq, Repr

/-- Size in bytes of `FIFORegisters` (three `uint8_t` members). -/
def sizeofFIFORegisters : Nat := 3

/-- The bytes of a buffer reinterpreted as `FIFORegisters`. -/
def FIFORegisters.ofBytes (buf : List Nat) : FIFORegisters :=
  ⟨buf.getD 0 0, buf.getD 1 0, buf.getD 2 0⟩

/-! ## Register access layer (MAX3010x_core.h) -/

section Core

variable {W : Type}

/-- The loop `for(i < count) buffer[i] = _wire.read();` of `readBlock`. -/
def readBytes (A : Arduino W) : Nat → W → List Nat × W
  | 0, w => ([], w)
  | n + 1, w =>
    let r := A.read w
    let rest := readBytes A n r.2
    (u8 r.1 :: rest.1, rest.2)

/-- The function `readBlock(reg, count, buffer)`: `none` when it returns false
(the buffer is then untouched), otherwise the `count` bytes stored. -/
def readBlock (A : Arduino W) (addr reg count : Nat) (w : W) : Option (List Nat) × W :=
  let w1 := A.beginTransmission addr w
  let w2 := A.write reg w1
  let e := A.endTransmission true w2
  if e.1 ≠ 0 then (none, e.2)
  else
    let n := A.requestFrom addr count e.2
    if n.1 ≠ count then (none, n.2)
    else
      let a := A.available n.2
      if a.1 ≠ count then (none, a.2)
      else
        let r := readBytes A count a.2
        (some r.1, r.2)

/-- The function `readByte(reg, value)`. -/
def readByte (A : Arduino W) (addr reg : Nat) (w : W) : Option Nat × W :=
  match readBlock A addr reg 1 w with
  | (none, w1) => (none, w1)
  | (some buf, w1) => (some (buf.getD 0 0), w1)

/-- The loop `for(i < count) _wire.write(buffer[i]);` of `writeBlock`,
started at index `i`. -/
def writeBytes (A : Arduino W) (buffer : Nat → Nat) : Nat → Nat → W → W
  | 0, _, w => w
  | n + 1, i, w => writeBytes A buffer n (i + 1) (A.write (buffer i) w)

/-- The function `writeBlock(reg, count, buffer)`; the buffer is a pointer,
modelled as the map from an index to the byte stored there. -/
def writeBlock (A : Arduino W) (addr reg count : Nat) (buffer : Nat → Nat) (w : W) : Bool × W :=
  let w1 := A.beginTransmission addr w
  let w2 := A.write reg w1
  let w3 := writeBytes A buffer count 0 w2
  let e := A.endTransmission true w3
  (e.1 == 0, e.2)

/-- The function `writeByte(reg, value)`. -/
def writeByte (A : Arduino W) (addr reg value : Nat) (w : W) : Bool × W :=
  writeBlock A addr reg 1 (fun _ => value) w

/-! ## FIFO operations of the transaction engine (MAX3010x_core.h) -/

/-- The function `available()`.  The expression
`(16+fifo.write-fifo.read) % FIFO_SIZE` is evaluated on `int` (remainder
truncated towards zero) and converted to the `uint8_t` return type. -/
def available (A : Arduino W) (v : Variant) (addr : Nat) (w : W) : Nat × W :=
  match readBlock A addr v.FIFO_BASE sizeofFIFORegisters w with
  | (none, w1) => (0, w1)
  | (some buf, w1) =>
    let fifo := FIFORegisters.ofBytes buf
    if fifo.read = fifo.write then
      if fifo.overflow ≠ 0 then (v.FIFO_SIZE, w1)
      else (intToU8 (Int.tmod (16 + (fifo.write : Int) - (fifo.read : Int)) (v.FIFO_SIZE : Int)), w1)
    else (intToU8 (Int.tmod (16 + (fifo.write : Int) - (fifo.read : Int)) (v.FIFO_SIZE : Int)), w1)

/-- The function `clearFIFO()`. -/
def clearFIFO (A : Arduino W) (v : Variant) (addr : Nat) (w : W) : Bool × W :=
  match writeByte A addr (FIFO_WR_PTR_REG v) 0 w with
  | (false, w1) => (false, w1)
  | (true, w1) =>
    match writeByte A addr (FIFO_RD_PTR_REG v) 0 w1 with
    | (false, w2) => (false, w2)
    | (true, w2) =>
      match writeByte A addr (FIFO_OVF_CNT_REG v) 0 w2 with
      | (false, w3) => (false, w3)
      | (true, w3) => (true, w3)

/-- The polling loop `do { ... } while(fifo.write == fifo.read);` of
`readSample`.  Each unit of fuel pays for one iteration; `none` means the fuel
ran out.  Otherwise the result is `none` when the loop left through
`return sample` and `some fifo` when it was left towards the data fetch. -/
def pollFIFO (A : Arduino W) (v : Variant) (addr : Nat) (timeout : Int) (startTime : Nat) :
    Nat → W → Option (Option FIFORegisters × W)
  | 0, _ => none
  | fuel + 1, w =>
    match readBlock A addr v.FIFO_BASE sizeofFIFORegisters w with
    | (none, w1) => some (none, w1)
    | (some buf, w1) =>
      let fifo := FIFORegisters.ofBytes buf
      if fifo.overflow ≠ 0 then some (some fifo, w1)
      else if timeout > 0 then
        let m := A.millis w1
        if (elapsed m.1 startTime : Int) ≥ timeout then some (none, m.2)
        else if fifo.write = fifo.read then pollFIFO A v addr timeout startTime fuel m.2
        else some (some fifo, m.2)
      else if fifo.write = fifo.read then pollFIFO A v addr timeout startTime fuel w1
      else some (some fifo, w1)

/-- The local array `uint8_t data[SAMPLE_SIZE * MAX_ACTIVE_LEDS] = { 0 }` after
a successful `readBlock` stored `bytes` at its start. -/
def dataBuffer (v : Variant) (bytes : List Nat) : List Nat :=
  bytes ++ List.replicate (v.SAMPLE_SIZE * v.MAX_ACTIVE_LEDS - bytes.length) 0

/-- The function `readSample(timeout)`, generic in the sample type `S`:
`zero` is the value of `MAX3010xSample sample = { 0 }` (see the sample types),
`nActiveSlots` and `fill` are the member and the `fillSampleWithData` method
of the implementation class.  The result is `none` when the fuel of the
polling loop ran out. -/
def readSample {S : Type} (A : Arduino W) (v : Variant) (addr : Nat) (nActiveSlots : Nat)
    (zero : S) (fill : List Nat → S → S) (timeout : Int) (fuel : Nat) (w : W) : Option (S × W) :=
  let t := A.millis w
  match pollFIFO A v addr timeout t.1 fuel t.2 with
  | none => none
  | some (none, w1) => some (zero, w1)
  | some (some fifo, w1) =>
    match readBlock A addr (FIFO_DATA_REG v) (u8 (v.SAMPLE_SIZE * nActiveSlots)) w1 with
    | (none, w2) => some (zero, (writeByte A addr (FIFO_RD_PTR_REG v) fifo.read w2).2)
    | (some bytes, w2) => some (fill (dataBuffer v bytes) zero, w2)

end Core

/-! ## MAX30100 (MAX30100.h, MAX30100.cpp) -/

/-- The struct `MAX30100Sample`; `slot[0]` aliases `ir` and `slot[1]` aliases
`red`. -/
structure MAX30100Sample where
  ir : Nat
  red : Nat
  valid : Bool
deriving DecidableEq, Repr

/-- The slot values of a `MAX30100Sample`, in array order. -/
def MAX30100Sample.slot (s : MAX30100Sample) : List Nat := [s.ir, s.red]

/-- The value of `MAX30100Sample sample = { 0 }`. -/
def MAX30100Sample.zero : MAX30100Sample := ⟨0, 0, false⟩

/-- The member `nActiveSlots` of `MAX30100`, a constant. -/
def MAX30100_nActiveSlots : Nat := 2

/-- The method `MAX30100::fillSampleWithData`. -/
def MAX30100_fillSampleWithData (data : List Nat) (sample : MAX30100Sample) : MAX30100Sample :=
  let s1 := { sample with valid := true }
  let s2 := { s1 with ir := ((data.getD 0 0 <<< 8) ||| data.getD 1 0) % 65536 }
  { s2 with red := ((data.getD 2 0 <<< 8) ||| data.getD 3 0) % 65536 }

/-- The method `readSample` of a `MAX30100` handle. -/
def MAX30100_readSample {W : Type} (A : Arduino W) (addr : Nat) (timeout : Int) (fuel : Nat)
    (w : W) : Option (MAX30100Sample × W) :=
  readSample A MAX30100 addr MAX30100_nActiveSlots MAX30100Sample.zero
    MAX30100_fillSampleWithData timeout fuel w

/-! ## Multi-LED engine and MAX30101 (MAX3010x_multiLed_core.h, MAX30101.*) -/

/-- Mode `MODE_HR_ONLY`. -/
def MODE_HR_ONLY : Nat := 0b010

/-- Mode `MODE_SPO2`. -/
def MODE_SPO2 : Nat := 0b011

/-- Mode `MODE_MULTI_LED`. -/
def MODE_MULTI_LED : Nat := 0b111

/-- Register `MULTI_LED_CFG_REG_BASE`. -/
def MULTI_LED_CFG_REG_BASE : Nat := 0x11

/-- Slot code `SLOT_OFF`. -/
def SLOT_OFF : Nat := 0

/-- Slot code `SLOT_RED`. -/
def SLOT_RED : Nat := 1

/-- Slot code `SLOT_IR`. -/
def SLOT_IR : Nat := 2

/-- Slot code `SLOT_GREEN`. -/
def SLOT_GREEN : Nat := 3

/-- The struct `MAX30101Sample`: the array `slot[4]` (`red` aliases `slot[0]`,
`ir` aliases `slot[1]`) and the flag `valid`. -/
structure MAX30101Sample where
  slot : List Nat
  valid : Bool
deriving DecidableEq, Repr

/-- The value of `MAX30101Sample sample = { 0 }`.  The initialiser sets the
first member of the union, the struct of `red` and `ir` (`slot[0]` and
`slot[1]`), and `valid`; `slot[2]` and `slot[3]` lie outside that member and
are not initialised: they hold what the storage of the local variable holds,
`found 2` and `found 3`, as `uint32_t`. -/
def MAX30101Sample.zero (found : Nat → Nat) : MAX30101Sample :=
  ⟨[0, 0, found 2 % 2 ^ 32, found 3 % 2 ^ 32], false⟩

/-- The mutable members of a `MAX3010xMultiLed` handle. -/
structure MultiLedState where
  currentMode : Nat
  nActiveSlots : Nat
  nConfiguredSlots : Nat
deriving DecidableEq, Repr

/-- The loop of `MAX3010xMultiLed::fillSampleWithData`, with `k` iterations
left and loop variable `i`.  The array `slot` has four elements; a store at an
index beyond it (undefined in C++) is dropped here. -/
def fillSlots (data : List Nat) : Nat → Nat → List Nat → List Nat
  | 0, _, slot => slot
  | k + 1, i, slot =>
    fillSlots data k (i + 1)
      (slot.set i (((data.getD (0 + 3 * i) 0 <<< 16) ||| (data.getD (1 + 3 * i) 0 <<< 8)
        ||| data.getD (2 + 3 * i) 0) % 2 ^ 32))

/-- The method `MAX3010xMultiLed::fillSampleWithData` (`SAMPLE_SIZE` is 3). -/
def MultiLed_fillSampleWithData (nActiveSlots : Nat) (data : List Nat) (sample : MAX30101Sample) :
    MAX30101Sample :=
  let s1 := { sample with valid := true }
  { s1 with slot := fillSlots data nActiveSlots 0 s1.slot }

/-- The method `readSample` of a `MAX30101` handle in state `st`; `found` is
the content of the storage in which the local `sample` is created. -/
def MAX30101_readSample {W : Type} (A : Arduino W) (addr : Nat) (st : MultiLedState)
    (found : Nat → Nat) (timeout : Int) (fuel : Nat) (w : W) : Option (MAX30101Sample × W) :=
  readSample A MAX30101 addr st.nActiveSlots (MAX30101Sample.zero found)
    (MultiLed_fillSampleWithData st.nActiveSlots) timeout fuel w

/-- What the target platform fixes for `setMultiLedConfigurationInternal`:
the size of a pointer (`sizeof(cfg)` of the parameter `uint8_t cfg[2]`) and
the bytes that follow the two-byte array `rawCfg` in memory. -/
structure Platform where
  sizeofPtr : Nat
  beyond : Nat → Nat

/-- The struct `MAX30101::MultiLedConfiguration`: four slot codes. -/
structure MultiLedConfiguration where
  s0 : Nat
  s1 : Nat
  s2 : Nat
  s3 : Nat
deriving DecidableEq, Repr

/-- The array access `cfg.slot[i]`. -/
def MultiLedConfiguration.slot (cfg : MultiLedConfiguration) (i : Nat) : Nat :=
  match i with
  | 0 => cfg.s0
  | 1 => cfg.s1
  | 2 => cfg.s2
  | _ => cfg.s3

/-- The validation loop of `MAX30101::setMultiLedConfiguration`, with `k`
iterations left, loop variable `i` and counter `activeSlots`; `none` when the
loop leaves through `return false`. -/
def countSlots (cfg : MultiLedConfiguration) : Nat → Nat → Nat → Option Nat
  | 0, _, activeSlots => some activeSlots
  | k + 1, i, activeSlots =>
    if u8 (cfg.slot i) > 0b100 then none
    else if cfg.slot i = SLOT_RED ∨ cfg.slot i = SLOT_IR ∨ cfg.slot i = SLOT_GREEN then
      if activeSlots ≠ i then none
      else countSlots cfg k (i + 1) (u8 (activeSlots + 1))
    else countSlots cfg k (i + 1) activeSlots

/-- The array `rawCfg` built by `setMultiLedConfiguration`, seen through the
pointer passed on: indices 0 and 1 are the packed bytes, the rest is whatever
the platform has behind the array. -/
def rawCfg (P : Platform) (cfg : MultiLedConfiguration) (i : Nat) : Nat :=
  if i = 0 then u8 (u8 (cfg.slot 0) ||| (u8 (cfg.slot 1) <<< 4))
  else if i = 1 then u8 (u8 (cfg.slot 2) ||| (u8 (cfg.slot 3) <<< 4))
  else P.beyond i

section MultiLed

variable {W : Type}

/-- The method `MAX3010xMultiLed::setMultiLedConfigurationInternal`. -/
def setMultiLedConfigurationInternal (A : Arduino W) (v : Variant) (P : Platform) (addr : Nat)
    (activeSlots : Nat) (cfg : Nat → Nat) (st : MultiLedState) (w : W) :
    Bool × MultiLedState × W :=
  match writeBlock A addr MULTI_LED_CFG_REG_BASE (u8 P.sizeofPtr) cfg w with
  | (false, w1) => (false, st, w1)
  | (true, w1) =>
    let st1 := { st with nConfiguredSlots := activeSlots }
    let st2 :=
      if st1.currentMode = MODE_MULTI_LED then { st1 with nActiveSlots := st1.nConfiguredSlots }
      else st1
    let r := clearFIFO A v addr w1
    (r.1, st2, r.2)

/-- The method `MAX30101::setMultiLedConfiguration`. -/
def setMultiLedConfiguration (A : Arduino W) (P : Platform) (addr : Nat)
    (cfg : MultiLedConfiguration) (st : MultiLedState) (w : W) : Bool × MultiLedState × W :=
  match countSlots cfg 4 0 0 with
  | none => (false, st, w)
  | some activeSlots =>
    setMultiLedConfigurationInternal A MAX30101 P addr activeSlots (rawCfg P cfg) st w

end MultiLed

/-! ## Bit access, mode and interrupt configuration (MAX3010x_core.h) -/

/-- The C expression `x & ~m` on a non-negative `x`: the bits of `x` with
those of `m` cleared. -/
def andNot (x m : Nat) : Nat := x ^^^ (x &&& m)

/-- Constant `MODE_MASK`. -/
def MODE_MASK : Nat := 0x7

section CoreConfig

variable {W : Type}

/-- The function `readBit(reg, bit, value)`. -/
def readBit (A : Arduino W) (addr reg bit : Nat) (w : W) : Option Bool × W :=
  match readByte A addr reg w with
  | (none, w1) => (none, w1)
  | (some byte, w1) => (some (((byte >>> bit) &&& 0x1) != 0), w1)

/-- The function `setBit(reg, bit, value)`. -/
def setBit (A : Arduino W) (addr reg bit : Nat) (value : Bool) (w : W) : Bool × W :=
  match readByte A addr reg w with
  | (none, w1) => (false, w1)
  | (some byte, w1) =>
    let byte1 := u8 (andNot byte (1 <<< bit))
    let byte2 := if value then u8 (byte1 ||| (1 <<< bit)) else byte1
    writeByte A addr reg byte2 w1

/-- The function `setModeInternal(mode)`. -/
def setModeInternal (A : Arduino W) (v : Variant) (addr mode : Nat) (w : W) : Bool × W :=
  if andNot mode MODE_MASK ≠ 0 then (false, w)
  else
    match readByte A addr v.MODE_CFG_REG w with
    | (none, w1) => (false, w1)
    | (some value, w1) =>
      let value1 := u8 (andNot value MODE_MASK)
      let value2 := u8 (value1 ||| mode)
      match writeByte A addr v.MODE_CFG_REG value2 w1 with
      | (false, w2) => (false, w2)
      | (true, w2) => clearFIFO A v addr w2

/-- The function `enableInterrupt(interrupt)`. -/
def enableInterrupt (A : Arduino W) (v : Variant) (addr interrupt : Nat) (w : W) : Bool × W :=
  if interrupt ≥ v.INT_CNT then (false, w)
  else if v.INT_CFG_REG.getD interrupt 0 = 0xFF ∨ v.INT_CFG_BIT.getD interrupt 0 ≥ 8 then
    (false, w)
  else setBit A addr (v.INT_CFG_REG.getD interrupt 0) (v.INT_CFG_BIT.getD interrupt 0) true w

/-- The function `disableInterrupt(interrupt)`. -/
def disableInterrupt (A : Arduino W) (v : Variant) (addr interrupt : Nat) (w : W) : Bool × W :=
  if interrupt ≥ v.INT_CNT then (false, w)
  else if v.INT_CFG_REG.getD interrupt 0 = 0xFF ∨ v.INT_CFG_BIT.getD interrupt 0 ≥ 8 then
    (false, w)
  else setBit A addr (v.INT_CFG_REG.getD interrupt 0) (v.INT_CFG_BIT.getD interrupt 0) false w

/-! ## MAX30100 setters (MAX30100.cpp) -/

/-- Register `MAX30100::SPO2_CFG_REG`. -/
def MAX30100_SPO2_CFG_REG : Nat := 0x7

/-- The method `MAX30100::setMode(mode)`. -/
def MAX30100_setMode (A : Arduino W) (addr mode : Nat) (w : W) : Bool × W :=
  setModeInternal A MAX30100 addr (u8 mode) w

/-- The method `MAX30100::setSamplingRate(rate)`. -/
def MAX30100_setSamplingRate (A : Arduino W) (addr rate : Nat) (w : W) : Bool × W :=
  match readByte A addr MAX30100_SPO2_CFG_REG w with
  | (none, w1) => (false, w1)
  | (some cfg, w1) =>
    let cfg1 := u8 (andNot cfg (0x7 <<< 2))
    let cfg2 := u8 (cfg1 ||| (u8 rate <<< 2))
    writeByte A addr MAX30100_SPO2_CFG_REG cfg2 w1

/-- The method `MAX30100::setResolution(resolution)`. -/
def MAX30100_setResolution (A : Arduino W) (addr resolution : Nat) (w : W) : Bool × W :=
  match readByte A addr MAX30100_SPO2_CFG_REG w with
  | (none, w1) => (false, w1)
  | (some cfg, w1) =>
    let cfg1 := u8 (andNot cfg 0x3)
    let cfg2 := u8 (cfg1 ||| u8 resolution)
    writeByte A addr MAX30100_SPO2_CFG_REG cfg2 w1

/-! ## Multi-LED mode and bit-field setters (MAX3010x_multiLed_core.h) -/

/-- Register `FIFO_CFG_REG` of the multi-LED engine. -/
def FIFO_CFG_REG : Nat := 0x8

/-- Constant `FIFO_SMP_AVE_BIT`. -/
def FIFO_SMP_AVE_BIT : Nat := 5

/-- Constant `FIFO_SMP_AVE_MASK`. -/
def FIFO_SMP_AVE_MASK : Nat := 0x7

/-- Register `SPO2_CFG_REG` of the multi-LED engine. -/
def SPO2_CFG_REG : Nat := 0xA

/-- Constant `SPO2_CFG_RESOLUTION_BIT`. -/
def SPO2_CFG_RESOLUTION_BIT : Nat := 0

/-- Constant `SPO2_CFG_RESOLUTION_MASK`. -/
def SPO2_CFG_RESOLUTION_MASK : Nat := 0x3

/-- Constant `SPO2_CFG_SMP_RATE_BIT`. -/
def SPO2_CFG_SMP_RATE_BIT : Nat := 2

/-- Constant `SPO2_CFG_SMP_RATE_MASK`. -/
def SPO2_CFG_SMP_RATE_MASK : Nat := 0x7

/-- Constant `SPO2_CFG_ADC_RANGE_BIT`. -/
def SPO2_CFG_ADC_RANGE_BIT : Nat := 5

/-- Constant `SPO2_CFG_ADC_RANGE_MASK`. -/
def SPO2_CFG_ADC_RANGE_MASK : Nat := 0x3

/-- The method `MAX3010xMultiLed::setMode(mode)`. -/
def setMode (A : Arduino W) (v : Variant) (addr mode : Nat) (st : MultiLedState) (w : W) :
    Bool × MultiLedState × W :=
  let activeSlots : Option Nat :=
    if mode = MODE_HR_ONLY then some 1
    else if mode = MODE_SPO2 then some 2
    else if mode = MODE_MULTI_LED then some st.nConfiguredSlots
    else none
  match activeSlots with
  | none => (false, st, w)
  | some n =>
    match setModeInternal A v addr (u8 mode) w with
    | (false, w1) => (false, st, w1)
    | (true, w1) => (true, { st with currentMode := mode, nActiveSlots := n }, w1)

/-- The method `MAX3010xMultiLed::setSamplingRate(rate)`. -/
def setSamplingRate (A : Arduino W) (addr rate : Nat) (w : W) : Bool × W :=
  if andNot rate SPO2_CFG_SMP_RATE_MASK ≠ 0 then (false, w)
  else
    match readByte A addr SPO2_CFG_REG w with
    | (none, w1) => (false, w1)
    | (some cfg, w1) =>
      let cfg1 := u8 (andNot cfg (SPO2_CFG_SMP_RATE_MASK <<< SPO2_CFG_SMP_RATE_BIT))
      let cfg2 := u8 (cfg1 ||| ((u8 rate &&& SPO2_CFG_SMP_RATE_MASK) <<< SPO2_CFG_SMP_RATE_BIT))
      writeByte A addr SPO2_CFG_REG cfg2 w1

/-- The method `MAX3010xMultiLed::setADCRange(range)`. -/
def setADCRange (A : Arduino W) (addr range : Nat) (w : W) : Bool × W :=
  if andNot range SPO2_CFG_ADC_RANGE_MASK ≠ 0 then (false, w)
  else
    match readByte A addr SPO2_CFG_REG w with
    | (none, w1) => (false, w1)
    | (some cfg, w1) =>
      let cfg1 := u8 (andNot cfg (SPO2_CFG_ADC_RANGE_MASK <<< SPO2_CFG_ADC_RANGE_BIT))
      let cfg2 := u8 (cfg1 ||| ((u8 range &&& SPO2_CFG_ADC_RANGE_MASK) <<< SPO2_CFG_ADC_RANGE_BIT))
      writeByte A addr SPO2_CFG_REG cfg2 w1

/-- The method `MAX3010xMultiLed::setResolution(resolution)`. -/
def setResolution (A : Arduino W) (addr resolution : Nat) (w : W) : Bool × W :=
  if andNot resolution SPO2_CFG_RESOLUTION_MASK ≠ 0 then (false, w)
  else
    match readByte A addr SPO2_CFG_REG w with
    | (none, w1) => (false, w1)
    | (some cfg, w1) =>
      let cfg1 := u8 (andNot cfg (SPO2_CFG_RESOLUTION_MASK <<< SPO2_CFG_RESOLUTION_BIT))
      let cfg2 := u8 (cfg1 |||
        ((u8 resolution &&& SPO2_CFG_RESOLUTION_MASK) <<< SPO2_CFG_RESOLUTION_BIT))
      writeByte A addr SPO2_CFG_REG cfg2 w1

/-- The method `MAX3010xMultiLed::setSampleAveraging(averaging)`. -/
def setSampleAveraging (A : Arduino W) (addr averaging : Nat) (w : W) : Bool × W :=
  if andNot averaging FIFO_SMP_AVE_MASK ≠ 0 then (false, w)
  else
    match readByte A addr FIFO_CFG_REG w with
    | (none, w1) => (false, w1)
    | (some cfg, w1) =>
      let cfg1 := u8 (andNot cfg (FIFO_SMP_AVE_MASK <<< FIFO_SMP_AVE_BIT))
      let cfg2 := u8 (cfg1 ||| ((u8 averaging &&& FIFO_SMP_AVE_MASK) <<< FIFO_SMP_AVE_BIT))
      writeByte A addr FIFO_CFG_REG cfg2 w1

end CoreConfig

/-! ## Waiting, identification, reset and temperature (MAX3010x_core.h) -/

/-- Conversion of an `int` to `unsigned long`, as done for the comparison
`millis() - startTime > timeout`. -/
def toULong (x : Int) : Nat := (x % (ULONG_MOD : Int)).toNat

/-- Register `REV_ID_REG`. -/
def REV_ID_REG : Nat := 0xFF

/-- Register `PART_ID_REG`. -/
def PART_ID_REG : Nat := 0xFF

section CoreWait

variable {W : Type}

/-- The loop `while (bitValue != expectedState) { ... }` of `waitBit`, entered
with `bitValue != expectedState`.  Each unit of fuel pays for one iteration;
`none` means the fuel ran out. -/
def waitBitLoop (A : Arduino W) (addr reg bit : Nat) (expectedState : Bool) (timeout : Int)
    (startTime : Nat) : Nat → W → Option (Bool × W)
  | 0, _ => none
  | fuel + 1, w =>
    match readBit A addr reg bit w with
    | (none, w1) => some (false, w1)
    | (some bitValue, w1) =>
      let m := A.millis w1
      if elapsed m.1 startTime > toULong timeout then some (false, m.2)
      else
        let w3 := A.delay 1 m.2
        if bitValue != expectedState then
          waitBitLoop A addr reg bit expectedState timeout startTime fuel w3
        else some (true, w3)

/-- The function `waitBit(reg, bit, expectedState, timeout)`; the local
`bitValue` starts as `!expectedState`, so the loop is entered. -/
def waitBit (A : Arduino W) (addr reg bit : Nat) (expectedState : Bool) (timeout : Int)
    (fuel : Nat) (w : W) : Option (Bool × W) :=
  let t := A.millis w
  waitBitLoop A addr reg bit expectedState timeout t.1 fuel t.2

/-- The function `checkInterruptFlag(interrupt)`. -/
def checkInterruptFlag (A : Arduino W) (v : Variant) (addr interrupt : Nat) (w : W) : Bool × W :=
  if interrupt ≥ v.INT_CNT then (false, w)
  else
    match readBit A addr (v.INT_ST_REG.getD interrupt 0) (v.INT_ST_BIT.getD interrupt 0) w with
    | (none, w1) => (false, w1)
    | (some value, w1) => (value, w1)

/-- The function `waitForInterrupt(interrupt, timeout)`.  The source declares
the parameter `timeout` and passes the literal 100 to `waitBit`. -/
def waitForInterrupt (A : Arduino W) (v : Variant) (addr interrupt : Nat) (timeout : Int)
    (fuel : Nat) (w : W) : Option (Bool × W) :=
  if interrupt ≥ v.INT_CNT then some (false, w)
  else
    waitBit A addr (v.INT_ST_REG.getD interrupt 0) (v.INT_ST_BIT.getD interrupt 0) true 100
      fuel w

/-- The function `readPartId()`. -/
def readPartId (A : Arduino W) (addr : Nat) (w : W) : Nat × W :=
  match readByte A addr PART_ID_REG w with
  | (none, w1) => (0xFF, w1)
  | (some partId, w1) => (partId, w1)

/-- The function `readRevisionId()`. -/
def readRevisionId (A : Arduino W) (addr : Nat) (w : W) : Nat × W :=
  match readByte A addr REV_ID_REG w with
  | (none, w1) => (0xFF, w1)
  | (some revisionId, w1) => (revisionId, w1)

/-- The function `reset()`, generic in the handle state `St` of the
implementation class and in its `setDefaultConfiguration` method.  The call
`waitBit(MODE_CFG_REG, MODE_RST_BIT, false)` uses the default timeout 100;
`none` means its fuel ran out. -/
def reset {St : Type} (A : Arduino W) (v : Variant) (addr : Nat)
    (setDefaultConfiguration : St → W → Bool × St × W) (fuel : Nat) (st : St) (w : W) :
    Option (Bool × St × W) :=
  match setBit A addr v.MODE_CFG_REG v.MODE_RST_BIT true w with
  | (false, w1) => some (false, st, w1)
  | (true, w1) =>
    match waitBit A addr v.MODE_CFG_REG v.MODE_RST_BIT false 100 fuel w1 with
    | none => none
    | some (false, w2) => some (false, st, w2)
    | some (true, w2) =>
      let p := readPartId A addr w2
      if p.1 ≠ v.MAX3010x_PART_ID then some (false, st, p.2)
      else
        match enableInterrupt A v addr v.INT_TEMP_RDY p.2 with
        | (false, w4) => some (false, st, w4)
        | (true, w4) => some (setDefaultConfiguration st w4)

/-- The function `readTemperature()`.  The `float` result is modelled by a
rational number, `none` standing for `NAN`; `none` at the outer level means
the fuel of the wait ran out.  The call `waitForInterrupt(INT_TEMP_RDY)` uses
the default timeout 100. -/
def readTemperature (A : Arduino W) (v : Variant) (addr : Nat) (fuel : Nat) (w : W) :
    Option (Option ℚ × W) :=
  match setBit A addr v.TEMP_CONFIG_REG v.TEMP_CONFIG_BIT true w with
  | (false, w1) => some (none, w1)
  | (true, w1) =>
    match waitForInterrupt A v addr v.INT_TEMP_RDY 100 fuel w1 with
    | none => none
    | some (false, w2) => some (none, w2)
    | some (true, w2) =>
      match readByte A addr v.TINT_REG w2 with
      | (none, w3) => some (none, w3)
      | (some tInt, w3) =>
        match readByte A addr v.TFRAC_REG w3 with
        | (none, w4) => some (none, w4)
        | (some tFrac, w4) => some (some ((tInt : ℚ) + 0.0625 * (tFrac : ℚ)), w4)

/-- The idiom `if(!f()) return false; return g();` for two steps that only
touch the bus. -/
def andThen (f g : W → Bool × W) (w : W) : Bool × W :=
  match f w with
  | (false, w1) => (false, w1)
  | (true, w1) => g w1

/-! ## Default configurations and reset of the two variants -/

/-- Register `MAX30100::LED_CFG_REG`. -/
def MAX30100_LED_CFG_REG : Nat := 0x9

/-- The method `MAX30100::setLedCurrent(led, current)`. -/
def MAX30100_setLedCurrent (A : Arduino W) (addr led current : Nat) (w : W) : Bool × W :=
  match readByte A addr MAX30100_LED_CFG_REG w with
  | (none, w1) => (false, w1)
  | (some cfg, w1) =>
    let cfg1 := u8 (andNot cfg (0xf <<< (4 * u8 led)))
    let cfg2 := u8 (cfg1 ||| (u8 current <<< (4 * u8 led)))
    writeByte A addr MAX30100_LED_CFG_REG cfg2 w1

/-- The method `MAX30100::setDefaultConfiguration()`: `LED_RED` is 1,
`LED_CURRENT_14MA2` is 4, `LED_IR` is 0, `LED_CURRENT_20MA8` is 6,
`RESOLUTION_16BIT_1600US` is 3 and `SAMPLING_RATE_50SPS` is 0. -/
def MAX30100_setDefaultConfiguration (A : Arduino W) (addr : Nat) (w : W) : Bool × W :=
  andThen (MAX30100_setLedCurrent A addr 1 4)
    (andThen (MAX30100_setLedCurrent A addr 0 6)
      (andThen (MAX30100_setResolution A addr 3)
        (andThen (MAX30100_setSamplingRate A addr 0)
          (MAX30100_setMode A addr MODE_SPO2)))) w

/-- The method `reset()` of a `MAX30100` handle, which has no mutable state. -/
def MAX30100_reset (A : Arduino W) (addr : Nat) (fuel : Nat) (w : W) : Option (Bool × Unit × W) :=
  reset A MAX30100 addr
    (fun st x => ((MAX30100_setDefaultConfiguration A addr x).1, st,
      (MAX30100_setDefaultConfiguration A addr x).2)) fuel () w

/-- Register `LED_CFG_REG_BASE` of the multi-LED engine. -/
def LED_CFG_REG_BASE : Nat := 0xC

/-- Constant `FIFO_ROLLOVER_EN_BIT`. -/
def FIFO_ROLLOVER_EN_BIT : Nat := 4

/-- The method `MAX30101::setLedCurrent(led, current)`. -/
def MAX30101_setLedCurrent (A : Arduino W) (addr led current : Nat) (w : W) : Bool × W :=
  writeByte A addr (u8 (LED_CFG_REG_BASE + u8 led)) current w

/-- The method `MAX3010xMultiLed::enableFIFORollover()`. -/
def enableFIFORollover (A : Arduino W) (addr : Nat) (w : W) : Bool × W :=
  setBit A addr FIFO_CFG_REG FIFO_ROLLOVER_EN_BIT true w

/-- The method `MAX3010xMultiLed::disableFIFORollover()`. -/
def disableFIFORollover (A : Arduino W) (addr : Nat) (w : W) : Bool × W :=
  setBit A addr FIFO_CFG_REG FIFO_ROLLOVER_EN_BIT false w

/-- The calls of `MAX30101::setDefaultConfiguration()` between
`setMultiLedConfiguration` and `setMode`, none of which touches the handle
state: `LED_RED` is 0, `LED_IR` is 1, `LED_GREEN_CH1` is 2, `LED_GREEN_CH2` is
3, `RESOLUTION_18BIT_4110US` is 3, `SAMPLING_RATE_50SPS` is 0, `SMP_AVE_NONE`
is 0 and `ADC_RANGE_16384NA` is 3. -/
def MAX30101_defaultSettings (A : Arduino W) (addr : Nat) (w : W) : Bool × W :=
  andThen (MAX30101_setLedCurrent A addr 0 90)
    (andThen (MAX30101_setLedCurrent A addr 1 80)
      (andThen (MAX30101_setLedCurrent A addr 2 100)
        (andThen (MAX30101_setLedCurrent A addr 3 0)
          (andThen (setResolution A addr 3)
            (andThen (setSamplingRate A addr 0)
              (andThen (setSampleAveraging A addr 0)
                (andThen (setADCRange A addr 3)
                  (enableFIFORollover A addr)))))))) w

/-- The method `MAX30101::setDefaultConfiguration()`; `MultiLedConfiguration
cfg {}` has the four slots zero. -/
def MAX30101_setDefaultConfiguration (A : Arduino W) (P : Platform) (addr : Nat)
    (st : MultiLedState) (w : W) : Bool × MultiLedState × W :=
  match setMultiLedConfiguration A P addr ⟨0, 0, 0, 0⟩ st w with
  | (false, st1, w1) => (false, st1, w1)
  | (true, st1, w1) =>
    match MAX30101_defaultSettings A addr w1 with
    | (false, w2) => (false, st1, w2)
    | (true, w2) => setMode A MAX30101 addr MODE_SPO2 st1 w2

/-- The method `reset()` of a `MAX30101` handle. -/
def MAX30101_reset (A : Arduino W) (P : Platform) (addr : Nat) (fuel : Nat)
    (st : MultiLedState) (w : W) : Option (Bool × MultiLedState × W) :=
  reset A MAX30101 addr (MAX30101_setDefaultConfiguration A P addr) fuel st w

end CoreWait

/-! ## Call sequences on a MAX30101 handle -/

/-- One call a client can make on a `MAX30101` handle, with its arguments. -/
inductive HandleOp where
  | setMode (mode : Nat)
  | setMultiLedConfiguration (cfg : MultiLedConfiguration)
  | reset (fuel : Nat)
  | readSample (found : Nat → Nat) (timeout : Int) (fuel : Nat)
  | setSamplingRate (rate : Nat)
  | setADCRange (range : Nat)
  | setResolution (resolution : Nat)
  | setSampleAveraging (averaging : Nat)
  | setLedCurrent (led : Nat) (current : Nat)
  | enableFIFORollover
  | disableFIFORollover

/-- The handle state and the environment after one call; `none` when the
call does not return within its fuel. -/
def applyOp {W : Type} (A : Arduino W) (P : Platform) (addr : Nat) :
    HandleOp → MultiLedState × W → Option (MultiLedState × W)
  | .setMode mode, (st, w) =>
    some ((setMode A MAX30101 addr mode st w).2.1, (setMode A MAX30101 addr mode st w).2.2)
  | .setMultiLedConfiguration cfg, (st, w) =>
    some ((setMultiLedConfiguration A P addr cfg st w).2.1,
      (setMultiLedConfiguration A P addr cfg st w).2.2)
  | .reset fuel, (st, w) =>
    (MAX30101_reset A P addr fuel st w).map (fun r => (r.2.1, r.2.2))
  | .readSample found timeout fuel, (st, w) =>
    (MAX30101_readSample A addr st found timeout fuel w).map (fun r => (st, r.2))
  | .setSamplingRate rate, (st, w) => some (st, (setSamplingRate A addr rate w).2)
  | .setADCRange range, (st, w) => some (st, (setADCRange A addr range w).2)
  | .setResolution resolution, (st, w) => some (st, (setResolution A addr resolution w).2)
  | .setSampleAveraging averaging, (st, w) =>
    some (st, (setSampleAveraging A addr averaging w).2)
  | .setLedCurrent led current, (st, w) =>
    some (st, (MAX30101_setLedCurrent A addr led current w).2)
  | .enableFIFORollover, (st, w) => some (st, (enableFIFORollover A addr w).2)
  | .disableFIFORollover, (st, w) => some (st, (disableFIFORollover A addr w).2)

/-- A sequence of calls, one after the other. -/
def runOps {W : Type} (A : Arduino W) (P : Platform) (addr : Nat) :
    List HandleOp → MultiLedState × W → Option (MultiLedState × W)
  | [], x => some x
  | op :: ops, x =>
    match applyOp A P addr op x with
    | none => none
    | some y => runOps A P addr ops y

/-! ## Moving average filter (examples/MAX30105PulseoximeterSpO2/filters.h) -/

/-- The members of `MovingAverageFilter<kBufferSize>`, over exact arithmetic:
the `float` values are rational numbers and the array `values_` is the map
from an index to the element stored there. -/
structure MovingAverageFilter where
  index_ : Nat
  count_ : Nat
  values_ : Nat → ℚ

/-- The constructor `MovingAverageFilter()`: index and count are zero, the
array is left as it is (`values` stands for its uninitialised content). -/
def MovingAverageFilter.init (values : Nat → ℚ) : MovingAverageFilter := ⟨0, 0, values⟩

/-- The loop `for(i < count_) sum += values_[i];` of `process`, with `n`
iterations left, loop variable `i` and accumulator `sum`. -/
def MovingAverageFilter.sumLoop (values : Nat → ℚ) : Nat → Nat → ℚ → ℚ
  | 0, _, sum => sum
  | n + 1, i, sum => MovingAverageFilter.sumLoop values n (i + 1) (sum + values i)

/-- The method `process(value)`: the value returned and the filter
afterwards. -/
def MovingAverageFilter.process (kBufferSize : Nat) (f : MovingAverageFilter) (value : ℚ) :
    ℚ × MovingAverageFilter :=
  let values := Function.update f.values_ f.index_ value
  let index := (f.index_ + 1) % kBufferSize
  let count := if f.count_ < kBufferSize then f.count_ + 1 else f.count_
  let sum := MovingAverageFilter.sumLoop values count 0 0
  (sum / (count : ℚ), ⟨index, count, values⟩)

/-- The method `reset()`. -/
def MovingAverageFilter.reset (f : MovingAverageFilter) : MovingAverageFilter :=
  ⟨0, 0, f.values_⟩

/-- The method `count()`. -/
def MovingAverageFilter.count (f : MovingAverageFilter) : Nat := f.count_

/-! ## Concrete environments

`scriptBus` answers every call from a prepared list of numbers and records the
calls; it stands for a bus stub with arbitrary scripted behaviour, failures
included.  `regBus` is a register file on which every access succeeds.
`deviceBus` is that register file with two traits of the device: the reset bit
clears itself and register 0xFF is read-only. -/

/-- One call on the environment. -/
inductive WireOp where
  | beginTransmission (addr : Nat)
  | write (b : Nat)
  | endTransmission (stop : Bool)
  | requestFrom (addr : Nat) (count : Nat)
  | available
  | read
  | millis
  | delay (ms : Nat)
deriving DecidableEq, Repr

/-- State of the scripted bus: the answers still to give and the calls made. -/
structure Sim where
  script : List Nat
  log : List WireOp
deriving DecidableEq, Repr

/-- A call that needs no answer: it is recorded. -/
def Sim.note (op : WireOp) (s : Sim) : Sim := ⟨s.script, s.log ++ [op]⟩

/-- A call that needs an answer: it is recorded and answered with the next
number of the script (0 when the script is used up). -/
def Sim.answer (op : WireOp) (s : Sim) : Nat × Sim :=
  (s.script.headD 0, ⟨s.script.tail, s.log ++ [op]⟩)

/-- The scripted bus. -/
def scriptBus : Arduino Sim where
  beginTransmission a s := Sim.note (.beginTransmission a) s
  write b s := Sim.note (.write b) s
  endTransmission stop s := Sim.answer (.endTransmission stop) s
  requestFrom a n s := Sim.answer (.requestFrom a n) s
  available s := Sim.answer .available s
  read s := Sim.answer .read s
  millis s := Sim.answer .millis s
  delay ms s := Sim.note (.delay ms) s

/-- State of the register-file bus: the 8-bit registers, the register pointer
of the device, the transmit and receive buffers of the bus object and the
clock. -/
structure RegFile where
  regs : Nat → Nat
  ptr : Nat
  tx : List Nat
  rx : List Nat
  now : Nat

/-- Storing consecutive bytes from register `reg` on. -/
def storeFrom (regs : Nat → Nat) : Nat → List Nat → Nat → Nat
  | _, [] => regs
  | reg, b :: bs => storeFrom (Function.update regs (u8 reg) (u8 b)) (reg + 1) bs

/-- The register-file bus: a transmission sets the register pointer from its
first byte and stores the following bytes in consecutive registers; a request
delivers consecutive registers from the pointer on; every access succeeds; the
clock advances by `delay` only. -/
def regBus : Arduino RegFile where
  beginTransmission _ s := { s with tx := [] }
  write b s := { s with tx := s.tx ++ [b] }
  endTransmission _ s :=
    match s.tx with
    | [] => (0, s)
    | reg :: bytes =>
      (0, { s with regs := storeFrom s.regs reg bytes, ptr := u8 (reg + bytes.length), tx := [] })
  requestFrom _ n s :=
    (n, { s with rx := (List.range n).map (fun i => s.regs (u8 (s.ptr + i))), ptr := u8 (s.ptr + n) })
  available s := (s.rx.length, s)
  read s := (s.rx.headD 255, { s with rx := s.rx.tail })
  millis s := (s.now, s)
  delay ms s := { s with now := s.now + ms }

/-- The register file of a device: as `regBus`, except that the device
completes a reset at once, so that the reset bit of the mode configuration
register of variant `v` reads back as zero after every transmission, and that
register 0xFF is read-only and holds `partId`. -/
def deviceBus (v : Variant) (partId : Nat) : Arduino RegFile where
  beginTransmission a s := regBus.beginTransmission a s
  write b s := regBus.write b s
  endTransmission stop s :=
    let r := regBus.endTransmission stop s
    (r.1, { r.2 with
      regs := Function.update
        (Function.update r.2.regs v.MODE_CFG_REG
          (andNot (r.2.regs v.MODE_CFG_REG) (1 <<< v.MODE_RST_BIT)))
        0xFF partId })
  requestFrom a n s := regBus.requestFrom a n s
  available s := regBus.available s
  read s := regBus.read s
  millis s := regBus.millis s
  delay ms s := regBus.delay ms s

/-- Scripted bus for a MAX30100: the clock, a successful pointer read with
write = 5, overflow = 0, read = 2, then a data request answered with 3 bytes
instead of 4. -/
def demoFail100 : Sim := ⟨[7, 0, 3, 3, 5, 0, 2, 0, 3], []⟩

/-- Scripted bus for a MAX30101: the clock, a successful pointer read with
write = 9, overflow = 1, read = 9, then a data transmission that is not
acknowledged. -/
def demoFail101 : Sim := ⟨[7, 0, 3, 3, 9, 1, 9, 1], []⟩

/-- Scripted bus for a MAX30100: the clock, a successful pointer read with
write = 5, overflow = 0, read = 2, then a successful data read of the bytes
0, 100, 0, 200. -/
def demoOk100 : Sim := ⟨[7, 0, 3, 3, 5, 0, 2, 0, 4, 4, 0, 100, 0, 200], []⟩

/-- A register file with every register zero. -/
def regs0 : RegFile := ⟨fun _ => 0, 0, [], [], 0⟩

/-- Scripted bus for `setMode`: the mode register is read as 0xC5, the mode
write and the first two FIFO-clear writes are acknowledged, the third is not. -/
def demoModeFail : Sim := ⟨[0, 1, 1, 0xC5, 0, 0, 0, 1], []⟩

/-- A register file whose registers hold 0xC5, except the FIFO pointer
registers of the MAX30101, which hold 0x1F. -/
def regsDemo : RegFile :=
  ⟨fun r => if r = 4 ∨ r = 5 ∨ r = 6 then 0x1F else 0xC5, 0, [], [], 0⟩

/-- Scripted bus on which one byte read succeeds and delivers 0xC5. -/
def demoRead : Sim := ⟨[0, 1, 1, 0xC5], []⟩

/-- Scripted bus for a wait: the clock reads 0, a first poll delivers 0x00 at
10 ms, a second poll delivers 0x02 at 11 ms. -/
def demoWait : Sim := ⟨[0, 0, 1, 1, 0x00, 10, 0, 1, 1, 0x02, 11], []⟩

/-- Scripted bus for a reset whose part-ID read delivers 0x11: the reset bit
is written, the first poll finds it clear, then the part ID is read. -/
def demoBadId : Sim :=
  ⟨[0, 1, 1, 0, 0, 0, 0, 1, 1, 0, 1, 0, 1, 1, 0x11], []⟩

/-- Scripted bus for a reset of a MAX30101 in which every call succeeds: the
reset bit self-clears, the part ID reads 0x15, every register reads 0 and
every transmission is acknowledged. -/
def demoReset : Sim :=
  ⟨[0, 1, 1, 0, 0, 0, 0, 1, 1, 0, 1, 0, 1, 1, 0x15, 0, 1, 1, 0, 0,
    0, 0, 0, 0, 0, 0, 0, 0,
    0, 1, 1, 0, 0, 0, 1, 1, 0, 0, 0, 1, 1, 0, 0, 0, 1, 1, 0, 0,
    0, 1, 1, 0, 0, 0, 1, 1, 0, 0, 0, 0, 0], []⟩

/-- Scripted bus for a temperature read: the trigger succeeds, the status
register reads 0x02 (temperature ready), the integer register reads 25 and
the fraction register reads 8. -/
def demoTemp : Sim :=
  ⟨[0, 1, 1, 0, 0, 0, 0, 1, 1, 2, 1, 0, 1, 1, 25, 0, 1, 1, 8], []⟩

/-- Scripted bus for a call sequence: a slot configuration and a mode change
succeed, then a mode change and a sample read fail at their first
transmission. -/
def demoOps : Sim :=
  ⟨[0, 0, 0, 0, 0, 1, 1, 0, 0, 0, 0, 0, 1, 7, 1], []⟩

/-- Scripted bus for a reset of a MAX30101 followed by a call sequence: the
answers of `demoReset`, then those of `demoOps`. -/
def demoLife : Sim := ⟨demoReset.script ++ demoOps.script, []⟩

/-- Scripted bus for a MAX30100 read with a timeout: the clock reads 7 at
entry, the pointer read succeeds with write = 5, overflow = 0, read = 2, and
the clock then reads 20. -/
def demoTimeout : Sim := ⟨[7, 0, 3, 3, 5, 0, 2, 20], []⟩

/-- Scripted bus for `MAX30100::setLedCurrent`: the LED configuration register
reads 0xA7 and the write is acknowledged. -/
def demoLed : Sim := ⟨[0, 1, 1, 0xA7, 0], []⟩

/-! ## Properties of `available` and `clearFIFO` -/

section AvailableProps

variable {W : Type}

/-- For the MAX30100 (capacity 16) the expression of `available` agrees with
`(C + write - read) mod C` on pointers in range. -/
theorem available_MAX30100_in_range (A : Arduino W) (addr : Nat) (w w1 : W) (buf : List Nat)
    (hread : readBlock A addr MAX30100.FIFO_BASE sizeofFIFORegisters w = (some buf, w1))
    (hw : (FIFORegisters.ofBytes buf).write < 16) (hr : (FIFORegisters.ofBytes buf).read < 16)
    (hnf : ¬ ((FIFORegisters.ofBytes buf).write = (FIFORegisters.ofBytes buf).read ∧
      (FIFORegisters.ofBytes buf).overflow ≠ 0)) :
    available A MAX30100 addr w =
      ((16 + (FIFORegisters.ofBytes buf).write - (FIFORegisters.ofBytes buf).read) % 16, w1) := by
  generalize hf : FIFORegisters.ofBytes buf = fifo at hw hr hnf
  obtain ⟨wr, ov, rd⟩ := fifo
  simp only at hw hr hnf
  have hval : intToU8 (Int.tmod (16 + (wr : Int) - (rd : Int)) ((16 : Nat) : Int)) =
      (16 + wr - rd) % 16 := by
    have h1 : (16 + (wr : Int) - (rd : Int)) = ((16 + wr - rd : Nat) : Int) := by omega
    rw [h1, Int.tmod_eq_emod (by omega) (by omega)]
    unfold intToU8
    omega
  have hsz : ((MAX30100.FIFO_SIZE : Nat) : Int) = ((16 : Nat) : Int) := rfl
  unfold available
  rw [hread]
  simp only [hf, hsz, hval]
  by_cases h : rd = wr
  · have hov : ov = 0 := by
      by_contra hne
      exact hnf ⟨h.symm, hne⟩
    simp [h, hov]
  · simp [h]

/-- Claim C1, at its failing input: on the MAX30101 (capacity 32) a successful
pointer read with write = 5, overflow = 0, read = 2 makes `available` return
19, whereas `(32 + 5 - 2) mod 32` is 3. -/
theorem C1_available_MAX30101_returns_19 :
    (available scriptBus MAX30101 0x57 ⟨[0, 3, 3, 5, 0, 2], []⟩).1 = 19 ∧
      (MAX30101.FIFO_SIZE + 5 - 2) % MAX30101.FIFO_SIZE = 3 := by
  constructor <;> decide

/-- Claim C2: when the pointer-triple read succeeds with write == read and a
nonzero overflow counter, `available` returns the FIFO capacity of the
variant, which is 16 for the MAX30100 and 32 for the MAX30101. -/
theorem C2_available_full (A : Arduino W) (v : Variant) (addr : Nat) (w w1 : W) (buf : List Nat)
    (hread : readBlock A addr v.FIFO_BASE sizeofFIFORegisters w = (some buf, w1))
    (heq : (FIFORegisters.ofBytes buf).write = (FIFORegisters.ofBytes buf).read)
    (hov : (FIFORegisters.ofBytes buf).overflow ≠ 0) :
    available A v addr w = (v.FIFO_SIZE, w1) ∧
      MAX30100.FIFO_SIZE = 16 ∧ MAX30101.FIFO_SIZE = 32 := by
  refine ⟨?_, rfl, rfl⟩
  simp [available, hread, heq, hov]

/-- Witness for C2: both variants on a scripted bus that reports
write = read = 7 with overflow counter 1. -/
theorem C2_available_full_witness :
    (available scriptBus MAX30100 0x57 ⟨[0, 3, 3, 7, 1, 7], []⟩).1 = 16 ∧
      (available scriptBus MAX30101 0x57 ⟨[0, 3, 3, 7, 1, 7], []⟩).1 = 32 := by
  constructor
  · have h := (C2_available_full scriptBus MAX30100 0x57 ⟨[0, 3, 3, 7, 1, 7], []⟩ _ [7, 1, 7]
      (by rfl) (by decide) (by decide)).1
    rw [h]; rfl
  · have h := (C2_available_full scriptBus MAX30101 0x57 ⟨[0, 3, 3, 7, 1, 7], []⟩ _ [7, 1, 7]
      (by rfl) (by decide) (by decide)).1
    rw [h]; rfl

/-- On the register-file bus `clearFIFO` succeeds and a following `available`
of the MAX30100 returns 0. -/
theorem clearFIFO_available_MAX30100 (addr : Nat) (s : RegFile) :
    (clearFIFO regBus MAX30100 addr s).1 = true ∧
      (available regBus MAX30100 addr (clearFIFO regBus MAX30100 addr s).2).1 = 0 := by
  constructor
  · simp [clearFIFO, writeByte, writeBlock, writeBytes, regBus]
  · simp [available, clearFIFO, writeByte, writeBlock, writeBytes, readBlock, readBytes, regBus,
      storeFrom, FIFO_WR_PTR_REG, FIFO_RD_PTR_REG, FIFO_OVF_CNT_REG, MAX30100, u8,
      sizeofFIFORegisters, FIFORegisters.ofBytes, intToU8, List.range, List.range.loop,
      Function.update]

/-- Claim C3, at its failing input: on the register-file bus, whatever the
registers hold before, `clearFIFO` of the MAX30101 succeeds and the `available`
that follows it returns 16, not 0. -/
theorem C3_clearFIFO_available_MAX30101_returns_16 (addr : Nat) (s : RegFile) :
    (clearFIFO regBus MAX30101 addr s).1 = true ∧
      (available regBus MAX30101 addr (clearFIFO regBus MAX30101 addr s).2).1 = 16 := by
  constructor
  · simp [clearFIFO, writeByte, writeBlock, writeBytes, regBus]
  · simp [available, clearFIFO, writeByte, writeBlock, writeBytes, readBlock, readBytes, regBus,
      storeFrom, FIFO_WR_PTR_REG, FIFO_RD_PTR_REG, FIFO_OVF_CNT_REG, MAX30101, u8,
      sizeofFIFORegisters, FIFORegisters.ofBytes, intToU8, List.range, List.range.loop,
      Function.update]
    rfl

end AvailableProps

/-! ## Properties of `readSample` -/

section ReadSampleProps
variable {W : Type}

/-- Shifting by one byte and or-ing a byte is `256 * a + b`. -/
theorem shl8_or (a b : Nat) (hb : b < 256) : (a <<< 8) ||| b = 256 * a + b := by
  have h := Nat.mul_add_lt_is_or (i := 8) (b := b) (by simpa using hb) a
  rw [Nat.shiftLeft_eq, Nat.mul_comm]
  simpa using h.symm

/-- The bytes delivered by the read loop: as many as asked for. -/
theorem readBytes_length (A : Arduino W) (n : Nat) (w : W) : (readBytes A n w).1.length = n := by
  induction n generalizing w with
  | zero => rfl
  | succ k ih => simp [readBytes, ih]

/-- The bytes delivered by the read loop are `uint8_t` values. -/
theorem readBytes_lt (A : Arduino W) (n : Nat) (w : W) : ∀ b ∈ (readBytes A n w).1, b < 256 := by
  induction n generalizing w with
  | zero => simp [readBytes]
  | succ k ih =>
    intro b hb
    simp only [readBytes, List.mem_cons] at hb
    rcases hb with hb | hb
    · subst hb
      exact Nat.mod_lt _ (by decide)
    · exact ih _ b hb

/-- A successful `readBlock` stored exactly `count` bytes. -/
theorem readBlock_some (A : Arduino W) (addr reg count : Nat) (w w1 : W) (bytes : List Nat)
    (h : readBlock A addr reg count w = (some bytes, w1)) :
    bytes.length = count ∧ ∀ b ∈ bytes, b < 256 := by
  unfold readBlock at h
  simp only at h
  split_ifs at h
  · simp at h
  · simp at h
  · simp at h
  · simp only [Prod.mk.injEq, Option.some.injEq] at h
    obtain ⟨hb, _⟩ := h
    subst hb
    exact ⟨readBytes_length A _ _, readBytes_lt A _ _⟩

/-- When the polling loop is left towards the data fetch, the last triple read
indicates data. -/
theorem pollFIFO_indicates_data (A : Arduino W) (v : Variant) (addr : Nat) (timeout : Int)
    (startTime fuel : Nat) (w w1 : W) (fifo : FIFORegisters)
    (h : pollFIFO A v addr timeout startTime fuel w = some (some fifo, w1)) :
    fifo.write ≠ fifo.read ∨ fifo.overflow ≠ 0 := by
  induction fuel generalizing w with
  | zero => simp [pollFIFO] at h
  | succ k ih =>
    unfold pollFIFO at h
    split at h
    · simp at h
    · rename_i buf w0 hrb
      simp only at h
      split_ifs at h with h1 h2 h3 h4 h5
      · simp only [Option.some.injEq, Prod.mk.injEq] at h
        right; rw [← h.1]; exact h1
      · simp at h
      · exact ih _ h
      · simp only [Option.some.injEq, Prod.mk.injEq] at h
        left; rw [← h.1]; exact h4
      · exact ih _ h
      · simp only [Option.some.injEq, Prod.mk.injEq] at h
        left; rw [← h.1]; exact h5

/-- Claim C4: if the polling loop of `readSample` is left towards the data
fetch (its last pointer read succeeded and indicates data) and the block read
from the FIFO data register fails, then `readSample` makes exactly one more
transmission, made of `beginTransmission`, `write(FIFO_BASE + 2)`,
`write(fifo.read)` and `endTransmission`, where `fifo.read` is the read
pointer seen by the last poll, and returns the sample as `= { 0 }` initialised
it, whose flag `valid` is false for both sample types. -/
theorem C4_readSample_fetch_failure {S : Type} (A : Arduino W) (v : Variant) (addr n : Nat)
    (zero : S) (fill : List Nat → S → S) (timeout : Int) (fuel : Nat) (w w1 w2 : W)
    (fifo : FIFORegisters)
    (hpoll : pollFIFO A v addr timeout (A.millis w).1 fuel (A.millis w).2 = some (some fifo, w1))
    (hfetch : readBlock A addr (FIFO_DATA_REG v) (u8 (v.SAMPLE_SIZE * n)) w1 = (none, w2)) :
    (fifo.write ≠ fifo.read ∨ fifo.overflow ≠ 0) ∧
      readSample A v addr n zero fill timeout fuel w =
        some (zero, (A.endTransmission true (A.write fifo.read
          (A.write (u8 (v.FIFO_BASE + 2)) (A.beginTransmission addr w2)))).2) ∧
      MAX30100Sample.zero.valid = false ∧
      (∀ found, (MAX30101Sample.zero found).valid = false) := by
  refine ⟨pollFIFO_indicates_data A v addr timeout _ fuel _ w1 fifo hpoll, ?_, rfl, fun _ => rfl⟩
  unfold readSample
  simp only [hpoll, hfetch]
  rfl

/-- Witness for C4: a MAX30100 whose data request is answered short and a
MAX30101 whose data transmission is not acknowledged, on the scripted bus. -/
theorem C4_readSample_fetch_failure_witness :
    (MAX30100_readSample scriptBus 0x57 0 5 demoFail100).map (fun r => (r.1.valid, r.2.log.drop 13))
        = some (false, [.beginTransmission 0x57, .write 4, .write 2, .endTransmission true]) ∧
      (MAX30101_readSample scriptBus 0x57 ⟨3, 2, 0⟩ (fun _ => 0) 0 5 demoFail101).map
          (fun r => (r.1.valid, r.2.log.drop 12))
        = some (false, [.beginTransmission 0x57, .write 6, .write 9, .endTransmission true]) := by
  constructor
  · have h := (C4_readSample_fetch_failure scriptBus MAX30100 0x57 MAX30100_nActiveSlots
      MAX30100Sample.zero MAX30100_fillSampleWithData 0 5 demoFail100 _ _ _ (by rfl) (by rfl)).2.1
    unfold MAX30100_readSample
    rw [h]
    rfl
  · have h := (C4_readSample_fetch_failure scriptBus MAX30101 0x57 2
      (MAX30101Sample.zero (fun _ => 0)) (MultiLed_fillSampleWithData 2) 0 5 demoFail101 _ _ _
      (by rfl) (by rfl)).2.1
    unfold MAX30101_readSample
    rw [h]
    rfl

/-- Claim C6: for the MAX30100, when the polling loop is left towards the data
fetch and the data read succeeds, `readSample` has asked for exactly 4 bytes
from register 5 (the FIFO data register), and for the bytes d0..d3 returned it
yields `valid = true`, `ir = 256*d0 + d1` and `red = 256*d2 + d3`. -/
theorem C6_MAX30100_readSample_decodes (A : Arduino W) (addr : Nat) (timeout : Int) (fuel : Nat)
    (w w1 w2 : W) (fifo : FIFORegisters) (bytes : List Nat)
    (hpoll : pollFIFO A MAX30100 addr timeout (A.millis w).1 fuel (A.millis w).2
      = some (some fifo, w1))
    (hfetch : readBlock A addr 5 4 w1 = (some bytes, w2)) :
    FIFO_DATA_REG MAX30100 = 5 ∧
      ∃ d0 d1 d2 d3, bytes = [d0, d1, d2, d3] ∧
        MAX30100_readSample A addr timeout fuel w
          = some (⟨256 * d0 + d1, 256 * d2 + d3, true⟩, w2) := by
  refine ⟨rfl, ?_⟩
  obtain ⟨hlen, hlt⟩ := readBlock_some A addr 5 4 w1 w2 bytes hfetch
  match bytes, hlen, hlt with
  | [d0, d1, d2, d3], _, hlt =>
    refine ⟨d0, d1, d2, d3, rfl, ?_⟩
    have h0 : d0 < 256 := hlt d0 (by simp)
    have h1 : d1 < 256 := hlt d1 (by simp)
    have h2 : d2 < 256 := hlt d2 (by simp)
    have h3 : d3 < 256 := hlt d3 (by simp)
    have hf : readBlock A addr (FIFO_DATA_REG MAX30100)
        (u8 (MAX30100.SAMPLE_SIZE * MAX30100_nActiveSlots)) w1 = (some [d0, d1, d2, d3], w2) :=
      hfetch
    unfold MAX30100_readSample readSample
    simp only [hpoll, hf]
    simp [MAX30100_fillSampleWithData, dataBuffer, MAX30100Sample.zero]
    rw [shl8_or _ _ h1, shl8_or _ _ h3]
    constructor <;> omega

/-- Witness for C6: the bytes 0, 100, 0, 200 give IR = 100 and RED = 200. -/
theorem C6_MAX30100_readSample_decodes_witness :
    MAX30100_readSample scriptBus 0x57 0 5 demoOk100 = some (⟨100, 200, true⟩,
      (readBlock scriptBus 0x57 5 4 (readBlock scriptBus 0x57 2 3 (scriptBus.millis demoOk100).2).2).2) := by
  obtain ⟨d0, d1, d2, d3, hb, h⟩ :=
    (C6_MAX30100_readSample_decodes scriptBus 0x57 0 5 demoOk100 _ _ _ [0, 100, 0, 200]
      (by rfl) (by rfl)).2
  simp only [List.cons.injEq, and_true] at hb
  obtain ⟨r0, r1, r2, r3⟩ := hb
  subst r0 r1 r2 r3
  exact h

end ReadSampleProps

/-! ## Properties of `setMultiLedConfiguration` -/

section SlotProps

variable {W : Type}

/-- Once the counter is behind the loop index, an enabled slot still to come
makes the validation loop reject. -/
theorem countSlots_behind (cfg : MultiLedConfiguration) (k i a t : Nat) (ha : a < i)
    (ht : i ≤ t) (htk : t < i + k)
    (hon : cfg.slot t = SLOT_RED ∨ cfg.slot t = SLOT_IR ∨ cfg.slot t = SLOT_GREEN) :
    countSlots cfg k i a = none := by
  induction k generalizing i with
  | zero => omega
  | succ k ih =>
    unfold countSlots
    split_ifs with h1 h2 h3
    · rfl
    · rfl
    · omega
    · have hne : t ≠ i := fun e => h2 (e ▸ hon)
      exact ih (i + 1) (by omega) (by omega) (by omega)

/-- An off slot followed by an enabled slot makes the validation loop reject. -/
theorem countSlots_gap_from (cfg : MultiLedConfiguration) (k i a j t : Nat) (ha : a ≤ i)
    (hij : i ≤ j) (hjt : j < t) (htk : t < i + k)
    (hon : cfg.slot t = SLOT_RED ∨ cfg.slot t = SLOT_IR ∨ cfg.slot t = SLOT_GREEN)
    (hoff : cfg.slot j = SLOT_OFF) : countSlots cfg k i a = none := by
  induction k generalizing i a with
  | zero => omega
  | succ k ih =>
    unfold countSlots
    split_ifs with h1 h2 h3
    · rfl
    · rfl
    · have hne : j ≠ i := by
        intro e
        rw [← e, hoff] at h2
        simp [SLOT_OFF, SLOT_RED, SLOT_IR, SLOT_GREEN] at h2
      refine ih (i + 1) _ ?_ (by omega) (by omega)
      have hm := Nat.mod_le (a + 1) 256
      unfold u8
      omega
    · have hne : t ≠ i := fun e => h2 (e ▸ hon)
      exact countSlots_behind cfg k (i + 1) a t (by omega) (by omega) (by omega) hon

/-- The validation loop of `setMultiLedConfiguration` rejects a gap. -/
theorem countSlots_gap (cfg : MultiLedConfiguration) (i j : Nat) (hj : j < i) (hi : i < 4)
    (hon : cfg.slot i = SLOT_RED ∨ cfg.slot i = SLOT_IR ∨ cfg.slot i = SLOT_GREEN)
    (hoff : cfg.slot j = SLOT_OFF) : countSlots cfg 4 0 0 = none :=
  countSlots_gap_from cfg 4 0 0 j i (Nat.le_refl 0) (Nat.zero_le j) hj (by omega) hon hoff

/-- A slot code whose `uint8_t` value exceeds 4 makes the validation loop
reject. -/
theorem countSlots_wide (cfg : MultiLedConfiguration) (k i a t : Nat) (ht : i ≤ t)
    (htk : t < i + k) (hwide : u8 (cfg.slot t) > 4) : countSlots cfg k i a = none := by
  induction k generalizing i a with
  | zero => omega
  | succ k ih =>
    unfold countSlots
    by_cases e : t = i
    · subst e
      simp [hwide]
    · split_ifs
      · rfl
      · rfl
      · exact ih (i + 1) _ (by omega) (by omega)
      · exact ih (i + 1) _ (by omega) (by omega)

/-- Claim C8: for the MAX30101, `setMultiLedConfiguration` called with a slot
array that has a gap (a slot equal to RED, IR or GREEN at index `i` and an off
slot at a lower index `j`) returns false, leaves the environment untouched (no
bus access) and leaves `currentMode`, `nActiveSlots` and `nConfiguredSlots`
unchanged. -/
theorem C8_setMultiLedConfiguration_gap (A : Arduino W) (P : Platform) (addr : Nat)
    (cfg : MultiLedConfiguration) (st : MultiLedState) (w : W) (i j : Nat)
    (hj : j < i) (hi : i < 4)
    (hon : cfg.slot i = SLOT_RED ∨ cfg.slot i = SLOT_IR ∨ cfg.slot i = SLOT_GREEN)
    (hoff : cfg.slot j = SLOT_OFF) :
    setMultiLedConfiguration A P addr cfg st w = (false, st, w) := by
  unfold setMultiLedConfiguration
  rw [countSlots_gap cfg i j hj hi hon hoff]

/-- Witness for C8: the array [off, RED, off, off]. -/
theorem C8_setMultiLedConfiguration_gap_witness :
    setMultiLedConfiguration scriptBus ⟨2, fun _ => 0⟩ 0x57 ⟨SLOT_OFF, SLOT_RED, SLOT_OFF, SLOT_OFF⟩
      ⟨MODE_SPO2, 2, 0⟩ ⟨[], []⟩ = (false, ⟨MODE_SPO2, 2, 0⟩, ⟨[], []⟩) :=
  C8_setMultiLedConfiguration_gap scriptBus ⟨2, fun _ => 0⟩ 0x57
    ⟨SLOT_OFF, SLOT_RED, SLOT_OFF, SLOT_OFF⟩ ⟨MODE_SPO2, 2, 0⟩ ⟨[], []⟩ 1 0 (by decide) (by decide)
    (by decide) (by decide)

/-- The validation loop accepts `k` enabled slots followed by off slots and
counts `k`. -/
theorem countSlots_contiguous (cfg : MultiLedConfiguration) (k : Nat) (hk : k ≤ 4)
    (hon : ∀ i, i < k →
      cfg.slot i = SLOT_RED ∨ cfg.slot i = SLOT_IR ∨ cfg.slot i = SLOT_GREEN)
    (hoff : ∀ i, k ≤ i → i < 4 → cfg.slot i = SLOT_OFF) : countSlots cfg 4 0 0 = some k := by
  obtain ⟨s0, s1, s2, s3⟩ := cfg
  simp only [SLOT_RED, SLOT_IR, SLOT_GREEN, SLOT_OFF] at hon hoff
  interval_cases k
  · have h0 := hoff 0 (by omega) (by omega)
    have h1 := hoff 1 (by omega) (by omega)
    have h2 := hoff 2 (by omega) (by omega)
    have h3 := hoff 3 (by omega) (by omega)
    simp only [MultiLedConfiguration.slot] at h0 h1 h2 h3
    subst h0 h1 h2 h3
    rfl
  · have h0 := hon 0 (by omega)
    have h1 := hoff 1 (by omega) (by omega)
    have h2 := hoff 2 (by omega) (by omega)
    have h3 := hoff 3 (by omega) (by omega)
    simp only [MultiLedConfiguration.slot] at h0 h1 h2 h3
    subst h1 h2 h3
    rcases h0 with h | h | h <;> subst h <;> rfl
  · have h0 := hon 0 (by omega)
    have h1 := hon 1 (by omega)
    have h2 := hoff 2 (by omega) (by omega)
    have h3 := hoff 3 (by omega) (by omega)
    simp only [MultiLedConfiguration.slot] at h0 h1 h2 h3
    subst h2 h3
    rcases h0 with h | h | h <;> subst h <;> rcases h1 with h | h | h <;> subst h <;> rfl
  · have h0 := hon 0 (by omega)
    have h1 := hon 1 (by omega)
    have h2 := hon 2 (by omega)
    have h3 := hoff 3 (by omega) (by omega)
    simp only [MultiLedConfiguration.slot] at h0 h1 h2 h3
    subst h3
    rcases h0 with h | h | h <;> subst h <;> rcases h1 with h | h | h <;> subst h <;>
      rcases h2 with h | h | h <;> subst h <;> rfl
  · have h0 := hon 0 (by omega)
    have h1 := hon 1 (by omega)
    have h2 := hon 2 (by omega)
    have h3 := hon 3 (by omega)
    simp only [MultiLedConfiguration.slot] at h0 h1 h2 h3
    rcases h0 with h | h | h <;> subst h <;> rcases h1 with h | h | h <;> subst h <;>
      rcases h2 with h | h | h <;> subst h <;> rcases h3 with h | h | h <;> subst h <;> rfl

/-- On a bus where every transmission is acknowledged `clearFIFO` returns
true. -/
theorem clearFIFO_ok (A : Arduino W) (hok : ∀ b s, (A.endTransmission b s).1 = 0) (v : Variant)
    (addr : Nat) (w : W) : (clearFIFO A v addr w).1 = true := by
  simp [clearFIFO, writeByte, writeBlock, hok]

/-- Claim C9: for the MAX30101 on a bus where every transmission succeeds,
`setMultiLedConfiguration` called with an array whose first `k` slots are each
RED, IR or GREEN and whose remaining slots are off returns true and sets
`nConfiguredSlots = k`. -/
theorem C9_setMultiLedConfiguration_contiguous (A : Arduino W)
    (hok : ∀ b s, (A.endTransmission b s).1 = 0) (P : Platform) (addr : Nat)
    (cfg : MultiLedConfiguration) (st : MultiLedState) (w : W) (k : Nat) (hk : k ≤ 4)
    (hon : ∀ i, i < k →
      cfg.slot i = SLOT_RED ∨ cfg.slot i = SLOT_IR ∨ cfg.slot i = SLOT_GREEN)
    (hoff : ∀ i, k ≤ i → i < 4 → cfg.slot i = SLOT_OFF) :
    (setMultiLedConfiguration A P addr cfg st w).1 = true ∧
      (setMultiLedConfiguration A P addr cfg st w).2.1.nConfiguredSlots = k := by
  unfold setMultiLedConfiguration
  rw [countSlots_contiguous cfg k hk hon hoff]
  simp only [setMultiLedConfigurationInternal, writeBlock, hok, beq_self_eq_true]
  refine ⟨clearFIFO_ok A hok _ _ _, ?_⟩
  split_ifs <;> rfl

/-- Every transmission on the register-file bus is acknowledged. -/
theorem regBus_endTransmission_ok (b : Bool) (s : RegFile) :
    (regBus.endTransmission b s).1 = 0 := by
  unfold regBus
  simp only
  split <;> rfl

/-- Witness for C9: the array [RED, IR, GREEN, off] on the register-file bus
yields `nConfiguredSlots = 3`. -/
theorem C9_setMultiLedConfiguration_contiguous_witness :
    (setMultiLedConfiguration regBus ⟨2, fun _ => 0⟩ 0x57
        ⟨SLOT_RED, SLOT_IR, SLOT_GREEN, SLOT_OFF⟩ ⟨MODE_SPO2, 2, 0⟩
        ⟨fun _ => 0, 0, [], [], 0⟩).1 = true ∧
      (setMultiLedConfiguration regBus ⟨2, fun _ => 0⟩ 0x57
        ⟨SLOT_RED, SLOT_IR, SLOT_GREEN, SLOT_OFF⟩ ⟨MODE_SPO2, 2, 0⟩
        ⟨fun _ => 0, 0, [], [], 0⟩).2.1.nConfiguredSlots = 3 :=
  C9_setMultiLedConfiguration_contiguous regBus regBus_endTransmission_ok ⟨2, fun _ => 0⟩ 0x57
    ⟨SLOT_RED, SLOT_IR, SLOT_GREEN, SLOT_OFF⟩ ⟨MODE_SPO2, 2, 0⟩ ⟨fun _ => 0, 0, [], [], 0⟩ 3
    (by decide) (fun i hi => by interval_cases i <;> decide)
    (fun i h3 h4 => by interval_cases i; rfl)

/-- Claim C10 as stated fails: the slot code 4 lies outside
`SLOT_OFF .. SLOT_GREEN`, yet `setMultiLedConfiguration` with the array
[4, off, off, off] returns true on a bus that acknowledges everything, and it
accesses the bus. -/
theorem C10_slot_code_4_accepted :
    ¬ (4 ≤ SLOT_GREEN) ∧
      (setMultiLedConfiguration scriptBus ⟨2, fun _ => 0⟩ 0x57 ⟨4, SLOT_OFF, SLOT_OFF, SLOT_OFF⟩
        ⟨MODE_SPO2, 2, 0⟩ ⟨[], []⟩).1 = true ∧
      (setMultiLedConfiguration scriptBus ⟨2, fun _ => 0⟩ 0x57 ⟨4, SLOT_OFF, SLOT_OFF, SLOT_OFF⟩
        ⟨MODE_SPO2, 2, 0⟩ ⟨[], []⟩).2.2.log.length = 17 := by
  refine ⟨by decide, by rfl, by rfl⟩

/-- Claim C10, amended: for the MAX30101, `setMultiLedConfiguration` returns
false, leaves the environment untouched (no bus access) and leaves the handle
state unchanged whenever one of the four slot codes, converted to `uint8_t`,
is greater than 4. -/
theorem C10_setMultiLedConfiguration_wide_code (A : Arduino W) (P : Platform) (addr : Nat)
    (cfg : MultiLedConfiguration) (st : MultiLedState) (w : W) (i : Nat) (hi : i < 4)
    (hwide : u8 (cfg.slot i) > 4) :
    setMultiLedConfiguration A P addr cfg st w = (false, st, w) := by
  unfold setMultiLedConfiguration
  rw [countSlots_wide cfg 4 0 0 i (Nat.zero_le i) (by omega) hwide]

/-- Witness for the amended C10: the array [RED, 5, off, off]. -/
theorem C10_setMultiLedConfiguration_wide_code_witness :
    setMultiLedConfiguration scriptBus ⟨2, fun _ => 0⟩ 0x57 ⟨SLOT_RED, 5, SLOT_OFF, SLOT_OFF⟩
      ⟨MODE_SPO2, 2, 0⟩ ⟨[], []⟩ = (false, ⟨MODE_SPO2, 2, 0⟩, ⟨[], []⟩) :=
  C10_setMultiLedConfiguration_wide_code scriptBus ⟨2, fun _ => 0⟩ 0x57
    ⟨SLOT_RED, 5, SLOT_OFF, SLOT_OFF⟩ ⟨MODE_SPO2, 2, 0⟩ ⟨[], []⟩ 1 (by decide) (by decide)

end SlotProps

/-! ## Helper facts on bits and on the register-file bus -/

section BitFacts

variable {W : Type}

/-- Reading a byte on the register-file bus delivers the register content. -/
theorem regBus_readByte (addr reg : Nat) (s : RegFile) :
    readByte regBus addr reg s =
      (some (u8 (s.regs (u8 reg))),
        { regs := s.regs, ptr := u8 (u8 reg + 1), tx := [], rx := [], now := s.now }) := by
  simp [readByte, readBlock, readBytes, regBus, storeFrom, List.range, List.range.loop, u8]

/-- Writing a byte on the register-file bus stores it in the register. -/
theorem regBus_writeByte (addr reg value : Nat) (s : RegFile) :
    writeByte regBus addr reg value s =
      (true, { regs := Function.update s.regs (u8 reg) (u8 value), ptr := u8 (reg + 1), tx := [],
               rx := s.rx, now := s.now }) := by
  simp [writeByte, writeBlock, writeBytes, regBus, storeFrom]

/-- Bit `i` of `x & ~m` is bit `i` of `x` where `m` has a zero. -/
theorem andNot_testBit (x m i : Nat) :
    (andNot x m).testBit i = (x.testBit i && !m.testBit i) := by
  simp only [andNot, Nat.testBit_xor, Nat.testBit_and]
  cases x.testBit i <;> cases m.testBit i <;> rfl

/-- A value of `2^n` or more has a bit outside the mask `2^n - 1`. -/
theorem andNot_mask_ne_zero (x n : Nat) (h : 2 ^ n ≤ x) : andNot x (2 ^ n - 1) ≠ 0 := by
  obtain ⟨i, hi, hb⟩ := Nat.ge_two_pow_implies_high_bit_true h
  intro h0
  have hbit := andNot_testBit x (2 ^ n - 1) i
  rw [h0, hb, Nat.testBit_two_pow_sub_one] at hbit
  simp at hbit
  omega

/-- A value below `2^n` has no bit outside the mask `2^n - 1`. -/
theorem andNot_mask_eq_zero (x n : Nat) (h : x < 2 ^ n) : andNot x (2 ^ n - 1) = 0 := by
  apply Nat.eq_of_testBit_eq
  intro i
  rw [andNot_testBit, Nat.testBit_two_pow_sub_one]
  by_cases hi : i < n
  · simp [hi]
  · have : x < 2 ^ i := lt_of_lt_of_le h (Nat.pow_le_pow_right (by decide) (by omega))
    simp [Nat.testBit_lt_two_pow this]

/-- A byte delivered by `readByte` is a `uint8_t` value. -/
theorem readByte_lt (A : Arduino W) (addr reg : Nat) (w w1 : W) (b : Nat)
    (h : readByte A addr reg w = (some b, w1)) : b < 256 := by
  unfold readByte at h
  split at h
  · simp at h
  · rename_i buf w0 hrb
    simp only [Prod.mk.injEq, Option.some.injEq] at h
    obtain ⟨hlen, hlt⟩ := readBlock_some A addr reg 1 w w0 buf hrb
    match buf, hlen, hlt with
    | [d], _, hlt =>
      have := hlt d (by simp)
      simp at h
      omega

end BitFacts

/-! ## Slot packing, mode state machine -/

section ModeProps

variable {W : Type}

/-- On a bus where every access succeeds `setModeInternal` returns true for a
mode below 8. -/
theorem setModeInternal_ok (A : Arduino W) (v : Variant) (addr mode : Nat) (w : W)
    (hwr : ∀ b s, (A.endTransmission b s).1 = 0)
    (hrd : ∀ reg s, (readByte A addr reg s).1 ≠ none) (hm : mode < 8) :
    (setModeInternal A v addr mode w).1 = true := by
  unfold setModeInternal
  have h0 : andNot mode MODE_MASK = 0 := andNot_mask_eq_zero mode 3 hm
  simp only [h0, ne_eq, not_true_eq_false, if_false]
  split
  · rename_i w1 h
    exact absurd (congrArg Prod.fst h) (hrd _ _)
  · rename_i value w1 h
    have hw : (writeByte A addr v.MODE_CFG_REG (u8 (u8 (andNot value MODE_MASK) ||| mode)) w1).1
        = true := by
      simp [writeByte, writeBlock, hwr]
    split
    · rename_i w2 h2
      rw [h2] at hw
      exact absurd hw (by simp)
    · exact clearFIFO_ok A hwr v addr _

/-- Claim C12: for the MAX30101 on a bus where every access succeeds,
`setMode(m)` for `m` one of HR_ONLY, SPO2, MULTI_LED returns true, sets
`currentMode = m` and sets `nActiveSlots` to 1, 2 and `nConfiguredSlots`
respectively. -/
theorem C12_setMode_succeeds (A : Arduino W) (addr mode : Nat) (st : MultiLedState) (w : W)
    (hwr : ∀ b s, (A.endTransmission b s).1 = 0)
    (hrd : ∀ reg s, (readByte A addr reg s).1 ≠ none)
    (hm : mode = MODE_HR_ONLY ∨ mode = MODE_SPO2 ∨ mode = MODE_MULTI_LED) :
    (setMode A MAX30101 addr mode st w).1 = true ∧
      (setMode A MAX30101 addr mode st w).2.1.currentMode = mode ∧
      (mode = MODE_HR_ONLY → (setMode A MAX30101 addr mode st w).2.1.nActiveSlots = 1) ∧
      (mode = MODE_SPO2 → (setMode A MAX30101 addr mode st w).2.1.nActiveSlots = 2) ∧
      (mode = MODE_MULTI_LED →
        (setMode A MAX30101 addr mode st w).2.1.nActiveSlots = st.nConfiguredSlots) := by
  have hlt : u8 mode < 8 := by
    rcases hm with h | h | h <;> subst h <;> decide
  have hok := setModeInternal_ok A MAX30101 addr (u8 mode) w hwr hrd hlt
  cases hres : setModeInternal A MAX30101 addr (u8 mode) w with
  | mk b w1 =>
    rw [hres] at hok
    simp only at hok
    subst hok
    rcases hm with h | h | h
    · subst h
      have hres2 : setModeInternal A MAX30101 addr (u8 2) w = (true, w1) := hres
      simp [setMode, hres2, MODE_HR_ONLY, MODE_SPO2, MODE_MULTI_LED]
    · subst h
      have hres2 : setModeInternal A MAX30101 addr (u8 3) w = (true, w1) := hres
      simp [setMode, hres2, MODE_HR_ONLY, MODE_SPO2, MODE_MULTI_LED]
    · subst h
      have hres2 : setModeInternal A MAX30101 addr (u8 7) w = (true, w1) := hres
      simp [setMode, hres2, MODE_HR_ONLY, MODE_SPO2, MODE_MULTI_LED]

/-- Every byte read on the register-file bus succeeds. -/
theorem regBus_readByte_ne_none (addr reg : Nat) (s : RegFile) :
    (readByte regBus addr reg s).1 ≠ none := by
  rw [regBus_readByte]
  simp

/-- Witness for C12 on the register-file bus: after configuring three slots in
SPO2 mode, MULTI_LED gives three active slots; from MULTI_LED, HR_ONLY gives
one active slot. -/
theorem C12_setMode_succeeds_witness :
    (setMultiLedConfiguration regBus ⟨2, fun _ => 0⟩ 0x57
        ⟨SLOT_RED, SLOT_IR, SLOT_GREEN, SLOT_OFF⟩ ⟨MODE_SPO2, 2, 0⟩ regs0).2.1
      = ⟨MODE_SPO2, 2, 3⟩ ∧
    (setMode regBus MAX30101 0x57 MODE_MULTI_LED ⟨MODE_SPO2, 2, 3⟩ regs0).2.1.nActiveSlots = 3 ∧
    (setMode regBus MAX30101 0x57 MODE_HR_ONLY ⟨MODE_MULTI_LED, 3, 3⟩ regs0).2.1.nActiveSlots
      = 1 := by
  refine ⟨by rfl, ?_, ?_⟩
  · exact (C12_setMode_succeeds regBus 0x57 MODE_MULTI_LED ⟨MODE_SPO2, 2, 3⟩ regs0
      regBus_endTransmission_ok (regBus_readByte_ne_none 0x57) (Or.inr (Or.inr rfl))).2.2.2.2 rfl
  · exact (C12_setMode_succeeds regBus 0x57 MODE_HR_ONLY ⟨MODE_MULTI_LED, 3, 3⟩ regs0
      regBus_endTransmission_ok (regBus_readByte_ne_none 0x57) (Or.inl rfl)).2.2.1 rfl

/-- The result of `setMode` in terms of the result of `setModeInternal`. -/
theorem setMode_eq (A : Arduino W) (v : Variant) (addr mode : Nat) (st : MultiLedState) (w : W) :
    setMode A v addr mode st w =
      if mode = MODE_HR_ONLY ∨ mode = MODE_SPO2 ∨ mode = MODE_MULTI_LED then
        if (setModeInternal A v addr (u8 mode) w).1 = true then
          (true,
            { st with
              currentMode := mode
              nActiveSlots :=
                if mode = MODE_HR_ONLY then 1
                else if mode = MODE_SPO2 then 2 else st.nConfiguredSlots },
            (setModeInternal A v addr (u8 mode) w).2)
        else (false, st, (setModeInternal A v addr (u8 mode) w).2)
      else (false, st, w) := by
  have d1 : MODE_SPO2 ≠ MODE_HR_ONLY := by decide
  have d2 : MODE_MULTI_LED ≠ MODE_HR_ONLY := by decide
  have d3 : MODE_MULTI_LED ≠ MODE_SPO2 := by decide
  cases hres : setModeInternal A v addr (u8 mode) w with
  | mk b w1 =>
    unfold setMode
    by_cases h1 : mode = MODE_HR_ONLY
    · subst h1
      cases b <;> simp [hres]
    · by_cases h2 : mode = MODE_SPO2
      · subst h2
        cases b <;> simp [hres, d1]
      · by_cases h3 : mode = MODE_MULTI_LED
        · subst h3
          cases b <;> simp [hres, d2, d3]
        · simp [h1, h2, h3]

/-- Claim C13: for the multi-LED engine, whenever `setMode` returns false the
handle state (`currentMode`, `nActiveSlots`, `nConfiguredSlots`) is unchanged;
it returns true only if `setModeInternal` (register read, register write and
the three FIFO-clear writes) returned true; and a mode other than HR_ONLY,
SPO2 or MULTI_LED is rejected with the environment untouched. -/
theorem C13_setMode_commits_on_success (A : Arduino W) (v : Variant) (addr mode : Nat)
    (st : MultiLedState) (w : W) :
    ((setMode A v addr mode st w).1 = false → (setMode A v addr mode st w).2.1 = st) ∧
      ((setMode A v addr mode st w).1 = true →
        (setModeInternal A v addr (u8 mode) w).1 = true ∧
        (setMode A v addr mode st w).2.1.currentMode = mode) ∧
      (mode ≠ MODE_HR_ONLY → mode ≠ MODE_SPO2 → mode ≠ MODE_MULTI_LED →
        setMode A v addr mode st w = (false, st, w)) := by
  rw [setMode_eq]
  refine ⟨?_, ?_, ?_⟩
  · intro h
    split_ifs at h ⊢ <;> simp_all
  · intro h
    split_ifs at h ⊢ <;> simp_all
  · intro h1 h2 h3
    simp [h1, h2, h3]

/-- Witness for C13: a failing third FIFO-clear write, and the mode value 5. -/
theorem C13_setMode_commits_on_success_witness :
    (setMode scriptBus MAX30101 0x57 MODE_MULTI_LED ⟨MODE_SPO2, 2, 3⟩ demoModeFail).2.1
        = ⟨MODE_SPO2, 2, 3⟩ ∧
      setMode scriptBus MAX30101 0x57 5 ⟨MODE_SPO2, 2, 3⟩ demoModeFail
        = (false, ⟨MODE_SPO2, 2, 3⟩, demoModeFail) :=
  ⟨(C13_setMode_commits_on_success scriptBus MAX30101 0x57 MODE_MULTI_LED ⟨MODE_SPO2, 2, 3⟩
      demoModeFail).1 (by rfl),
    (C13_setMode_commits_on_success scriptBus MAX30101 0x57 5 ⟨MODE_SPO2, 2, 3⟩
      demoModeFail).2.2 (by decide) (by decide) (by decide)⟩

/-- The counter returned by the validation loop is the number of enabled
slots it went through. -/
theorem countSlots_counts (cfg : MultiLedConfiguration) (n i a k : Nat) (hin : i + n < 256)
    (h : countSlots cfg n i a = some k) :
    k = a + (List.range' i n).countP
      (fun j => decide (cfg.slot j = SLOT_RED ∨ cfg.slot j = SLOT_IR ∨ cfg.slot j = SLOT_GREEN)) := by
  induction n generalizing i a with
  | zero =>
    simp [countSlots] at h
    simp [h]
  | succ n ih =>
    unfold countSlots at h
    split_ifs at h with h1 h2 h3
    · have h3 : a = i := by omega
      subst h3
      have hu : u8 (a + 1) = a + 1 := by unfold u8; omega
      rw [hu] at h
      have := ih (a + 1) (a + 1) (by omega) h
      rw [this, List.range'_succ, List.countP_cons_of_pos]
      · omega
      · simpa using h2
    · have := ih (i + 1) a (by omega) h
      rw [this, List.range'_succ, List.countP_cons_of_neg]
      simpa using h2

/-- Claim C14: for the MAX30101, when an accepted `setMultiLedConfiguration`
with `k` enabled slots has its configuration write succeed, `nConfiguredSlots`
becomes `k`, `currentMode` is unchanged, `nActiveSlots` becomes `k` in
MODE_MULTI_LED and is unchanged in MODE_HR_ONLY and MODE_SPO2, whatever the
FIFO-clear writes that follow do. -/
theorem C14_setMultiLedConfiguration_state (A : Arduino W) (P : Platform) (addr : Nat)
    (cfg : MultiLedConfiguration) (st : MultiLedState) (w : W) (k : Nat)
    (hacc : countSlots cfg 4 0 0 = some k)
    (hwr : (writeBlock A addr MULTI_LED_CFG_REG_BASE (u8 P.sizeofPtr) (rawCfg P cfg) w).1 = true) :
    k = (List.range 4).countP
        (fun j => decide (cfg.slot j = SLOT_RED ∨ cfg.slot j = SLOT_IR ∨ cfg.slot j = SLOT_GREEN)) ∧
      (setMultiLedConfiguration A P addr cfg st w).2.1.nConfiguredSlots = k ∧
      (setMultiLedConfiguration A P addr cfg st w).2.1.currentMode = st.currentMode ∧
      (st.currentMode = MODE_MULTI_LED →
        (setMultiLedConfiguration A P addr cfg st w).2.1.nActiveSlots = k) ∧
      (st.currentMode = MODE_HR_ONLY ∨ st.currentMode = MODE_SPO2 →
        (setMultiLedConfiguration A P addr cfg st w).2.1.nActiveSlots = st.nActiveSlots) := by
  refine ⟨?_, ?_⟩
  · have := countSlots_counts cfg 4 0 0 k (by decide) hacc
    rw [List.range_eq_range']
    omega
  · unfold setMultiLedConfiguration
    rw [hacc]
    simp only [setMultiLedConfigurationInternal]
    cases hres : writeBlock A addr MULTI_LED_CFG_REG_BASE (u8 P.sizeofPtr) (rawCfg P cfg) w with
    | mk b w1 =>
      rw [hres] at hwr
      simp only at hwr
      subst hwr
      simp only
      refine ⟨?_, ?_, ?_, ?_⟩
      · split_ifs <;> rfl
      · split_ifs <;> rfl
      · intro hm
        simp [hm]
      · intro hm
        have hne : st.currentMode ≠ MODE_MULTI_LED := by
          rcases hm with h | h <;> rw [h] <;> decide
        simp [hne]

/-- Witness for C14: [RED, IR, GREEN, off] with an acknowledged configuration
write and a failing FIFO clear, once in MODE_MULTI_LED and once in MODE_SPO2. -/
theorem C14_setMultiLedConfiguration_state_witness :
    ((setMultiLedConfiguration scriptBus ⟨2, fun _ => 0⟩ 0x57
        ⟨SLOT_RED, SLOT_IR, SLOT_GREEN, SLOT_OFF⟩ ⟨MODE_MULTI_LED, 1, 1⟩ ⟨[0, 1], []⟩).2.1.nConfiguredSlots
          = 3 ∧
      (setMultiLedConfiguration scriptBus ⟨2, fun _ => 0⟩ 0x57
        ⟨SLOT_RED, SLOT_IR, SLOT_GREEN, SLOT_OFF⟩ ⟨MODE_MULTI_LED, 1, 1⟩ ⟨[0, 1], []⟩).2.1.nActiveSlots
          = 3) ∧
    ((setMultiLedConfiguration scriptBus ⟨2, fun _ => 0⟩ 0x57
        ⟨SLOT_RED, SLOT_IR, SLOT_GREEN, SLOT_OFF⟩ ⟨MODE_SPO2, 2, 1⟩ ⟨[0, 1], []⟩).2.1.nConfiguredSlots
          = 3 ∧
      (setMultiLedConfiguration scriptBus ⟨2, fun _ => 0⟩ 0x57
        ⟨SLOT_RED, SLOT_IR, SLOT_GREEN, SLOT_OFF⟩ ⟨MODE_SPO2, 2, 1⟩ ⟨[0, 1], []⟩).2.1.nActiveSlots
          = 2) := by
  have h1 := C14_setMultiLedConfiguration_state scriptBus ⟨2, fun _ => 0⟩ 0x57
    ⟨SLOT_RED, SLOT_IR, SLOT_GREEN, SLOT_OFF⟩ ⟨MODE_MULTI_LED, 1, 1⟩ ⟨[0, 1], []⟩ 3 (by rfl) (by rfl)
  have h2 := C14_setMultiLedConfiguration_state scriptBus ⟨2, fun _ => 0⟩ 0x57
    ⟨SLOT_RED, SLOT_IR, SLOT_GREEN, SLOT_OFF⟩ ⟨MODE_SPO2, 2, 1⟩ ⟨[0, 1], []⟩ 3 (by rfl) (by rfl)
  exact ⟨⟨h1.2.1, h1.2.2.2.1 rfl⟩, ⟨h2.2.1, h2.2.2.2.2 (Or.inr rfl)⟩⟩

end ModeProps

/-! ## Bit-field setters -/

section SetterProps

variable {W : Type}

set_option maxRecDepth 1000000 in
/-- Bit arithmetic of `setSamplingRate` on a byte `old` and an in-range value `V`. -/
theorem rate_bits : ∀ old < 256, ∀ V < 8,
    u8 (u8 (andNot old (SPO2_CFG_SMP_RATE_MASK <<< SPO2_CFG_SMP_RATE_BIT)) |||
        ((u8 V &&& SPO2_CFG_SMP_RATE_MASK) <<< SPO2_CFG_SMP_RATE_BIT))
      = (old &&& 0xE3) ||| (V <<< 2) ∧
    (((old &&& 0xE3) ||| (V <<< 2)) >>> 2) &&& 7 = V ∧
    ((old &&& 0xE3) ||| (V <<< 2)) &&& 0xE3 = old &&& 0xE3 ∧
    (old &&& 0xE3) ||| (V <<< 2) < 256 := by
  decide

/-- What `setSamplingRate` does after a successful read of the byte `old`. -/
theorem setSamplingRate_write (A : Arduino W) (addr V old : Nat) (w w1 : W) (hV : V < 8)
    (hread : readByte A addr SPO2_CFG_REG w = (some old, w1)) :
    setSamplingRate A addr V w = writeByte A addr 0x0A ((old &&& 0xE3) ||| (V <<< 2)) w1 := by
  have hold := readByte_lt A addr _ w w1 old hread
  have h0 : andNot V SPO2_CFG_SMP_RATE_MASK = 0 := andNot_mask_eq_zero V 3 hV
  unfold setSamplingRate
  simp only [h0, ne_eq, not_true_eq_false, if_false, hread]
  rw [(rate_bits old hold V hV).1]
  rfl

/-- The effect of `setSamplingRate` on the register-file bus. -/
theorem setSamplingRate_regBus (addr V : Nat) (s : RegFile) (hV : V < 8) :
    setSamplingRate regBus addr V s =
      (true, ⟨Function.update s.regs 0x0A ((u8 (s.regs 0x0A) &&& 0xE3) ||| (V <<< 2)),
        0x0B, [], [], s.now⟩) := by
  rw [setSamplingRate_write regBus addr V _ s _ hV (regBus_readByte addr SPO2_CFG_REG s),
    regBus_writeByte]
  have hlt := (rate_bits (u8 (s.regs 0x0A)) (Nat.mod_lt _ (by decide)) V hV).2.2.2
  have hu : u8 ((u8 (s.regs 0x0A) &&& 0xE3) ||| (V <<< 2))
      = (u8 (s.regs 0x0A) &&& 0xE3) ||| (V <<< 2) := Nat.mod_eq_of_lt hlt
  show (true, (⟨Function.update s.regs 0x0A (u8 ((u8 (s.regs 0x0A) &&& 0xE3) ||| (V <<< 2))),
    0x0B, [], [], s.now⟩ : RegFile)) = _
  rw [hu]

/-- The function `setSamplingRate` rejects a value wider than its field before any bus
access. -/
theorem setSamplingRate_reject (A : Arduino W) (addr V : Nat) (w : W) (hV : 8 ≤ V) :
    setSamplingRate A addr V w = (false, w) := by
  have h : andNot V SPO2_CFG_SMP_RATE_MASK ≠ 0 := andNot_mask_ne_zero V 3 hV
  simp [setSamplingRate, h]

set_option maxRecDepth 1000000 in
/-- Bit arithmetic of `setADCRange` on a byte `old` and an in-range value `V`. -/
theorem range_bits : ∀ old < 256, ∀ V < 4,
    u8 (u8 (andNot old (SPO2_CFG_ADC_RANGE_MASK <<< SPO2_CFG_ADC_RANGE_BIT)) |||
        ((u8 V &&& SPO2_CFG_ADC_RANGE_MASK) <<< SPO2_CFG_ADC_RANGE_BIT))
      = (old &&& 0x9F) ||| (V <<< 5) ∧
    (((old &&& 0x9F) ||| (V <<< 5)) >>> 5) &&& 3 = V ∧
    ((old &&& 0x9F) ||| (V <<< 5)) &&& 0x9F = old &&& 0x9F ∧
    (old &&& 0x9F) ||| (V <<< 5) < 256 := by
  decide

/-- What `setADCRange` does after a successful read of the byte `old`. -/
theorem setADCRange_write (A : Arduino W) (addr V old : Nat) (w w1 : W) (hV : V < 4)
    (hread : readByte A addr SPO2_CFG_REG w = (some old, w1)) :
    setADCRange A addr V w = writeByte A addr 0x0A ((old &&& 0x9F) ||| (V <<< 5)) w1 := by
  have hold := readByte_lt A addr _ w w1 old hread
  have h0 : andNot V SPO2_CFG_ADC_RANGE_MASK = 0 := andNot_mask_eq_zero V 2 hV
  unfold setADCRange
  simp only [h0, ne_eq, not_true_eq_false, if_false, hread]
  rw [(range_bits old hold V hV).1]
  rfl

/-- The effect of `setADCRange` on the register-file bus. -/
theorem setADCRange_regBus (addr V : Nat) (s : RegFile) (hV : V < 4) :
    setADCRange regBus addr V s =
      (true, ⟨Function.update s.regs 0x0A ((u8 (s.regs 0x0A) &&& 0x9F) ||| (V <<< 5)),
        0x0B, [], [], s.now⟩) := by
  rw [setADCRange_write regBus addr V _ s _ hV (regBus_readByte addr SPO2_CFG_REG s),
    regBus_writeByte]
  have hlt := (range_bits (u8 (s.regs 0x0A)) (Nat.mod_lt _ (by decide)) V hV).2.2.2
  have hu : u8 ((u8 (s.regs 0x0A) &&& 0x9F) ||| (V <<< 5))
      = (u8 (s.regs 0x0A) &&& 0x9F) ||| (V <<< 5) := Nat.mod_eq_of_lt hlt
  show (true, (⟨Function.update s.regs 0x0A (u8 ((u8 (s.regs 0x0A) &&& 0x9F) ||| (V <<< 5))),
    0x0B, [], [], s.now⟩ : RegFile)) = _
  rw [hu]

/-- The function `setADCRange` rejects a value wider than its field before any bus
access. -/
theorem setADCRange_reject (A : Arduino W) (addr V : Nat) (w : W) (hV : 4 ≤ V) :
    setADCRange A addr V w = (false, w) := by
  have h : andNot V SPO2_CFG_ADC_RANGE_MASK ≠ 0 := andNot_mask_ne_zero V 2 hV
  simp [setADCRange, h]

set_option maxRecDepth 1000000 in
/-- Bit arithmetic of `setResolution` on a byte `old` and an in-range value `V`. -/
theorem resolution_bits : ∀ old < 256, ∀ V < 4,
    u8 (u8 (andNot old (SPO2_CFG_RESOLUTION_MASK <<< SPO2_CFG_RESOLUTION_BIT)) |||
        ((u8 V &&& SPO2_CFG_RESOLUTION_MASK) <<< SPO2_CFG_RESOLUTION_BIT))
      = (old &&& 0xFC) ||| (V <<< 0) ∧
    (((old &&& 0xFC) ||| (V <<< 0)) >>> 0) &&& 3 = V ∧
    ((old &&& 0xFC) ||| (V <<< 0)) &&& 0xFC = old &&& 0xFC ∧
    (old &&& 0xFC) ||| (V <<< 0) < 256 := by
  decide

/-- What `setResolution` does after a successful read of the byte `old`. -/
theorem setResolution_write (A : Arduino W) (addr V old : Nat) (w w1 : W) (hV : V < 4)
    (hread : readByte A addr SPO2_CFG_REG w = (some old, w1)) :
    setResolution A addr V w = writeByte A addr 0x0A ((old &&& 0xFC) ||| (V <<< 0)) w1 := by
  have hold := readByte_lt A addr _ w w1 old hread
  have h0 : andNot V SPO2_CFG_RESOLUTION_MASK = 0 := andNot_mask_eq_zero V 2 hV
  unfold setResolution
  simp only [h0, ne_eq, not_true_eq_false, if_false, hread]
  rw [(resolution_bits old hold V hV).1]
  rfl

/-- The effect of `setResolution` on the register-file bus. -/
theorem setResolution_regBus (addr V : Nat) (s : RegFile) (hV : V < 4) :
    setResolution regBus addr V s =
      (true, ⟨Function.update s.regs 0x0A ((u8 (s.regs 0x0A) &&& 0xFC) ||| (V <<< 0)),
        0x0B, [], [], s.now⟩) := by
  rw [setResolution_write regBus addr V _ s _ hV (regBus_readByte addr SPO2_CFG_REG s),
    regBus_writeByte]
  have hlt := (resolution_bits (u8 (s.regs 0x0A)) (Nat.mod_lt _ (by decide)) V hV).2.2.2
  have hu : u8 ((u8 (s.regs 0x0A) &&& 0xFC) ||| (V <<< 0))
      = (u8 (s.regs 0x0A) &&& 0xFC) ||| (V <<< 0) := Nat.mod_eq_of_lt hlt
  show (true, (⟨Function.update s.regs 0x0A (u8 ((u8 (s.regs 0x0A) &&& 0xFC) ||| (V <<< 0))),
    0x0B, [], [], s.now⟩ : RegFile)) = _
  rw [hu]

/-- The function `setResolution` rejects a value wider than its field before any bus
access. -/
theorem setResolution_reject (A : Arduino W) (addr V : Nat) (w : W) (hV : 4 ≤ V) :
    setResolution A addr V w = (false, w) := by
  have h : andNot V SPO2_CFG_RESOLUTION_MASK ≠ 0 := andNot_mask_ne_zero V 2 hV
  simp [setResolution, h]

set_option maxRecDepth 1000000 in
/-- Bit arithmetic of `setSampleAveraging` on a byte `old` and an in-range value `V`. -/
theorem averaging_bits : ∀ old < 256, ∀ V < 8,
    u8 (u8 (andNot old (FIFO_SMP_AVE_MASK <<< FIFO_SMP_AVE_BIT)) |||
        ((u8 V &&& FIFO_SMP_AVE_MASK) <<< FIFO_SMP_AVE_BIT))
      = (old &&& 0x1F) ||| (V <<< 5) ∧
    (((old &&& 0x1F) ||| (V <<< 5)) >>> 5) &&& 7 = V ∧
    ((old &&& 0x1F) ||| (V <<< 5)) &&& 0x1F = old &&& 0x1F ∧
    (old &&& 0x1F) ||| (V <<< 5) < 256 := by
  decide

/-- What `setSampleAveraging` does after a successful read of the byte `old`. -/
theorem setSampleAveraging_write (A : Arduino W) (addr V old : Nat) (w w1 : W) (hV : V < 8)
    (hread : readByte A addr FIFO_CFG_REG w = (some old, w1)) :
    setSampleAveraging A addr V w = writeByte A addr 0x08 ((old &&& 0x1F) ||| (V <<< 5)) w1 := by
  have hold := readByte_lt A addr _ w w1 old hread
  have h0 : andNot V FIFO_SMP_AVE_MASK = 0 := andNot_mask_eq_zero V 3 hV
  unfold setSampleAveraging
  simp only [h0, ne_eq, not_true_eq_false, if_false, hread]
  rw [(averaging_bits old hold V hV).1]
  rfl

/-- The effect of `setSampleAveraging` on the register-file bus. -/
theorem setSampleAveraging_regBus (addr V : Nat) (s : RegFile) (hV : V < 8) :
    setSampleAveraging regBus addr V s =
      (true, ⟨Function.update s.regs 0x08 ((u8 (s.regs 0x08) &&& 0x1F) ||| (V <<< 5)),
        0x09, [], [], s.now⟩) := by
  rw [setSampleAveraging_write regBus addr V _ s _ hV (regBus_readByte addr FIFO_CFG_REG s),
    regBus_writeByte]
  have hlt := (averaging_bits (u8 (s.regs 0x08)) (Nat.mod_lt _ (by decide)) V hV).2.2.2
  have hu : u8 ((u8 (s.regs 0x08) &&& 0x1F) ||| (V <<< 5))
      = (u8 (s.regs 0x08) &&& 0x1F) ||| (V <<< 5) := Nat.mod_eq_of_lt hlt
  show (true, (⟨Function.update s.regs 0x08 (u8 ((u8 (s.regs 0x08) &&& 0x1F) ||| (V <<< 5))),
    0x09, [], [], s.now⟩ : RegFile)) = _
  rw [hu]

/-- The function `setSampleAveraging` rejects a value wider than its field before any bus
access. -/
theorem setSampleAveraging_reject (A : Arduino W) (addr V : Nat) (w : W) (hV : 8 ≤ V) :
    setSampleAveraging A addr V w = (false, w) := by
  have h : andNot V FIFO_SMP_AVE_MASK ≠ 0 := andNot_mask_ne_zero V 3 hV
  simp [setSampleAveraging, h]

set_option maxRecDepth 1000000 in
/-- Clearing the rate field, respectively the resolution field, of a byte as
`MAX30100::setSamplingRate` and `MAX30100::setResolution` do. -/
theorem MAX30100_clear_bits : ∀ old < 256,
    u8 (andNot old (0x7 <<< 2)) = old &&& 0xE3 ∧ u8 (andNot old 0x3) = old &&& 0xFC := by
  decide

set_option maxRecDepth 1000000 in
/-- Field read-back for the two MAX30100 setters on in-range values. -/
theorem MAX30100_field_bits : ∀ old < 256, ∀ V < 8,
    ((((old &&& 0xE3) ||| ((V % 256) <<< 2)) % 256) >>> 2) &&& 7 = V ∧
      (V < 4 → (((old &&& 0xFC) ||| (V % 256)) % 256) &&& 3 = V) := by
  decide

/-- What `MAX30100::setSamplingRate` does after a successful read, for every
value. -/
theorem MAX30100_setSamplingRate_write (A : Arduino W) (addr V old : Nat) (w w1 : W)
    (hread : readByte A addr MAX30100_SPO2_CFG_REG w = (some old, w1)) :
    MAX30100_setSamplingRate A addr V w =
      writeByte A addr 0x07 (((old &&& 0xE3) ||| ((V % 256) <<< 2)) % 256) w1 := by
  have hold := readByte_lt A addr _ w w1 old hread
  unfold MAX30100_setSamplingRate
  simp only [hread]
  rw [(MAX30100_clear_bits old hold).1]
  rfl

/-- What `MAX30100::setResolution` does after a successful read, for every
value. -/
theorem MAX30100_setResolution_write (A : Arduino W) (addr V old : Nat) (w w1 : W)
    (hread : readByte A addr MAX30100_SPO2_CFG_REG w = (some old, w1)) :
    MAX30100_setResolution A addr V w =
      writeByte A addr 0x07 (((old &&& 0xFC) ||| (V % 256)) % 256) w1 := by
  have hold := readByte_lt A addr _ w w1 old hread
  unfold MAX30100_setResolution
  simp only [hread]
  rw [(MAX30100_clear_bits old hold).2]
  rfl

/-- The effect of `MAX30100::setSamplingRate` on the register-file bus. -/
theorem MAX30100_setSamplingRate_regBus (addr V : Nat) (s : RegFile) :
    MAX30100_setSamplingRate regBus addr V s =
      (true, ⟨Function.update s.regs 0x07 (((u8 (s.regs 0x07) &&& 0xE3) ||| ((V % 256) <<< 2)) % 256),
        0x08, [], [], s.now⟩) := by
  rw [MAX30100_setSamplingRate_write regBus addr V _ s _
    (regBus_readByte addr MAX30100_SPO2_CFG_REG s), regBus_writeByte]
  show (true, (⟨Function.update s.regs 0x07
    ((((u8 (s.regs 0x07) &&& 0xE3) ||| ((V % 256) <<< 2)) % 256) % 256), 0x08, [], [], s.now⟩ : RegFile)) = _
  rw [Nat.mod_mod]

/-- The effect of `MAX30100::setResolution` on the register-file bus. -/
theorem MAX30100_setResolution_regBus (addr V : Nat) (s : RegFile) :
    MAX30100_setResolution regBus addr V s =
      (true, ⟨Function.update s.regs 0x07 (((u8 (s.regs 0x07) &&& 0xFC) ||| (V % 256)) % 256),
        0x08, [], [], s.now⟩) := by
  rw [MAX30100_setResolution_write regBus addr V _ s _
    (regBus_readByte addr MAX30100_SPO2_CFG_REG s), regBus_writeByte]
  show (true, (⟨Function.update s.regs 0x07
    ((((u8 (s.regs 0x07) &&& 0xFC) ||| (V % 256)) % 256) % 256), 0x08, [], [], s.now⟩ : RegFile)) = _
  rw [Nat.mod_mod]

/-- Claim C16: bit-field round trip on the register-file bus.  For the
multi-LED engine, after `setSamplingRate(V)` with `V` in 0..7 the field
`(reg 0x0A >> 2) & 7` equals `V`, after `setADCRange(V)` with `V` in 0..3 the
field `(reg 0x0A >> 5) & 3` equals `V`, after `setResolution(V)` with `V` in
0..3 the field `reg 0x0A & 3` equals `V`, after `setSampleAveraging(V)` with
`V` in 0..7 the field `(reg 0x08 >> 5) & 7` equals `V`; for the MAX30100,
after `setSamplingRate(V)` with `V` in 0..7 the field `(reg 0x07 >> 2) & 7`
equals `V` and after `setResolution(V)` with `V` in 0..3 the field
`reg 0x07 & 3` equals `V`; each call returns true. -/
theorem C16_bit_field_round_trip (addr V : Nat) (s : RegFile) :
    (V ≤ 7 → (setSamplingRate regBus addr V s).1 = true ∧
      ((setSamplingRate regBus addr V s).2.regs 0x0A >>> 2) &&& 7 = V) ∧
    (V ≤ 3 → (setADCRange regBus addr V s).1 = true ∧
      ((setADCRange regBus addr V s).2.regs 0x0A >>> 5) &&& 3 = V) ∧
    (V ≤ 3 → (setResolution regBus addr V s).1 = true ∧
      (setResolution regBus addr V s).2.regs 0x0A &&& 3 = V) ∧
    (V ≤ 7 → (setSampleAveraging regBus addr V s).1 = true ∧
      ((setSampleAveraging regBus addr V s).2.regs 0x08 >>> 5) &&& 7 = V) ∧
    (V ≤ 7 → (MAX30100_setSamplingRate regBus addr V s).1 = true ∧
      ((MAX30100_setSamplingRate regBus addr V s).2.regs 0x07 >>> 2) &&& 7 = V) ∧
    (V ≤ 3 → (MAX30100_setResolution regBus addr V s).1 = true ∧
      (MAX30100_setResolution regBus addr V s).2.regs 0x07 &&& 3 = V) := by
  have hb : ∀ r, u8 (s.regs r) < 256 := fun r => Nat.mod_lt _ (by decide)
  refine ⟨?_, ?_, ?_, ?_, ?_, ?_⟩
  · intro hV
    have hV2 : V < 8 := by omega
    rw [setSamplingRate_regBus addr V s hV2]
    refine ⟨rfl, ?_⟩
    simpa using (rate_bits _ (hb 0x0A) V hV2).2.1
  · intro hV
    have hV2 : V < 4 := by omega
    rw [setADCRange_regBus addr V s hV2]
    refine ⟨rfl, ?_⟩
    simpa using (range_bits _ (hb 0x0A) V hV2).2.1
  · intro hV
    have hV2 : V < 4 := by omega
    rw [setResolution_regBus addr V s hV2]
    refine ⟨rfl, ?_⟩
    simpa using (resolution_bits _ (hb 0x0A) V hV2).2.1
  · intro hV
    have hV2 : V < 8 := by omega
    rw [setSampleAveraging_regBus addr V s hV2]
    refine ⟨rfl, ?_⟩
    simpa using (averaging_bits _ (hb 0x08) V hV2).2.1
  · intro hV
    have hV2 : V < 8 := by omega
    rw [MAX30100_setSamplingRate_regBus addr V s]
    refine ⟨rfl, ?_⟩
    simpa using (MAX30100_field_bits _ (hb 0x07) V hV2).1
  · intro hV
    have hV2 : V < 8 := by omega
    rw [MAX30100_setResolution_regBus addr V s]
    refine ⟨rfl, ?_⟩
    simpa using (MAX30100_field_bits _ (hb 0x07) V hV2).2 (by omega)

/-- Witness for C16: the value 5 for the three-bit fields and the value 2 for
the two-bit fields, on a register file holding 0xC5. -/
theorem C16_bit_field_round_trip_witness :
    ((setSamplingRate regBus 0x57 5 regsDemo).2.regs 0x0A >>> 2) &&& 7 = 5 ∧
      ((setADCRange regBus 0x57 2 regsDemo).2.regs 0x0A >>> 5) &&& 3 = 2 ∧
      (setResolution regBus 0x57 2 regsDemo).2.regs 0x0A &&& 3 = 2 ∧
      ((setSampleAveraging regBus 0x57 5 regsDemo).2.regs 0x08 >>> 5) &&& 7 = 5 ∧
      ((MAX30100_setSamplingRate regBus 0x57 5 regsDemo).2.regs 0x07 >>> 2) &&& 7 = 5 ∧
      (MAX30100_setResolution regBus 0x57 2 regsDemo).2.regs 0x07 &&& 3 = 2 := by
  have h5 := C16_bit_field_round_trip 0x57 5 regsDemo
  have h2 := C16_bit_field_round_trip 0x57 2 regsDemo
  exact ⟨(h5.1 (by decide)).2, (h2.2.1 (by decide)).2, (h2.2.2.1 (by decide)).2,
    (h5.2.2.2.1 (by decide)).2, (h5.2.2.2.2.1 (by decide)).2, (h2.2.2.2.2.2 (by decide)).2⟩

/-- Bits of a byte outside a field are kept when the byte agrees with the old
one under the complement `K` of the field mask. -/
theorem frame_testBit (old X K i : Nat) (hold : old < 256) (hX : X < 256)
    (h : X &&& K = old &&& K) (hK : i < 8 → K.testBit i = true) :
    X.testBit i = old.testBit i := by
  by_cases hi : i < 8
  · have hb := congrArg (fun n => Nat.testBit n i) h
    simp only [Nat.testBit_and, hK hi, Bool.and_true] at hb
    exact hb
  · have hp : 256 ≤ 2 ^ i := by
      have : 2 ^ 8 ≤ 2 ^ i := Nat.pow_le_pow_right (by decide) (by omega)
      simpa using this
    rw [Nat.testBit_lt_two_pow (by omega), Nat.testBit_lt_two_pow (by omega)]

set_option maxRecDepth 1000000 in
/-- The three setters of register 0x0A act on disjoint fields. -/
theorem spo2_fields_commute : ∀ old < 256, ∀ a < 8, ∀ b < 4,
    (u8 ((old &&& 0xE3) ||| (a <<< 2)) &&& 0x9F) ||| (b <<< 5)
        = (u8 ((old &&& 0x9F) ||| (b <<< 5)) &&& 0xE3) ||| (a <<< 2) ∧
      (u8 ((old &&& 0xE3) ||| (a <<< 2)) &&& 0xFC) ||| (b <<< 0)
        = (u8 ((old &&& 0xFC) ||| (b <<< 0)) &&& 0xE3) ||| (a <<< 2) := by
  decide

set_option maxRecDepth 1000000 in
/-- The range and resolution setters of register 0x0A act on disjoint fields. -/
theorem spo2_range_resolution_commute : ∀ old < 256, ∀ a < 4, ∀ b < 4,
    (u8 ((old &&& 0x9F) ||| (a <<< 5)) &&& 0xFC) ||| (b <<< 0)
      = (u8 ((old &&& 0xFC) ||| (b <<< 0)) &&& 0x9F) ||| (a <<< 5) := by
  decide

/-- Claim C17: for the multi-LED engine, each of `setSamplingRate`,
`setADCRange`, `setResolution` and `setSampleAveraging`, called with an
in-range value `V` after a successful read of the byte `old`, hands exactly
`(old & ~(mask << pos)) | (V << pos)` to the register write (on eight bits
`~(7 << 2)` is 0xE3, `~(3 << 5)` is 0x9F, `~(3 << 0)` is 0xFC and `~(7 << 5)`
is 0x1F), and every bit outside the field of the setter is the bit that was
read; on the register-file bus `setSamplingRate`, `setADCRange` and
`setResolution` commute pairwise. -/
theorem C17_setters_keep_other_bits (A : Arduino W) (addr V old : Nat) (w w1 : W) :
    (V ≤ 7 → readByte A addr SPO2_CFG_REG w = (some old, w1) →
      setSamplingRate A addr V w = writeByte A addr 0x0A ((old &&& 0xE3) ||| (V <<< 2)) w1 ∧
      ∀ i, i < 2 ∨ 5 ≤ i → ((old &&& 0xE3) ||| (V <<< 2)).testBit i = old.testBit i) ∧
    (V ≤ 3 → readByte A addr SPO2_CFG_REG w = (some old, w1) →
      setADCRange A addr V w = writeByte A addr 0x0A ((old &&& 0x9F) ||| (V <<< 5)) w1 ∧
      ∀ i, i < 5 ∨ 7 ≤ i → ((old &&& 0x9F) ||| (V <<< 5)).testBit i = old.testBit i) ∧
    (V ≤ 3 → readByte A addr SPO2_CFG_REG w = (some old, w1) →
      setResolution A addr V w = writeByte A addr 0x0A ((old &&& 0xFC) ||| (V <<< 0)) w1 ∧
      ∀ i, 2 ≤ i → ((old &&& 0xFC) ||| (V <<< 0)).testBit i = old.testBit i) ∧
    (V ≤ 7 → readByte A addr FIFO_CFG_REG w = (some old, w1) →
      setSampleAveraging A addr V w = writeByte A addr 0x08 ((old &&& 0x1F) ||| (V <<< 5)) w1 ∧
      ∀ i, i < 5 ∨ 8 ≤ i → ((old &&& 0x1F) ||| (V <<< 5)).testBit i = old.testBit i) ∧
    (∀ (s : RegFile) (a b c : Nat), a ≤ 7 → b ≤ 3 → c ≤ 3 →
      (setADCRange regBus addr b (setSamplingRate regBus addr a s).2).2.regs
        = (setSamplingRate regBus addr a (setADCRange regBus addr b s).2).2.regs ∧
      (setResolution regBus addr c (setSamplingRate regBus addr a s).2).2.regs
        = (setSamplingRate regBus addr a (setResolution regBus addr c s).2).2.regs ∧
      (setResolution regBus addr c (setADCRange regBus addr b s).2).2.regs
        = (setADCRange regBus addr b (setResolution regBus addr c s).2).2.regs) := by
  refine ⟨?_, ?_, ?_, ?_, ?_⟩
  · intro hV hread
    have hV2 : V < 8 := by omega
    have hold := readByte_lt A addr _ w w1 old hread
    obtain ⟨_, _, hk, hlt⟩ := rate_bits old hold V hV2
    refine ⟨setSamplingRate_write A addr V old w w1 hV2 hread, fun i hi => ?_⟩
    refine frame_testBit old _ 0xE3 i hold hlt hk (fun h8 => ?_)
    interval_cases i <;> first | rfl | omega
  · intro hV hread
    have hV2 : V < 4 := by omega
    have hold := readByte_lt A addr _ w w1 old hread
    obtain ⟨_, _, hk, hlt⟩ := range_bits old hold V hV2
    refine ⟨setADCRange_write A addr V old w w1 hV2 hread, fun i hi => ?_⟩
    refine frame_testBit old _ 0x9F i hold hlt hk (fun h8 => ?_)
    interval_cases i <;> first | rfl | omega
  · intro hV hread
    have hV2 : V < 4 := by omega
    have hold := readByte_lt A addr _ w w1 old hread
    obtain ⟨_, _, hk, hlt⟩ := resolution_bits old hold V hV2
    refine ⟨setResolution_write A addr V old w w1 hV2 hread, fun i hi => ?_⟩
    refine frame_testBit old _ 0xFC i hold hlt hk (fun h8 => ?_)
    interval_cases i <;> rfl
  · intro hV hread
    have hV2 : V < 8 := by omega
    have hold := readByte_lt A addr _ w w1 old hread
    obtain ⟨_, _, hk, hlt⟩ := averaging_bits old hold V hV2
    refine ⟨setSampleAveraging_write A addr V old w w1 hV2 hread, fun i hi => ?_⟩
    refine frame_testBit old _ 0x1F i hold hlt hk (fun h8 => ?_)
    interval_cases i <;> first | rfl | omega
  · intro s a b c ha hb hc
    have ha2 : a < 8 := by omega
    have hb2 : b < 4 := by omega
    have hc2 : c < 4 := by omega
    have hold : u8 (s.regs 0x0A) < 256 := Nat.mod_lt _ (by decide)
    obtain ⟨e1, e2⟩ := spo2_fields_commute _ hold a ha2 b hb2
    obtain ⟨_, e2c⟩ := spo2_fields_commute _ hold a ha2 c hc2
    have e3 := spo2_range_resolution_commute _ hold b hb2 c hc2
    simp only [setSamplingRate_regBus _ _ _ ha2, setADCRange_regBus _ _ _ hb2,
      setResolution_regBus _ _ _ hc2, Function.update_same, Function.update_idem]
    rw [e1, e2c, e3]
    exact ⟨rfl, rfl, rfl⟩

/-- Claim C18: for the multi-LED engine, `setSamplingRate`, `setADCRange`,
`setResolution` and `setSampleAveraging` called with a value that has a bit
set outside the field mask (0x7, 0x3, 0x3, 0x7), that is a value of at least
8, 4, 4, 8, return false and leave the environment untouched (no bus access). -/
theorem C18_setters_reject_wide_values (A : Arduino W) (addr V : Nat) (w : W) :
    (8 ≤ V → setSamplingRate A addr V w = (false, w)) ∧
      (4 ≤ V → setADCRange A addr V w = (false, w)) ∧
      (4 ≤ V → setResolution A addr V w = (false, w)) ∧
      (8 ≤ V → setSampleAveraging A addr V w = (false, w)) ∧
      (8 ≤ V ↔ ∃ i, 3 ≤ i ∧ V.testBit i = true) ∧ (4 ≤ V ↔ ∃ i, 2 ≤ i ∧ V.testBit i = true) :=
  ⟨setSamplingRate_reject A addr V w, setADCRange_reject A addr V w,
    setResolution_reject A addr V w, setSampleAveraging_reject A addr V w,
    ⟨fun h => Nat.ge_two_pow_implies_high_bit_true (show V ≥ 2 ^ 3 from h),
      fun ⟨i, hi, hb⟩ => by
        by_contra hlt
        have : V < 2 ^ i := lt_of_lt_of_le (by omega : V < 2 ^ 3) (Nat.pow_le_pow_right (by decide) hi)
        rw [Nat.testBit_lt_two_pow this] at hb
        exact Bool.noConfusion hb⟩,
    ⟨fun h => Nat.ge_two_pow_implies_high_bit_true (show V ≥ 2 ^ 2 from h),
      fun ⟨i, hi, hb⟩ => by
        by_contra hlt
        have : V < 2 ^ i := lt_of_lt_of_le (by omega : V < 2 ^ 2) (Nat.pow_le_pow_right (by decide) hi)
        rw [Nat.testBit_lt_two_pow this] at hb
        exact Bool.noConfusion hb⟩⟩

/-- Witness for C17: the sampling rate 5 written over the byte 0xC5 on the
scripted bus, and the three setters in both orders on a register file. -/
theorem C17_setters_keep_other_bits_witness :
    setSamplingRate scriptBus 0x57 5 demoRead =
        writeByte scriptBus 0x57 0x0A 0xD5 (readByte scriptBus 0x57 0x0A demoRead).2 ∧
      (setADCRange regBus 0x57 2 (setSamplingRate regBus 0x57 5 regsDemo).2).2.regs
        = (setSamplingRate regBus 0x57 5 (setADCRange regBus 0x57 2 regsDemo).2).2.regs := by
  have h := C17_setters_keep_other_bits scriptBus 0x57 5 0xC5 demoRead
    (readByte scriptBus 0x57 0x0A demoRead).2
  exact ⟨(h.1 (by decide) (by rfl)).1,
    (h.2.2.2.2 regsDemo 5 2 2 (by decide) (by decide) (by decide)).1⟩

/-- Witness for C18: the values 8 and 4 on the scripted bus. -/
theorem C18_setters_reject_wide_values_witness :
    setSamplingRate scriptBus 0x57 8 demoRead = (false, demoRead) ∧
      setADCRange scriptBus 0x57 4 demoRead = (false, demoRead) ∧
      setResolution scriptBus 0x57 4 demoRead = (false, demoRead) ∧
      setSampleAveraging scriptBus 0x57 8 demoRead = (false, demoRead) := by
  have h8 := C18_setters_reject_wide_values scriptBus 0x57 8 demoRead
  have h4 := C18_setters_reject_wide_values scriptBus 0x57 4 demoRead
  exact ⟨h8.1 (by decide), h4.2.1 (by decide), h4.2.2.1 (by decide), h8.2.2.2.1 (by decide)⟩

/-- Claim C19 as stated fails: on the register-file bus with register 0x07
holding 0, `MAX30100::setSamplingRate(8)` returns true and leaves 0x20 in the
register, and `MAX30100::setResolution(4)` returns true and leaves 0x04. -/
theorem C19_MAX30100_out_of_range_not_rejected :
    regs0.regs 0x07 = 0 ∧
      (MAX30100_setSamplingRate regBus 0x57 8 regs0).1 = true ∧
      (MAX30100_setSamplingRate regBus 0x57 8 regs0).2.regs 0x07 = 0x20 ∧
      (MAX30100_setResolution regBus 0x57 4 regs0).1 = true ∧
      (MAX30100_setResolution regBus 0x57 4 regs0).2.regs 0x07 = 0x04 := by
  refine ⟨rfl, ?_, ?_, ?_, ?_⟩
  · rw [MAX30100_setSamplingRate_regBus]
  · rw [MAX30100_setSamplingRate_regBus]; rfl
  · rw [MAX30100_setResolution_regBus]
  · rw [MAX30100_setResolution_regBus]; rfl

/-- Claim C19, amended: the MAX30100 setters `setSamplingRate(V)` and
`setResolution(V)` make no range check.  For every `V`, when the read of
register 0x07 fails they return false and write nothing; when it succeeds with
the byte `old` they return the result of writing
`((old & ~0x1C) | (uint8(V) << 2)) mod 256`, respectively
`((old & ~0x03) | uint8(V)) mod 256`, to register 0x07. -/
theorem C19_MAX30100_setters_no_range_check (A : Arduino W) (addr V : Nat) (w : W) :
    (∀ w1, readByte A addr 0x07 w = (none, w1) →
      MAX30100_setSamplingRate A addr V w = (false, w1) ∧
      MAX30100_setResolution A addr V w = (false, w1)) ∧
    (∀ old w1, readByte A addr 0x07 w = (some old, w1) →
      MAX30100_setSamplingRate A addr V w =
        writeByte A addr 0x07 (((old &&& 0xE3) ||| ((V % 256) <<< 2)) % 256) w1 ∧
      MAX30100_setResolution A addr V w =
        writeByte A addr 0x07 (((old &&& 0xFC) ||| (V % 256)) % 256) w1) := by
  constructor
  · intro w1 h
    have h2 : readByte A addr MAX30100_SPO2_CFG_REG w = (none, w1) := h
    simp [MAX30100_setSamplingRate, MAX30100_setResolution, h2]
  · intro old w1 h
    exact ⟨MAX30100_setSamplingRate_write A addr V old w w1 h,
      MAX30100_setResolution_write A addr V old w w1 h⟩

/-- Witness for the amended C19: a failed read, and the value 8 written over
the byte 0xC5, on the scripted bus. -/
theorem C19_MAX30100_setters_no_range_check_witness :
    MAX30100_setSamplingRate scriptBus 0x57 8 ⟨[1], []⟩
        = (false, (readByte scriptBus 0x57 0x07 ⟨[1], []⟩).2) ∧
      MAX30100_setSamplingRate scriptBus 0x57 8 demoRead
        = writeByte scriptBus 0x57 0x07 0xE1 (readByte scriptBus 0x57 0x07 demoRead).2 := by
  have hf := (C19_MAX30100_setters_no_range_check scriptBus 0x57 8 ⟨[1], []⟩).1 _ (by rfl)
  have hs := (C19_MAX30100_setters_no_range_check scriptBus 0x57 8 demoRead).2 0xC5 _ (by rfl)
  exact ⟨hf.1, hs.1⟩

end SetterProps

/-! ## Interrupt configuration -/

section InterruptProps

variable {W : Type}

/-- Claim C20: `enableInterrupt(id)` and `disableInterrupt(id)` return false
and leave the environment untouched (no bus access) when `id >= INT_CNT` or
when the table entry of `id` is absent (configuration register 0xFF or
configuration bit at least 8).  With the tables of the MAX30100 and of the
MAX30101, where `INT_CNT` is 5, this rejects exactly the ids from 4 on; for
the ids 0..3 the calls go on to `setBit` on the mapped register and bit. -/
theorem C20_interrupt_id_validation (A : Arduino W) (v : Variant) (addr interrupt : Nat)
    (w : W) :
    (interrupt ≥ v.INT_CNT ∨ v.INT_CFG_REG.getD interrupt 0 = 0xFF ∨
        v.INT_CFG_BIT.getD interrupt 0 ≥ 8 →
      enableInterrupt A v addr interrupt w = (false, w) ∧
      disableInterrupt A v addr interrupt w = (false, w)) ∧
    (v = MAX30100 ∨ v = MAX30101 →
      v.INT_CNT = 5 ∧
      (4 ≤ interrupt →
        enableInterrupt A v addr interrupt w = (false, w) ∧
        disableInterrupt A v addr interrupt w = (false, w)) ∧
      (interrupt < 4 →
        v.INT_CFG_REG.getD interrupt 0 ≠ 0xFF ∧ v.INT_CFG_BIT.getD interrupt 0 < 8 ∧
        enableInterrupt A v addr interrupt w =
          setBit A addr (v.INT_CFG_REG.getD interrupt 0) (v.INT_CFG_BIT.getD interrupt 0) true w ∧
        disableInterrupt A v addr interrupt w =
          setBit A addr (v.INT_CFG_REG.getD interrupt 0) (v.INT_CFG_BIT.getD interrupt 0) false
            w)) := by
  have hgen : interrupt ≥ v.INT_CNT ∨ v.INT_CFG_REG.getD interrupt 0 = 0xFF ∨
      v.INT_CFG_BIT.getD interrupt 0 ≥ 8 →
      enableInterrupt A v addr interrupt w = (false, w) ∧
      disableInterrupt A v addr interrupt w = (false, w) := by
    intro h
    unfold enableInterrupt disableInterrupt
    by_cases h1 : interrupt ≥ v.INT_CNT
    · simp [h1]
    · have h2 : v.INT_CFG_REG.getD interrupt 0 = 0xFF ∨ v.INT_CFG_BIT.getD interrupt 0 ≥ 8 := by
        rcases h with h | h
        · exact absurd h h1
        · exact h
      simp only [h1, if_false, h2, if_true, and_self]
  refine ⟨hgen, fun hv => ?_⟩
  rcases hv with hv | hv <;> subst hv
  · refine ⟨rfl, fun h4 => hgen ?_, fun h4 => ?_⟩
    · by_cases h5 : interrupt = 4
      · subst h5
        exact Or.inr (Or.inl rfl)
      · exact Or.inl (by show interrupt ≥ 5; omega)
    · interval_cases interrupt <;>
        exact ⟨by decide, by decide, rfl, rfl⟩
  · refine ⟨rfl, fun h4 => hgen ?_, fun h4 => ?_⟩
    · by_cases h5 : interrupt = 4
      · subst h5
        exact Or.inr (Or.inl rfl)
      · exact Or.inl (by show interrupt ≥ 5; omega)
    · interval_cases interrupt <;>
        exact ⟨by decide, by decide, rfl, rfl⟩

/-- Witness for C20: the ids 4 and 1 on a MAX30101, on the scripted bus. -/
theorem C20_interrupt_id_validation_witness :
    enableInterrupt scriptBus MAX30101 0x57 4 demoRead = (false, demoRead) ∧
      disableInterrupt scriptBus MAX30100 0x57 7 demoRead = (false, demoRead) ∧
      enableInterrupt scriptBus MAX30101 0x57 1 demoRead = setBit scriptBus 0x57 0x03 1 true demoRead := by
  have a := (C20_interrupt_id_validation scriptBus MAX30101 0x57 4 demoRead).1
    (Or.inr (Or.inl rfl))
  have b := ((C20_interrupt_id_validation scriptBus MAX30100 0x57 7 demoRead).2
    (Or.inl rfl)).2.1 (by decide)
  have c := ((C20_interrupt_id_validation scriptBus MAX30101 0x57 1 demoRead).2
    (Or.inr rfl)).2.2 (by decide)
  exact ⟨a.1, b.2, c.2.2.1⟩

end InterruptProps

/-! ## Bit setting -/

section SetBitProps

variable {W : Type}

/-- Bits of a value converted to `uint8_t`. -/
theorem u8_testBit (x i : Nat) : (u8 x).testBit i = (decide (i < 8) && x.testBit i) := by
  show (x % 2 ^ 8).testBit i = _
  exact Nat.testBit_mod_two_pow x 8 i

/-- Bits of `1 << bit`. -/
theorem one_shiftLeft_testBit (bit i : Nat) : (1 <<< bit).testBit i = decide (bit = i) := by
  rw [Nat.one_shiftLeft, Nat.testBit_two_pow]

/-- The byte computed by `setBit` from the byte `old`: bit `bit` is `value`,
every other bit is that of `old`. -/
theorem setBit_byte_testBit (old bit i : Nat) (value : Bool) (hold : old < 256) (hbit : bit < 8) :
    (if value then u8 (u8 (andNot old (1 <<< bit)) ||| (1 <<< bit))
      else u8 (andNot old (1 <<< bit))).testBit i
      = if i = bit then value else old.testBit i := by
  have hhi : ¬ i < 8 → old.testBit i = false := by
    intro h
    apply Nat.testBit_lt_two_pow
    have : 2 ^ 8 ≤ 2 ^ i := Nat.pow_le_pow_right (by decide) (by omega)
    omega
  simp only [Nat.one_shiftLeft]
  by_cases hi : i < 8
  · by_cases hib : i = bit
    · subst hib
      cases value <;>
        simp [u8_testBit, andNot_testBit, Nat.testBit_two_pow, Nat.testBit_or, hi]
    · have hne : ¬ bit = i := fun h => hib h.symm
      cases value <;>
        simp [u8_testBit, andNot_testBit, Nat.testBit_two_pow, Nat.testBit_or, hi, hib, hne]
  · have hib : i ≠ bit := by omega
    cases value <;>
      simp [u8_testBit, andNot_testBit, Nat.testBit_two_pow, Nat.testBit_or, hi, hib, hhi hi]

/-- What `setBit` does after a successful read of the byte `old`. -/
theorem setBit_write (A : Arduino W) (addr reg bit old : Nat) (value : Bool) (w w1 : W)
    (hread : readByte A addr reg w = (some old, w1)) :
    setBit A addr reg bit value w =
      writeByte A addr reg
        (if value then u8 (u8 (andNot old (1 <<< bit)) ||| (1 <<< bit))
          else u8 (andNot old (1 <<< bit))) w1 := by
  simp [setBit, hread]

/-- After a failed read `setBit` returns false and does nothing more. -/
theorem setBit_read_fails (A : Arduino W) (addr reg bit : Nat) (value : Bool) (w w1 : W)
    (hread : readByte A addr reg w = (none, w1)) :
    setBit A addr reg bit value w = (false, w1) := by
  simp [setBit, hread]

/-- The byte computed by `setBit` is a `uint8_t` value. -/
theorem setBit_byte_lt (old bit : Nat) (value : Bool) :
    (if value then u8 (u8 (andNot old (1 <<< bit)) ||| (1 <<< bit))
      else u8 (andNot old (1 <<< bit))) < 256 := by
  cases value <;> exact Nat.mod_lt _ (by decide)

/-- The effect of `setBit` on the register-file bus. -/
theorem setBit_regBus (addr reg bit : Nat) (value : Bool) (s : RegFile) :
    setBit regBus addr reg bit value s =
      (true, ⟨Function.update s.regs (u8 reg)
        (if value then u8 (u8 (andNot (u8 (s.regs (u8 reg))) (1 <<< bit)) ||| (1 <<< bit))
          else u8 (andNot (u8 (s.regs (u8 reg))) (1 <<< bit))),
        u8 (reg + 1), [], [], s.now⟩) := by
  rw [setBit_write regBus addr reg bit _ value s _ (regBus_readByte addr reg s), regBus_writeByte]
  have hu := Nat.mod_eq_of_lt (setBit_byte_lt (u8 (s.regs (u8 reg))) bit value)
  show (true, (⟨Function.update s.regs (u8 reg)
    (u8 (if value then u8 (u8 (andNot (u8 (s.regs (u8 reg))) (1 <<< bit)) ||| (1 <<< bit))
      else u8 (andNot (u8 (s.regs (u8 reg))) (1 <<< bit)))),
    u8 (reg + 1), [], [], s.now⟩ : RegFile)) = _
  unfold u8 at hu ⊢
  rw [hu]

/-- Frame of `setBit` on the register-file bus, for a register address below
256 holding a byte. -/
theorem setBit_regBus_frame (addr reg bit : Nat) (value : Bool) (s : RegFile) (hreg : reg < 256)
    (hbit : bit < 8) (hbyte : s.regs reg < 256) :
    (setBit regBus addr reg bit value s).1 = true ∧
      ((setBit regBus addr reg bit value s).2.regs reg).testBit bit = value ∧
      (∀ i, i ≠ bit →
        ((setBit regBus addr reg bit value s).2.regs reg).testBit i = (s.regs reg).testBit i) ∧
      (∀ r, r ≠ reg → (setBit regBus addr reg bit value s).2.regs r = s.regs r) := by
  have hr : u8 reg = reg := Nat.mod_eq_of_lt hreg
  have hb : u8 (s.regs reg) = s.regs reg := Nat.mod_eq_of_lt hbyte
  rw [setBit_regBus, hr, hb]
  refine ⟨rfl, ?_, ?_, ?_⟩
  · simp only [Function.update_same]
    rw [setBit_byte_testBit _ _ _ _ hbyte hbit]
    simp
  · intro i hi
    simp only [Function.update_same]
    rw [setBit_byte_testBit _ _ _ _ hbyte hbit]
    simp [hi]
  · intro r hne
    simp [Function.update, hne]

/-- For the ids 0..3 of the MAX30100 and of the MAX30101 the interrupt calls
are `setBit` on a register below 256 and a bit below 8. -/
theorem interrupt_calls_eq_setBit (A : Arduino W) (v : Variant) (hv : v = MAX30100 ∨ v = MAX30101)
    (addr interrupt : Nat) (w : W) (hid : interrupt < 4) :
    v.INT_CFG_REG.getD interrupt 0 < 256 ∧ v.INT_CFG_BIT.getD interrupt 0 < 8 ∧
      enableInterrupt A v addr interrupt w =
        setBit A addr (v.INT_CFG_REG.getD interrupt 0) (v.INT_CFG_BIT.getD interrupt 0) true w ∧
      disableInterrupt A v addr interrupt w =
        setBit A addr (v.INT_CFG_REG.getD interrupt 0) (v.INT_CFG_BIT.getD interrupt 0) false w := by
  rcases hv with hv | hv <;> subst hv <;> interval_cases interrupt <;>
    exact ⟨by decide, by decide, rfl, rfl⟩

/-- Claim C21: for the MAX30100 and the MAX30101 and every id in 0..3, on the
register-file bus (the configuration register holding a byte),
`enableInterrupt(id)` returns true and sets, `disableInterrupt(id)` returns
true and clears, bit `INT_CFG_BIT[id]` of register `INT_CFG_REG[id]`; every
other bit of that register and every other register keep their value. -/
theorem C21_interrupt_enable_frame (v : Variant) (hv : v = MAX30100 ∨ v = MAX30101)
    (addr interrupt : Nat) (s : RegFile) (hid : interrupt < 4)
    (hbyte : s.regs (v.INT_CFG_REG.getD interrupt 0) < 256) :
    ((enableInterrupt regBus v addr interrupt s).1 = true ∧
      ((enableInterrupt regBus v addr interrupt s).2.regs
        (v.INT_CFG_REG.getD interrupt 0)).testBit (v.INT_CFG_BIT.getD interrupt 0) = true ∧
      (∀ i, i ≠ v.INT_CFG_BIT.getD interrupt 0 →
        ((enableInterrupt regBus v addr interrupt s).2.regs
          (v.INT_CFG_REG.getD interrupt 0)).testBit i
          = (s.regs (v.INT_CFG_REG.getD interrupt 0)).testBit i) ∧
      (∀ r, r ≠ v.INT_CFG_REG.getD interrupt 0 →
        (enableInterrupt regBus v addr interrupt s).2.regs r = s.regs r)) ∧
    ((disableInterrupt regBus v addr interrupt s).1 = true ∧
      ((disableInterrupt regBus v addr interrupt s).2.regs
        (v.INT_CFG_REG.getD interrupt 0)).testBit (v.INT_CFG_BIT.getD interrupt 0) = false ∧
      (∀ i, i ≠ v.INT_CFG_BIT.getD interrupt 0 →
        ((disableInterrupt regBus v addr interrupt s).2.regs
          (v.INT_CFG_REG.getD interrupt 0)).testBit i
          = (s.regs (v.INT_CFG_REG.getD interrupt 0)).testBit i) ∧
      (∀ r, r ≠ v.INT_CFG_REG.getD interrupt 0 →
        (disableInterrupt regBus v addr interrupt s).2.regs r = s.regs r)) := by
  obtain ⟨hreg, hbit, he, hd⟩ := interrupt_calls_eq_setBit regBus v hv addr interrupt s hid
  rw [he, hd]
  exact ⟨setBit_regBus_frame addr _ _ true s hreg hbit hbyte,
    setBit_regBus_frame addr _ _ false s hreg hbit hbyte⟩

/-- Witness for C21: the MAX30101 ids 0 and 2 share register 0x02 (bits 7 and
6); with the register holding 0xC5, enabling id 2 keeps bit 7 set and
disabling id 2 clears bit 6 only. -/
theorem C21_interrupt_enable_frame_witness :
    ((enableInterrupt regBus MAX30101 0x57 2 regsDemo).2.regs 0x02).testBit 6 = true ∧
      ((enableInterrupt regBus MAX30101 0x57 2 regsDemo).2.regs 0x02).testBit 7
        = (regsDemo.regs 0x02).testBit 7 ∧
      ((disableInterrupt regBus MAX30101 0x57 2 regsDemo).2.regs 0x02).testBit 6 = false ∧
      (disableInterrupt regBus MAX30101 0x57 2 regsDemo).2.regs 0x03 = regsDemo.regs 0x03 := by
  have h := C21_interrupt_enable_frame MAX30101 (Or.inr rfl) 0x57 2 regsDemo (by decide)
    (by decide)
  exact ⟨h.1.2.1, h.1.2.2.1 7 (by decide), h.2.2.1, h.2.2.2.2 0x03 (by decide)⟩

/-- The expression `(byte >> bit) & 0x1` of `readBit`, as a boolean, is bit
`bit` of the byte. -/
theorem readBit_value (byte bit : Nat) : (((byte >>> bit) &&& 0x1) != 0) = byte.testBit bit := by
  unfold Nat.testBit
  rw [Nat.and_comm]

/-- Claim C29: `setBit(reg, bit, value)` with `bit` in 0..7 returns false and
does nothing after the read when the register read fails; when the read
succeeds with the byte `old`, the byte it writes has bit `bit` equal to
`value` and every other bit equal to that of `old`; on the register-file bus
`setBit` is idempotent and `setBit(reg, bit, v)` followed by
`readBit(reg, bit)` yields `v`. -/
theorem C29_setBit_frame (A : Arduino W) (addr reg bit : Nat) (value : Bool) (w : W)
    (hbit : bit < 8) :
    (∀ w1, readByte A addr reg w = (none, w1) → setBit A addr reg bit value w = (false, w1)) ∧
    (∀ old w1, readByte A addr reg w = (some old, w1) →
      ∃ b, setBit A addr reg bit value w = writeByte A addr reg b w1 ∧ b < 256 ∧
        b.testBit bit = value ∧ ∀ i, i ≠ bit → b.testBit i = old.testBit i) ∧
    (∀ s : RegFile,
      (setBit regBus addr reg bit value (setBit regBus addr reg bit value s).2)
        = setBit regBus addr reg bit value s ∧
      (readBit regBus addr reg bit (setBit regBus addr reg bit value s).2).1 = some value) := by
  refine ⟨fun w1 h => setBit_read_fails A addr reg bit value w w1 h, fun old w1 h => ?_,
    fun s => ?_⟩
  · have hold := readByte_lt A addr reg w w1 old h
    refine ⟨_, setBit_write A addr reg bit old value w w1 h, setBit_byte_lt old bit value, ?_, ?_⟩
    · rw [setBit_byte_testBit old bit bit value hold hbit]
      simp
    · intro i hi
      rw [setBit_byte_testBit old bit i value hold hbit]
      simp [hi]
  · have hold : u8 (s.regs (u8 reg)) < 256 := Nat.mod_lt _ (by decide)
    have hlt := setBit_byte_lt (u8 (s.regs (u8 reg))) bit value
    have hbitv := setBit_byte_testBit (u8 (s.regs (u8 reg))) bit bit value hold hbit
    simp only [if_true] at hbitv
    generalize hB : (if value then u8 (u8 (andNot (u8 (s.regs (u8 reg))) (1 <<< bit)) ||| (1 <<< bit))
      else u8 (andNot (u8 (s.regs (u8 reg))) (1 <<< bit))) = B at hlt hbitv
    have hs1 : setBit regBus addr reg bit value s
        = (true, ⟨Function.update s.regs (u8 reg) B, u8 (reg + 1), [], [], s.now⟩) := by
      rw [setBit_regBus, hB]
    have hBu : u8 B = B := Nat.mod_eq_of_lt hlt
    have hBB : (if value then u8 (u8 (andNot B (1 <<< bit)) ||| (1 <<< bit))
        else u8 (andNot B (1 <<< bit))) = B := by
      apply Nat.eq_of_testBit_eq
      intro i
      rw [setBit_byte_testBit B bit i value hlt hbit]
      by_cases hi : i = bit
      · subst hi; simp [hbitv]
      · simp [hi]
    constructor
    · rw [hs1, setBit_regBus]
      simp only [Function.update_same, hBu, hBB, Function.update_idem]
    · rw [hs1]
      simp only [readBit, regBus_readByte, Function.update_same, hBu]
      rw [readBit_value, hbitv]

/-- Witness for C29: setting bit 4 of a register read as 0xC5 on the scripted
bus writes 0xD5. -/
theorem C29_setBit_frame_witness :
    ∃ b, setBit scriptBus 0x57 0x08 4 true demoRead
        = writeByte scriptBus 0x57 0x08 b (readByte scriptBus 0x57 0x08 demoRead).2 ∧
      b < 256 ∧ b.testBit 4 = true ∧ ∀ i, i ≠ 4 → b.testBit i = (0xC5).testBit i :=
  (C29_setBit_frame scriptBus 0x57 0x08 4 true demoRead (by decide)).2.1 0xC5 _ (by rfl)

end SetBitProps

/-! ## Waiting, interrupt flags, reset, temperature, FIFO clearing -/

section ResetProps

variable {W : Type}

/-- For a valid id `waitForInterrupt` is `waitBit` on the status bit with the
timeout 100, whatever timeout the caller passes. -/
theorem waitForInterrupt_uses_100 (A : Arduino W) (v : Variant) (addr interrupt : Nat)
    (timeout : Int) (fuel : Nat) (w : W) (hid : interrupt < v.INT_CNT) :
    waitForInterrupt A v addr interrupt timeout fuel w =
      waitBit A addr (v.INT_ST_REG.getD interrupt 0) (v.INT_ST_BIT.getD interrupt 0) true 100
        fuel w := by
  have h : ¬ interrupt ≥ v.INT_CNT := by omega
  simp [waitForInterrupt, h]

/-- Claim C22, at its failing input: MAX30101, id 1 (status register 0x01,
bit 1), caller timeout 5 ms; the clock reads 0 at entry, the first poll finds
the bit clear at 10 ms, the second finds it set at 11 ms.  With the timeout 5
`waitBit` gives up after the first poll and returns false, whereas
`waitForInterrupt(1, 5)` goes on polling and returns true. -/
theorem C22_waitForInterrupt_ignores_timeout :
    MAX30101.INT_ST_REG.getD 1 0 = 0x01 ∧ MAX30101.INT_ST_BIT.getD 1 0 = 1 ∧
      (waitBit scriptBus 0x57 0x01 1 true 5 10 demoWait).map Prod.fst = some false ∧
      (waitForInterrupt scriptBus MAX30101 0x57 1 5 10 demoWait).map Prod.fst = some true := by
  refine ⟨rfl, rfl, by rfl, by rfl⟩

/-- Claim C23: `checkInterruptFlag(id)` returns false with the environment
untouched when `id >= INT_CNT`; otherwise its only bus activity is one byte
read of `INT_ST_REG[id]`: it returns false when that read fails and bit
`INT_ST_BIT[id]` of the byte read when it succeeds; on the register-file bus
it leaves every register as it was. -/
theorem C23_checkInterruptFlag (A : Arduino W) (v : Variant) (addr interrupt : Nat) (w : W) :
    (interrupt ≥ v.INT_CNT → checkInterruptFlag A v addr interrupt w = (false, w)) ∧
    (interrupt < v.INT_CNT →
      (∀ w1, readByte A addr (v.INT_ST_REG.getD interrupt 0) w = (none, w1) →
        checkInterruptFlag A v addr interrupt w = (false, w1)) ∧
      (∀ byte w1, readByte A addr (v.INT_ST_REG.getD interrupt 0) w = (some byte, w1) →
        checkInterruptFlag A v addr interrupt w
          = (byte.testBit (v.INT_ST_BIT.getD interrupt 0), w1))) ∧
    (∀ s : RegFile, (checkInterruptFlag regBus v addr interrupt s).2.regs = s.regs) := by
  refine ⟨fun h => by simp [checkInterruptFlag, h], fun h => ?_, fun s => ?_⟩
  · have hn : ¬ interrupt ≥ v.INT_CNT := by omega
    constructor
    · intro w1 hr
      simp only [checkInterruptFlag, hn, if_false, readBit, hr]
    · intro byte w1 hr
      simp only [checkInterruptFlag, hn, if_false, readBit, hr, readBit_value]
  · by_cases h : interrupt ≥ v.INT_CNT
    · simp [checkInterruptFlag, h]
    · simp only [checkInterruptFlag, h, if_false, readBit, regBus_readByte]

/-- Witness for C23: id 5 is rejected, a failed read gives false, and bit 6 of
the byte 0xC5 is returned for id 2 of the MAX30101, on the scripted bus. -/
theorem C23_checkInterruptFlag_witness :
    checkInterruptFlag scriptBus MAX30101 0x57 5 demoRead = (false, demoRead) ∧
      (checkInterruptFlag scriptBus MAX30101 0x57 2 ⟨[1], []⟩).1 = false ∧
      (checkInterruptFlag scriptBus MAX30101 0x57 2 demoRead).1 = true := by
  have h5 := (C23_checkInterruptFlag scriptBus MAX30101 0x57 5 demoRead).1 (by decide)
  have hf := ((C23_checkInterruptFlag scriptBus MAX30101 0x57 2 ⟨[1], []⟩).2.1 (by decide)).1
    _ (by rfl)
  have hs := ((C23_checkInterruptFlag scriptBus MAX30101 0x57 2 demoRead).2.1 (by decide)).2
    0xC5 _ (by rfl)
  refine ⟨h5, ?_, ?_⟩
  · rw [hf]
  · rw [hs]; rfl

/-- Claim C24: for the MAX30100 (expected ID 0x11) and the MAX30101 (expected
ID 0x15), when the reset-bit write and the wait for the reset bit succeed and
the part-ID read then fails or delivers another byte, `reset()` returns false,
the handle state is unchanged and nothing is done on the bus after that read:
no interrupt is enabled and the default configuration is not run. -/
theorem C24_reset_part_id_check {St : Type} (A : Arduino W) (v : Variant)
    (hv : v = MAX30100 ∨ v = MAX30101) (addr : Nat)
    (setDefaultConfiguration : St → W → Bool × St × W) (fuel : Nat) (st : St) (w w1 w2 : W)
    (hset : setBit A addr v.MODE_CFG_REG v.MODE_RST_BIT true w = (true, w1))
    (hwait : waitBit A addr v.MODE_CFG_REG v.MODE_RST_BIT false 100 fuel w1 = some (true, w2))
    (hid : (readByte A addr 0xFF w2).1 ≠ some v.MAX3010x_PART_ID) :
    reset A v addr setDefaultConfiguration fuel st w
        = some (false, st, (readByte A addr 0xFF w2).2) ∧
      MAX30100.MAX3010x_PART_ID = 0x11 ∧ MAX30101.MAX3010x_PART_ID = 0x15 := by
  refine ⟨?_, rfl, rfl⟩
  have hff : v.MAX3010x_PART_ID ≠ 0xFF := by
    rcases hv with h | h <;> subst h <;> decide
  unfold reset
  simp only [hset, hwait]
  have hp : (readPartId A addr w2).1 ≠ v.MAX3010x_PART_ID ∧
      (readPartId A addr w2).2 = (readByte A addr 0xFF w2).2 := by
    unfold readPartId
    cases hr : readByte A addr PART_ID_REG w2 with
    | mk o w3 =>
      have hr2 : readByte A addr 0xFF w2 = (o, w3) := hr
      rw [hr2] at hid ⊢
      cases o with
      | none => exact ⟨fun h => hff h.symm, rfl⟩
      | some b => exact ⟨fun h => hid (congrArg some h), rfl⟩
  simp [hp.1, hp.2]

/-- Witness for C24: a MAX30101 handle on a scripted bus whose part-ID
register reads 0x11. -/
theorem C24_reset_part_id_check_witness :
    (MAX30101_reset scriptBus ⟨2, fun _ => 0⟩ 0x57 5 ⟨9, 9, 9⟩ demoBadId).map
        (fun r => (r.1, r.2.1, r.2.2.log.drop 22))
      = some (false, ⟨9, 9, 9⟩, [.requestFrom 0x57 1, .available, .read]) := by
  have h := (C24_reset_part_id_check scriptBus MAX30101 (Or.inr rfl) 0x57
    (MAX30101_setDefaultConfiguration scriptBus ⟨2, fun _ => 0⟩ 0x57) 5 ⟨9, 9, 9⟩ demoBadId _ _
    (by rfl) (by rfl) (by decide)).1
  unfold MAX30101_reset
  rw [h]
  rfl

/-- The handle state after a successful default configuration of the
MAX30101. -/
theorem MAX30101_setDefaultConfiguration_true_state (A : Arduino W) (P : Platform) (addr : Nat)
    (st st1 : MultiLedState) (w w1 : W)
    (h : MAX30101_setDefaultConfiguration A P addr st w = (true, st1, w1)) :
    st1 = ⟨MODE_SPO2, 2, 0⟩ := by
  unfold MAX30101_setDefaultConfiguration at h
  split at h
  · simp at h
  · rename_i sa wa hcfg
    split at h
    · simp at h
    · rename_i wb hset
      rw [setMode_eq] at h
      have hn : sa.nConfiguredSlots = 0 := by
        have hc : countSlots ⟨0, 0, 0, 0⟩ 4 0 0 = some 0 := by rfl
        unfold setMultiLedConfiguration at hcfg
        rw [hc] at hcfg
        simp only [setMultiLedConfigurationInternal] at hcfg
        split at hcfg
        · simp at hcfg
        · simp only [Prod.mk.injEq] at hcfg
          rw [← hcfg.2.1]
          split_ifs <;> rfl
      have d1 : MODE_SPO2 ≠ MODE_HR_ONLY := by decide
      simp only [true_or, or_true, if_true, d1, if_false] at h
      split_ifs at h
      · simp only [Prod.mk.injEq, true_and] at h
        rw [← h.1, hn]
      · simp at h

/-- The handle state after a successful `reset()` of the MAX30101. -/
theorem MAX30101_reset_true_state (A : Arduino W) (P : Platform) (addr fuel : Nat)
    (st st1 : MultiLedState) (w w1 : W)
    (h : MAX30101_reset A P addr fuel st w = some (true, st1, w1)) :
    st1 = ⟨MODE_SPO2, 2, 0⟩ := by
  unfold MAX30101_reset reset at h
  split at h
  · simp at h
  · split at h
    · simp at h
    · simp at h
    · simp only at h
      split_ifs at h
      · simp at h
      · split at h
        · simp at h
        · simp only [Option.some.injEq] at h
          exact MAX30101_setDefaultConfiguration_true_state A P addr st st1 _ w1 h

/-- Claim C25: for the MAX30101, whenever `reset()` returns true the handle
state afterwards is `currentMode = MODE_SPO2`, `nActiveSlots = 2` and
`nConfiguredSlots = 0`, whatever the handle state was before the call. -/
theorem C25_reset_resolves_state (A : Arduino W) (P : Platform) (addr fuel : Nat)
    (st st1 : MultiLedState) (w w1 : W)
    (h : MAX30101_reset A P addr fuel st w = some (true, st1, w1)) :
    st1.currentMode = MODE_SPO2 ∧ st1.nActiveSlots = 2 ∧ st1.nConfiguredSlots = 0 := by
  rw [MAX30101_reset_true_state A P addr fuel st st1 w w1 h]
  exact ⟨rfl, rfl, rfl⟩

/-- Witness for C25: a reset on a scripted bus that answers every call as a
healthy MAX30101 would, from the handle state (99, 77, 55). -/
theorem C25_reset_resolves_state_witness :
    ∃ st1 w1,
      MAX30101_reset scriptBus ⟨2, fun _ => 0⟩ 0x57 5 ⟨99, 77, 55⟩ demoReset
        = some (true, st1, w1) ∧
      st1.currentMode = MODE_SPO2 ∧ st1.nActiveSlots = 2 ∧ st1.nConfiguredSlots = 0 :=
  ⟨_, _, by rfl,
    C25_reset_resolves_state scriptBus ⟨2, fun _ => 0⟩ 0x57 5 ⟨99, 77, 55⟩ _ demoReset _ (by rfl)⟩

/-- Claim C26: `readTemperature()`.  When the trigger `setBit`, the wait for
the temperature-ready interrupt and both register reads succeed, the result
is the rational `tInt + tFrac/16` for the bytes read from `TINT_REG` and
`TFRAC_REG`; that value and the product `0.0625 * tFrac` are multiples of
1/16 with a numerator below 2^24, so the `float` operations are exact.  When
the trigger fails, the wait fails or one of the two reads fails, the result
is NaN (`none`). -/
theorem C26_readTemperature (A : Arduino W) (v : Variant) (addr fuel : Nat) (w : W) :
    (∀ w1, setBit A addr v.TEMP_CONFIG_REG v.TEMP_CONFIG_BIT true w = (false, w1) →
      readTemperature A v addr fuel w = some (none, w1)) ∧
    (∀ w1, setBit A addr v.TEMP_CONFIG_REG v.TEMP_CONFIG_BIT true w = (true, w1) →
      (∀ w2, waitForInterrupt A v addr v.INT_TEMP_RDY 100 fuel w1 = some (false, w2) →
        readTemperature A v addr fuel w = some (none, w2)) ∧
      (∀ w2, waitForInterrupt A v addr v.INT_TEMP_RDY 100 fuel w1 = some (true, w2) →
        (∀ w3, readByte A addr v.TINT_REG w2 = (none, w3) →
          readTemperature A v addr fuel w = some (none, w3)) ∧
        (∀ tInt w3, readByte A addr v.TINT_REG w2 = (some tInt, w3) →
          (∀ w4, readByte A addr v.TFRAC_REG w3 = (none, w4) →
            readTemperature A v addr fuel w = some (none, w4)) ∧
          (∀ tFrac w4, readByte A addr v.TFRAC_REG w3 = (some tFrac, w4) →
            readTemperature A v addr fuel w
              = some (some ((tInt : ℚ) + (tFrac : ℚ) / 16), w4) ∧
            (0.0625 : ℚ) * (tFrac : ℚ) = (tFrac : ℚ) / 2 ^ 4 ∧ tFrac < 2 ^ 24 ∧
            (tInt : ℚ) + (tFrac : ℚ) / 16 = ((16 * tInt + tFrac : Nat) : ℚ) / 2 ^ 4 ∧
            16 * tInt + tFrac < 2 ^ 24)))) := by
  refine ⟨fun w1 h => by simp [readTemperature, h], fun w1 h1 => ⟨fun w2 h2 => ?_, fun w2 h2 =>
    ⟨fun w3 h3 => ?_, fun tInt w3 h3 => ⟨fun w4 h4 => ?_, fun tFrac w4 h4 => ?_⟩⟩⟩⟩
  · simp [readTemperature, h1, h2]
  · simp [readTemperature, h1, h2, h3]
  · simp [readTemperature, h1, h2, h3, h4]
  · have hi := readByte_lt A addr _ w2 w3 tInt h3
    have hf := readByte_lt A addr _ w3 w4 tFrac h4
    refine ⟨?_, ?_, by omega, ?_, by omega⟩
    · simp only [readTemperature, h1, h2, h3, h4]
      congr 3
      norm_num
      ring
    · norm_num
      ring
    · push_cast
      ring

/-- Witness for C26: the bytes 25 and 8 give 25.5 on the scripted bus. -/
theorem C26_readTemperature_witness :
    (readTemperature scriptBus MAX30101 0x57 5 demoTemp).map Prod.fst = some (some (51 / 2)) := by
  have h := ((((C26_readTemperature scriptBus MAX30101 0x57 5 demoTemp).2 _ (by rfl)).2 _
    (by rfl)).2 25 _ (by rfl)).2 8 _ (by rfl)
  rw [h.1]
  norm_num

/-- Claim C27: `clearFIFO` writes the single byte 0 to the write-pointer
register `FIFO_BASE`, then to the read-pointer register `FIFO_BASE + 2`, then
to the overflow-counter register `FIFO_BASE + 1`; it stops at the first
failing write and returns true exactly when the three writes succeed. -/
theorem C27_clearFIFO_order (A : Arduino W) (v : Variant) (addr : Nat) (w : W) :
    (∀ reg x, writeByte A addr reg 0 x =
      ((A.endTransmission true (A.write 0 (A.write reg (A.beginTransmission addr x)))).1 == 0,
        (A.endTransmission true (A.write 0 (A.write reg (A.beginTransmission addr x)))).2)) ∧
    ((writeByte A addr v.FIFO_BASE 0 w).1 = false →
      clearFIFO A v addr w = (false, (writeByte A addr v.FIFO_BASE 0 w).2)) ∧
    ((writeByte A addr v.FIFO_BASE 0 w).1 = true →
      ((writeByte A addr (u8 (v.FIFO_BASE + 2)) 0 (writeByte A addr v.FIFO_BASE 0 w).2).1 = false →
        clearFIFO A v addr w = (false,
          (writeByte A addr (u8 (v.FIFO_BASE + 2)) 0 (writeByte A addr v.FIFO_BASE 0 w).2).2)) ∧
      ((writeByte A addr (u8 (v.FIFO_BASE + 2)) 0 (writeByte A addr v.FIFO_BASE 0 w).2).1 = true →
        clearFIFO A v addr w =
          writeByte A addr (u8 (v.FIFO_BASE + 1)) 0
            (writeByte A addr (u8 (v.FIFO_BASE + 2)) 0
              (writeByte A addr v.FIFO_BASE 0 w).2).2)) ∧
    ((clearFIFO A v addr w).1 = true ↔
      (writeByte A addr v.FIFO_BASE 0 w).1 = true ∧
      (writeByte A addr (u8 (v.FIFO_BASE + 2)) 0 (writeByte A addr v.FIFO_BASE 0 w).2).1 = true ∧
      (writeByte A addr (u8 (v.FIFO_BASE + 1)) 0
        (writeByte A addr (u8 (v.FIFO_BASE + 2)) 0
          (writeByte A addr v.FIFO_BASE 0 w).2).2).1 = true) := by
  refine ⟨fun reg x => rfl, ?_, ?_, ?_⟩
  · intro h
    unfold clearFIFO FIFO_WR_PTR_REG
    cases h1 : writeByte A addr v.FIFO_BASE 0 w with
    | mk b w1 =>
      rw [h1] at h
      simp only at h
      subst h
      rfl
  · intro h
    unfold clearFIFO FIFO_WR_PTR_REG FIFO_RD_PTR_REG FIFO_OVF_CNT_REG
    cases h1 : writeByte A addr v.FIFO_BASE 0 w with
    | mk b w1 =>
      rw [h1] at h
      simp only at h
      subst h
      simp only
      cases h2 : writeByte A addr (u8 (v.FIFO_BASE + 2)) 0 w1 with
      | mk b2 w2 =>
        cases b2
        · simp
        · simp only [true_implies, Bool.true_eq_false, false_implies, true_and]
          cases h3 : writeByte A addr (u8 (v.FIFO_BASE + 1)) 0 w2 with
          | mk b3 w3 => cases b3 <;> rfl
  · unfold clearFIFO FIFO_WR_PTR_REG FIFO_RD_PTR_REG FIFO_OVF_CNT_REG
    cases h1 : writeByte A addr v.FIFO_BASE 0 w with
    | mk b w1 =>
      cases b
      · simp
      · simp only [true_and]
        cases h2 : writeByte A addr (u8 (v.FIFO_BASE + 2)) 0 w1 with
        | mk b2 w2 =>
          cases b2
          · simp
          · simp only [true_and]
            cases h3 : writeByte A addr (u8 (v.FIFO_BASE + 1)) 0 w2 with
            | mk b3 w3 => cases b3 <;> simp

/-- Witness for C27: on a scripted bus whose second write is not acknowledged
a MAX30101 issues the writes to registers 4 and 6 and no third one. -/
theorem C27_clearFIFO_order_witness :
    clearFIFO scriptBus MAX30101 0x57 ⟨[0, 1], []⟩ =
      (false, ⟨[], [.beginTransmission 0x57, .write 4, .write 0, .endTransmission true,
        .beginTransmission 0x57, .write 6, .write 0, .endTransmission true]⟩) := by
  have h := ((C27_clearFIFO_order scriptBus MAX30101 0x57 ⟨[0, 1], []⟩).2.2.1 (by rfl)).1
    (by rfl)
  rw [h]
  rfl

/-- With `count` at least 2 the write loop of `writeBlock` sends
`buffer[0]`, `buffer[1]` and then `count - 2` further bytes. -/
theorem writeBytes_count (A : Arduino W) (buffer : Nat → Nat) (n : Nat) (x : W) :
    writeBytes A buffer (n + 2) 0 x
      = writeBytes A buffer n 2 (A.write (buffer 1) (A.write (buffer 0) x)) := rfl

/-- Claim C28, at its failing input: on a platform with 4-byte pointers the
configuration write of `setMultiLedConfiguration([RED, IR, GREEN, off])`
transfers four data bytes after the register address 0x11: the two packed
bytes 0x21 and 0x03 and the two bytes that follow the array in memory (here
0xAC and 0xAD). -/
theorem C28_configuration_write_sends_pointer_size_bytes :
    (setMultiLedConfiguration scriptBus ⟨4, fun i => 0xAA + i⟩ 0x57
        ⟨SLOT_RED, SLOT_IR, SLOT_GREEN, SLOT_OFF⟩ ⟨MODE_SPO2, 2, 0⟩ ⟨[], []⟩).2.2.log.take 7
      = [.beginTransmission 0x57, .write 0x11, .write 0x21, .write 0x03, .write 0xAC,
          .write 0xAD, .endTransmission true] := by
  rfl

end ResetProps

/-! ## Invariant of the MAX30101 handle -/

section InvariantProps

variable {W : Type}

/-- The validation loop of `setMultiLedConfiguration` never counts more than
four slots. -/
theorem countSlots_le_four (cfg : MultiLedConfiguration) (k : Nat)
    (h : countSlots cfg 4 0 0 = some k) : k ≤ 4 := by
  have hc := countSlots_counts cfg 4 0 0 k (by decide) h
  have hl := List.countP_le_length
    (fun j => decide (cfg.slot j = SLOT_RED ∨ cfg.slot j = SLOT_IR ∨ cfg.slot j = SLOT_GREEN))
    (l := List.range' 0 4)
  simp only [List.length_range'] at hl
  omega

/-- The slot counters stay at most 4 through `setMultiLedConfiguration`. -/
theorem setMultiLedConfiguration_bounds (A : Arduino W) (P : Platform) (addr : Nat)
    (cfg : MultiLedConfiguration) (st : MultiLedState) (w : W)
    (hc : st.nConfiguredSlots ≤ 4) (ha : st.nActiveSlots ≤ 4) :
    (setMultiLedConfiguration A P addr cfg st w).2.1.nConfiguredSlots ≤ 4 ∧
      (setMultiLedConfiguration A P addr cfg st w).2.1.nActiveSlots ≤ 4 := by
  unfold setMultiLedConfiguration
  cases hk : countSlots cfg 4 0 0 with
  | none => exact ⟨hc, ha⟩
  | some k =>
    have hk4 := countSlots_le_four cfg k hk
    simp only [setMultiLedConfigurationInternal]
    split
    · exact ⟨hc, ha⟩
    · split_ifs
      · exact ⟨hk4, hk4⟩
      · exact ⟨hk4, ha⟩

/-- The slot counters stay at most 4 through `setMode`. -/
theorem setMode_bounds (A : Arduino W) (v : Variant) (addr mode : Nat) (st : MultiLedState)
    (w : W) (hc : st.nConfiguredSlots ≤ 4) (ha : st.nActiveSlots ≤ 4) :
    (setMode A v addr mode st w).2.1.nConfiguredSlots ≤ 4 ∧
      (setMode A v addr mode st w).2.1.nActiveSlots ≤ 4 := by
  rw [setMode_eq]
  split_ifs
  · exact ⟨hc, show (1 : Nat) ≤ 4 by decide⟩
  · exact ⟨hc, show (2 : Nat) ≤ 4 by decide⟩
  · exact ⟨hc, hc⟩
  · exact ⟨hc, ha⟩
  · exact ⟨hc, ha⟩

/-- The slot counters stay at most 4 through the default configuration of the
MAX30101, however far it gets. -/
theorem MAX30101_setDefaultConfiguration_bounds (A : Arduino W) (P : Platform) (addr : Nat)
    (st : MultiLedState) (w : W) (hc : st.nConfiguredSlots ≤ 4) (ha : st.nActiveSlots ≤ 4) :
    (MAX30101_setDefaultConfiguration A P addr st w).2.1.nConfiguredSlots ≤ 4 ∧
      (MAX30101_setDefaultConfiguration A P addr st w).2.1.nActiveSlots ≤ 4 := by
  have h1 := setMultiLedConfiguration_bounds A P addr ⟨0, 0, 0, 0⟩ st w hc ha
  unfold MAX30101_setDefaultConfiguration
  split
  · rename_i sa wa hcfg
    rw [hcfg] at h1
    exact h1
  · rename_i sa wa hcfg
    rw [hcfg] at h1
    split
    · exact h1
    · exact setMode_bounds A MAX30101 addr MODE_SPO2 sa _ h1.1 h1.2

/-- The slot counters stay at most 4 through `reset()` of the MAX30101,
whether it succeeds or fails. -/
theorem MAX30101_reset_bounds (A : Arduino W) (P : Platform) (addr fuel : Nat)
    (st : MultiLedState) (w : W) (r : Bool × MultiLedState × W)
    (h : MAX30101_reset A P addr fuel st w = some r)
    (hc : st.nConfiguredSlots ≤ 4) (ha : st.nActiveSlots ≤ 4) :
    r.2.1.nConfiguredSlots ≤ 4 ∧ r.2.1.nActiveSlots ≤ 4 := by
  unfold MAX30101_reset reset at h
  split at h
  · simp only [Option.some.injEq] at h
    subst h
    exact ⟨hc, ha⟩
  · split at h
    · simp at h
    · simp only [Option.some.injEq] at h
      subst h
      exact ⟨hc, ha⟩
    · simp only at h
      split_ifs at h
      · simp only [Option.some.injEq] at h
        subst h
        exact ⟨hc, ha⟩
      · split at h
        · simp only [Option.some.injEq] at h
          subst h
          exact ⟨hc, ha⟩
        · simp only [Option.some.injEq] at h
          subst h
          exact MAX30101_setDefaultConfiguration_bounds A P addr st _ hc ha

/-- The slot counters stay at most 4 through one call on the handle. -/
theorem applyOp_bounds (A : Arduino W) (P : Platform) (addr : Nat) (op : HandleOp)
    (st st1 : MultiLedState) (w w1 : W) (h : applyOp A P addr op (st, w) = some (st1, w1))
    (hc : st.nConfiguredSlots ≤ 4) (ha : st.nActiveSlots ≤ 4) :
    st1.nConfiguredSlots ≤ 4 ∧ st1.nActiveSlots ≤ 4 := by
  cases op with
  | setMode mode =>
    simp only [applyOp, Option.some.injEq, Prod.mk.injEq] at h
    rw [← h.1]
    exact setMode_bounds A MAX30101 addr mode st w hc ha
  | setMultiLedConfiguration cfg =>
    simp only [applyOp, Option.some.injEq, Prod.mk.injEq] at h
    rw [← h.1]
    exact setMultiLedConfiguration_bounds A P addr cfg st w hc ha
  | reset fuel =>
    simp only [applyOp, Option.map_eq_some', Prod.mk.injEq] at h
    obtain ⟨r, hr, hst, _⟩ := h
    rw [← hst]
    exact MAX30101_reset_bounds A P addr fuel st w r hr hc ha
  | readSample found timeout fuel =>
    simp only [applyOp, Option.map_eq_some', Prod.mk.injEq] at h
    obtain ⟨r, _, hst, _⟩ := h
    rw [← hst]
    exact ⟨hc, ha⟩
  | setSamplingRate rate =>
    simp only [applyOp, Option.some.injEq, Prod.mk.injEq] at h
    rw [← h.1]; exact ⟨hc, ha⟩
  | setADCRange range =>
    simp only [applyOp, Option.some.injEq, Prod.mk.injEq] at h
    rw [← h.1]; exact ⟨hc, ha⟩
  | setResolution resolution =>
    simp only [applyOp, Option.some.injEq, Prod.mk.injEq] at h
    rw [← h.1]; exact ⟨hc, ha⟩
  | setSampleAveraging averaging =>
    simp only [applyOp, Option.some.injEq, Prod.mk.injEq] at h
    rw [← h.1]; exact ⟨hc, ha⟩
  | setLedCurrent led current =>
    simp only [applyOp, Option.some.injEq, Prod.mk.injEq] at h
    rw [← h.1]; exact ⟨hc, ha⟩
  | enableFIFORollover =>
    simp only [applyOp, Option.some.injEq, Prod.mk.injEq] at h
    rw [← h.1]; exact ⟨hc, ha⟩
  | disableFIFORollover =>
    simp only [applyOp, Option.some.injEq, Prod.mk.injEq] at h
    rw [← h.1]; exact ⟨hc, ha⟩

/-- The slot counters stay at most 4 through any sequence of calls. -/
theorem runOps_bounds (A : Arduino W) (P : Platform) (addr : Nat) (ops : List HandleOp)
    (st st1 : MultiLedState) (w w1 : W) (h : runOps A P addr ops (st, w) = some (st1, w1))
    (hc : st.nConfiguredSlots ≤ 4) (ha : st.nActiveSlots ≤ 4) :
    st1.nConfiguredSlots ≤ 4 ∧ st1.nActiveSlots ≤ 4 := by
  induction ops generalizing st w with
  | nil =>
    simp only [runOps, Option.some.injEq, Prod.mk.injEq] at h
    rw [← h.1]
    exact ⟨hc, ha⟩
  | cons op ops ih =>
    unfold runOps at h
    split at h
    · simp at h
    · rename_i y hy
      obtain ⟨s2, w2⟩ := y
      have hb := applyOp_bounds A P addr op st s2 w w2 hy hc ha
      exact ih s2 w2 h hb.1 hb.2

/-- Claim C30: invariant of the MAX30101 handle.  From a state with
`nConfiguredSlots <= 4` and `nActiveSlots <= 4`, and so from the state left by
a successful reset, every sequence of `setMode`, `setMultiLedConfiguration`,
`reset`, `readSample` and configuration-setter calls that returns, on any bus
(failures included), leaves `nConfiguredSlots <= 4` and `nActiveSlots <= 4`;
the byte count `readSample` then asks for, `SAMPLE_SIZE * nActiveSlots`, is
at most the 12 bytes of its data buffer. -/
theorem C30_slot_counters_bounded (A : Arduino W) (P : Platform) (addr : Nat)
    (ops : List HandleOp) (st st1 : MultiLedState) (w w1 : W)
    (hc : st.nConfiguredSlots ≤ 4) (ha : st.nActiveSlots ≤ 4)
    (h : runOps A P addr ops (st, w) = some (st1, w1)) :
    st1.nConfiguredSlots ≤ 4 ∧ st1.nActiveSlots ≤ 4 ∧
      u8 (MAX30101.SAMPLE_SIZE * st1.nActiveSlots)
        ≤ MAX30101.SAMPLE_SIZE * MAX30101.MAX_ACTIVE_LEDS ∧
      MAX30101.SAMPLE_SIZE * MAX30101.MAX_ACTIVE_LEDS = 12 ∧
      (∀ (fuel : Nat) (s0 s2 : MultiLedState) (x x2 : W),
        MAX30101_reset A P addr fuel s0 x = some (true, s2, x2) →
        s2.nConfiguredSlots ≤ 4 ∧ s2.nActiveSlots ≤ 4) := by
  obtain ⟨h1, h2⟩ := runOps_bounds A P addr ops st st1 w w1 h hc ha
  refine ⟨h1, h2, ?_, rfl, ?_⟩
  · show (3 * st1.nActiveSlots) % 256 ≤ 3 * 4
    have hlt : 3 * st1.nActiveSlots < 256 := by omega
    rw [Nat.mod_eq_of_lt hlt]
    omega
  · intro fuel s0 s2 x x2 hr
    rw [MAX30101_reset_true_state A P addr fuel s0 s2 x x2 hr]
    exact ⟨by decide, by decide⟩

/-- Witness for C30: from the state left by a reset, configuring three slots,
entering MODE_MULTI_LED, a failing `setMode` and a `readSample`, on the
scripted bus. -/
theorem C30_slot_counters_bounded_witness :
    ∃ st1 w1,
      runOps scriptBus ⟨2, fun _ => 0⟩ 0x57
        [.setMultiLedConfiguration ⟨SLOT_RED, SLOT_IR, SLOT_GREEN, SLOT_OFF⟩,
          .setMode MODE_MULTI_LED, .setMode MODE_HR_ONLY, .readSample (fun _ => 0) 0 5]
        (⟨MODE_SPO2, 2, 0⟩, demoOps) = some (st1, w1) ∧
      st1 = ⟨MODE_MULTI_LED, 3, 3⟩ ∧ st1.nConfiguredSlots ≤ 4 ∧ st1.nActiveSlots ≤ 4 :=
  ⟨_, _, by rfl, by rfl,
    (C30_slot_counters_bounded scriptBus ⟨2, fun _ => 0⟩ 0x57
      [.setMultiLedConfiguration ⟨SLOT_RED, SLOT_IR, SLOT_GREEN, SLOT_OFF⟩,
        .setMode MODE_MULTI_LED, .setMode MODE_HR_ONLY, .readSample (fun _ => 0) 0 5]
      ⟨MODE_SPO2, 2, 0⟩ _ demoOps _ (by decide) (by decide) (by rfl)).1,
    (C30_slot_counters_bounded scriptBus ⟨2, fun _ => 0⟩ 0x57
      [.setMultiLedConfiguration ⟨SLOT_RED, SLOT_IR, SLOT_GREEN, SLOT_OFF⟩,
        .setMode MODE_MULTI_LED, .setMode MODE_HR_ONLY, .readSample (fun _ => 0) 0 5]
      ⟨MODE_SPO2, 2, 0⟩ _ demoOps _ (by decide) (by decide) (by rfl)).2.1⟩

end InvariantProps

/-! ## Mode and active slots -/

section ModeSlotProps

variable {W : Type}

/-- The relation between mode and active slots survives
`setMultiLedConfiguration`, whatever the bus does. -/
theorem setMultiLedConfiguration_mode_slots (A : Arduino W) (P : Platform) (addr : Nat)
    (cfg : MultiLedConfiguration) (st : MultiLedState) (w : W)
    (h : (st.currentMode = MODE_HR_ONLY ∧ st.nActiveSlots = 1) ∨
      (st.currentMode = MODE_SPO2 ∧ st.nActiveSlots = 2) ∨
      (st.currentMode = MODE_MULTI_LED ∧ st.nActiveSlots = st.nConfiguredSlots)) :
    ((setMultiLedConfiguration A P addr cfg st w).2.1.currentMode = MODE_HR_ONLY ∧
        (setMultiLedConfiguration A P addr cfg st w).2.1.nActiveSlots = 1) ∨
      ((setMultiLedConfiguration A P addr cfg st w).2.1.currentMode = MODE_SPO2 ∧
        (setMultiLedConfiguration A P addr cfg st w).2.1.nActiveSlots = 2) ∨
      ((setMultiLedConfiguration A P addr cfg st w).2.1.currentMode = MODE_MULTI_LED ∧
        (setMultiLedConfiguration A P addr cfg st w).2.1.nActiveSlots =
          (setMultiLedConfiguration A P addr cfg st w).2.1.nConfiguredSlots) := by
  have d1 : MODE_HR_ONLY ≠ MODE_MULTI_LED := by decide
  have d2 : MODE_SPO2 ≠ MODE_MULTI_LED := by decide
  unfold setMultiLedConfiguration
  cases hk : countSlots cfg 4 0 0 with
  | none => exact h
  | some k =>
    simp only [setMultiLedConfigurationInternal]
    split
    · exact h
    · split_ifs with hm
      · exact Or.inr (Or.inr ⟨hm, rfl⟩)
      · rcases h with h | h | h
        · exact Or.inl h
        · exact Or.inr (Or.inl h)
        · exact absurd h.1 hm

/-- The relation between mode and active slots survives `setMode`, whatever
the bus does. -/
theorem setMode_mode_slots (A : Arduino W) (v : Variant) (addr mode : Nat)
    (st : MultiLedState) (w : W)
    (h : (st.currentMode = MODE_HR_ONLY ∧ st.nActiveSlots = 1) ∨
      (st.currentMode = MODE_SPO2 ∧ st.nActiveSlots = 2) ∨
      (st.currentMode = MODE_MULTI_LED ∧ st.nActiveSlots = st.nConfiguredSlots)) :
    ((setMode A v addr mode st w).2.1.currentMode = MODE_HR_ONLY ∧
        (setMode A v addr mode st w).2.1.nActiveSlots = 1) ∨
      ((setMode A v addr mode st w).2.1.currentMode = MODE_SPO2 ∧
        (setMode A v addr mode st w).2.1.nActiveSlots = 2) ∨
      ((setMode A v addr mode st w).2.1.currentMode = MODE_MULTI_LED ∧
        (setMode A v addr mode st w).2.1.nActiveSlots =
          (setMode A v addr mode st w).2.1.nConfiguredSlots) := by
  have d1 : MODE_SPO2 ≠ MODE_HR_ONLY := by decide
  have d2 : MODE_MULTI_LED ≠ MODE_HR_ONLY := by decide
  have d3 : MODE_MULTI_LED ≠ MODE_SPO2 := by decide
  rw [setMode_eq]
  by_cases hm : mode = MODE_HR_ONLY ∨ mode = MODE_SPO2 ∨ mode = MODE_MULTI_LED
  · rw [if_pos hm]
    by_cases hi : (setModeInternal A v addr (u8 mode) w).1 = true
    · rw [if_pos hi]
      rcases hm with hm | hm | hm
      · exact Or.inl ⟨hm, if_pos hm⟩
      · have hn : mode ≠ MODE_HR_ONLY := fun e => d1 (hm.symm.trans e)
        exact Or.inr (Or.inl ⟨hm, (if_neg hn).trans (if_pos hm)⟩)
      · have hn : mode ≠ MODE_HR_ONLY := fun e => d2 (hm.symm.trans e)
        have hn2 : mode ≠ MODE_SPO2 := fun e => d3 (hm.symm.trans e)
        exact Or.inr (Or.inr ⟨hm, (if_neg hn).trans (if_neg hn2)⟩)
    · rw [if_neg hi]
      exact h
  · rw [if_neg hm]
    exact h

/-- The relation between mode and active slots survives the default
configuration of the MAX30101, however far it gets. -/
theorem MAX30101_setDefaultConfiguration_mode_slots (A : Arduino W) (P : Platform)
    (addr : Nat) (st : MultiLedState) (w : W)
    (h : (st.currentMode = MODE_HR_ONLY ∧ st.nActiveSlots = 1) ∨
      (st.currentMode = MODE_SPO2 ∧ st.nActiveSlots = 2) ∨
      (st.currentMode = MODE_MULTI_LED ∧ st.nActiveSlots = st.nConfiguredSlots)) :
    ((MAX30101_setDefaultConfiguration A P addr st w).2.1.currentMode = MODE_HR_ONLY ∧
        (MAX30101_setDefaultConfiguration A P addr st w).2.1.nActiveSlots = 1) ∨
      ((MAX30101_setDefaultConfiguration A P addr st w).2.1.currentMode = MODE_SPO2 ∧
        (MAX30101_setDefaultConfiguration A P addr st w).2.1.nActiveSlots = 2) ∨
      ((MAX30101_setDefaultConfiguration A P addr st w).2.1.currentMode = MODE_MULTI_LED ∧
        (MAX30101_setDefaultConfiguration A P addr st w).2.1.nActiveSlots =
          (MAX30101_setDefaultConfiguration A P addr st w).2.1.nConfiguredSlots) := by
  have h1 := setMultiLedConfiguration_mode_slots A P addr ⟨0, 0, 0, 0⟩ st w h
  unfold MAX30101_setDefaultConfiguration
  split
  · rename_i sa wa hcfg
    rw [hcfg] at h1
    exact h1
  · rename_i sa wa hcfg
    rw [hcfg] at h1
    split
    · exact h1
    · exact setMode_mode_slots A MAX30101 addr MODE_SPO2 sa _ h1

/-- The relation between mode and active slots survives `reset()` of the
MAX30101, whether it succeeds or fails. -/
theorem MAX30101_reset_mode_slots (A : Arduino W) (P : Platform) (addr fuel : Nat)
    (st : MultiLedState) (w : W) (r : Bool × MultiLedState × W)
    (hr : MAX30101_reset A P addr fuel st w = some r)
    (h : (st.currentMode = MODE_HR_ONLY ∧ st.nActiveSlots = 1) ∨
      (st.currentMode = MODE_SPO2 ∧ st.nActiveSlots = 2) ∨
      (st.currentMode = MODE_MULTI_LED ∧ st.nActiveSlots = st.nConfiguredSlots)) :
    (r.2.1.currentMode = MODE_HR_ONLY ∧ r.2.1.nActiveSlots = 1) ∨
      (r.2.1.currentMode = MODE_SPO2 ∧ r.2.1.nActiveSlots = 2) ∨
      (r.2.1.currentMode = MODE_MULTI_LED ∧ r.2.1.nActiveSlots = r.2.1.nConfiguredSlots) := by
  unfold MAX30101_reset reset at hr
  split at hr
  · simp only [Option.some.injEq] at hr
    subst hr
    exact h
  · split at hr
    · simp at hr
    · simp only [Option.some.injEq] at hr
      subst hr
      exact h
    · simp only at hr
      split_ifs at hr
      · simp only [Option.some.injEq] at hr
        subst hr
        exact h
      · split at hr
        · simp only [Option.some.injEq] at hr
          subst hr
          exact h
        · simp only [Option.some.injEq] at hr
          subst hr
          exact MAX30101_setDefaultConfiguration_mode_slots A P addr st _ h

/-- The relation between mode and active slots survives one call on the
handle. -/
theorem applyOp_mode_slots (A : Arduino W) (P : Platform) (addr : Nat) (op : HandleOp)
    (st st1 : MultiLedState) (w w1 : W) (ha : applyOp A P addr op (st, w) = some (st1, w1))
    (h : (st.currentMode = MODE_HR_ONLY ∧ st.nActiveSlots = 1) ∨
      (st.currentMode = MODE_SPO2 ∧ st.nActiveSlots = 2) ∨
      (st.currentMode = MODE_MULTI_LED ∧ st.nActiveSlots = st.nConfiguredSlots)) :
    (st1.currentMode = MODE_HR_ONLY ∧ st1.nActiveSlots = 1) ∨
      (st1.currentMode = MODE_SPO2 ∧ st1.nActiveSlots = 2) ∨
      (st1.currentMode = MODE_MULTI_LED ∧ st1.nActiveSlots = st1.nConfiguredSlots) := by
  cases op with
  | setMode mode =>
    simp only [applyOp, Option.some.injEq, Prod.mk.injEq] at ha
    rw [← ha.1]
    exact setMode_mode_slots A MAX30101 addr mode st w h
  | setMultiLedConfiguration cfg =>
    simp only [applyOp, Option.some.injEq, Prod.mk.injEq] at ha
    rw [← ha.1]
    exact setMultiLedConfiguration_mode_slots A P addr cfg st w h
  | reset fuel =>
    simp only [applyOp, Option.map_eq_some', Prod.mk.injEq] at ha
    obtain ⟨r, hr, hst, _⟩ := ha
    rw [← hst]
    exact MAX30101_reset_mode_slots A P addr fuel st w r hr h
  | readSample found timeout fuel =>
    simp only [applyOp, Option.map_eq_some', Prod.mk.injEq] at ha
    obtain ⟨r, _, hst, _⟩ := ha
    rw [← hst]
    exact h
  | setSamplingRate rate =>
    simp only [applyOp, Option.some.injEq, Prod.mk.injEq] at ha
    rw [← ha.1]; exact h
  | setADCRange range =>
    simp only [applyOp, Option.some.injEq, Prod.mk.injEq] at ha
    rw [← ha.1]; exact h
  | setResolution resolution =>
    simp only [applyOp, Option.some.injEq, Prod.mk.injEq] at ha
    rw [← ha.1]; exact h
  | setSampleAveraging averaging =>
    simp only [applyOp, Option.some.injEq, Prod.mk.injEq] at ha
    rw [← ha.1]; exact h
  | setLedCurrent led current =>
    simp only [applyOp, Option.some.injEq, Prod.mk.injEq] at ha
    rw [← ha.1]; exact h
  | enableFIFORollover =>
    simp only [applyOp, Option.some.injEq, Prod.mk.injEq] at ha
    rw [← ha.1]; exact h
  | disableFIFORollover =>
    simp only [applyOp, Option.some.injEq, Prod.mk.injEq] at ha
    rw [← ha.1]; exact h

/-- The relation between mode and active slots survives any sequence of
calls. -/
theorem runOps_mode_slots (A : Arduino W) (P : Platform) (addr : Nat) (ops : List HandleOp)
    (st st1 : MultiLedState) (w w1 : W) (hr : runOps A P addr ops (st, w) = some (st1, w1))
    (h : (st.currentMode = MODE_HR_ONLY ∧ st.nActiveSlots = 1) ∨
      (st.currentMode = MODE_SPO2 ∧ st.nActiveSlots = 2) ∨
      (st.currentMode = MODE_MULTI_LED ∧ st.nActiveSlots = st.nConfiguredSlots)) :
    (st1.currentMode = MODE_HR_ONLY ∧ st1.nActiveSlots = 1) ∨
      (st1.currentMode = MODE_SPO2 ∧ st1.nActiveSlots = 2) ∨
      (st1.currentMode = MODE_MULTI_LED ∧ st1.nActiveSlots = st1.nConfiguredSlots) := by
  induction ops generalizing st w with
  | nil =>
    simp only [runOps, Option.some.injEq, Prod.mk.injEq] at hr
    rw [← hr.1]
    exact h
  | cons op ops ih =>
    unfold runOps at hr
    split at hr
    · simp at hr
    · rename_i y hy
      obtain ⟨s2, w2⟩ := y
      exact ih s2 w2 hr (applyOp_mode_slots A P addr op st s2 w w2 hy h)

/-- Claim C31: invariant of the MAX30101 handle.  After a `reset()` that
returned true, every sequence of `setMode`, `setMultiLedConfiguration` and
`reset` calls (and of the other calls on the handle) that returns, on any bus
and with any of its steps failing, leaves `currentMode` one of MODE_HR_ONLY,
MODE_SPO2 and MODE_MULTI_LED with `nActiveSlots` equal to 1, to 2 and to
`nConfiguredSlots` respectively. -/
theorem C31_active_slots_match_mode (A : Arduino W) (P : Platform) (addr fuel : Nat)
    (ops : List HandleOp) (s0 st st1 : MultiLedState) (x w w1 : W)
    (hreset : MAX30101_reset A P addr fuel s0 x = some (true, st, w))
    (h : runOps A P addr ops (st, w) = some (st1, w1)) :
    (st1.currentMode = MODE_HR_ONLY ∨ st1.currentMode = MODE_SPO2 ∨
        st1.currentMode = MODE_MULTI_LED) ∧
      (st1.currentMode = MODE_HR_ONLY → st1.nActiveSlots = 1) ∧
      (st1.currentMode = MODE_SPO2 → st1.nActiveSlots = 2) ∧
      (st1.currentMode = MODE_MULTI_LED → st1.nActiveSlots = st1.nConfiguredSlots) := by
  have d1 : MODE_SPO2 ≠ MODE_HR_ONLY := by decide
  have d2 : MODE_MULTI_LED ≠ MODE_HR_ONLY := by decide
  have d3 : MODE_MULTI_LED ≠ MODE_SPO2 := by decide
  have h0 : (st.currentMode = MODE_HR_ONLY ∧ st.nActiveSlots = 1) ∨
      (st.currentMode = MODE_SPO2 ∧ st.nActiveSlots = 2) ∨
      (st.currentMode = MODE_MULTI_LED ∧ st.nActiveSlots = st.nConfiguredSlots) := by
    rw [MAX30101_reset_true_state A P addr fuel s0 st x w hreset]
    exact Or.inr (Or.inl ⟨rfl, rfl⟩)
  rcases runOps_mode_slots A P addr ops st st1 w w1 h h0 with hi | hi | hi
  · refine ⟨Or.inl hi.1, fun _ => hi.2, fun hm => ?_, fun hm => ?_⟩
    · exact absurd (hi.1.symm.trans hm) d1.symm
    · exact absurd (hi.1.symm.trans hm) d2.symm
  · refine ⟨Or.inr (Or.inl hi.1), fun hm => ?_, fun _ => hi.2, fun hm => ?_⟩
    · exact absurd (hi.1.symm.trans hm) d1
    · exact absurd (hi.1.symm.trans hm) d3.symm
  · refine ⟨Or.inr (Or.inr hi.1), fun hm => ?_, fun hm => ?_, fun _ => hi.2⟩
    · exact absurd (hi.1.symm.trans hm) d2
    · exact absurd (hi.1.symm.trans hm) d3

/-- Witness for C31: a reset of a MAX30101 on a scripted bus returns true,
then three slots are configured, MODE_MULTI_LED is entered, a `setMode` fails
and a sample read fails: the mode is MODE_MULTI_LED and both slot counters are
3. -/
theorem C31_active_slots_match_mode_witness :
    ∃ st w st1 w1,
      MAX30101_reset scriptBus ⟨2, fun _ => 0⟩ 0x57 5 ⟨99, 77, 55⟩ demoLife = some (true, st, w) ∧
      runOps scriptBus ⟨2, fun _ => 0⟩ 0x57
        [.setMultiLedConfiguration ⟨SLOT_RED, SLOT_IR, SLOT_GREEN, SLOT_OFF⟩,
          .setMode MODE_MULTI_LED, .setMode MODE_HR_ONLY, .readSample (fun _ => 0) 0 5]
        (st, w) = some (st1, w1) ∧
      st1 = ⟨MODE_MULTI_LED, 3, 3⟩ ∧
      (st1.currentMode = MODE_MULTI_LED → st1.nActiveSlots = st1.nConfiguredSlots) :=
  ⟨_, _, _, _, by rfl, by rfl, by rfl,
    (C31_active_slots_match_mode scriptBus ⟨2, fun _ => 0⟩ 0x57 5
      [.setMultiLedConfiguration ⟨SLOT_RED, SLOT_IR, SLOT_GREEN, SLOT_OFF⟩,
        .setMode MODE_MULTI_LED, .setMode MODE_HR_ONLY, .readSample (fun _ => 0) 0 5]
      ⟨99, 77, 55⟩ _ _ demoLife _ _ (by rfl) (by rfl)).2.2.2⟩

end ModeSlotProps

/-! ## Atomicity of `setMultiLedConfiguration` -/

section AtomicityProps

variable {W : Type}

end AtomicityProps

/-! ## Part ID and revision ID -/

section RevisionIdProps

variable {W : Type}

/-- The data bytes of a block write queue up behind the register pointer on
the register-file bus. -/
theorem writeBytes_regBus (buffer : Nat → Nat) (n i : Nat) (s : RegFile) :
    writeBytes regBus buffer n i s =
      ⟨s.regs, s.ptr, s.tx ++ (List.range' i n).map buffer, s.rx, s.now⟩ := by
  induction n generalizing i s with
  | zero => simp [writeBytes]
  | succ k ih =>
    rw [writeBytes, ih]
    simp [regBus, List.range'_succ]

/-- Storing bytes in the registers from `reg` on leaves a register outside
that range alone. -/
theorem storeFrom_other (bs : List Nat) (reg r : Nat) (regs : Nat → Nat)
    (h : ∀ k, k < bs.length → u8 (reg + k) ≠ r) : storeFrom regs reg bs r = regs r := by
  induction bs generalizing reg regs with
  | nil => rfl
  | cons b bs ih =>
    rw [storeFrom, ih]
    · have h0 := h 0 (by simp)
      rw [Nat.add_zero] at h0
      exact Function.update_noteq (Ne.symm h0) _ _
    · intro k hk
      have := h (k + 1) (by simpa using hk)
      rwa [Nat.add_assoc, Nat.add_comm 1 k]

/-- A block write on the register-file bus that ends below register 0xFF
returns true and leaves register 0xFF alone. -/
theorem writeBlock_regBus_keeps_id (addr reg count : Nat) (buffer : Nat → Nat) (s : RegFile)
    (h : reg + count ≤ 0xFF) :
    (writeBlock regBus addr reg count buffer s).1 = true ∧
      (writeBlock regBus addr reg count buffer s).2.regs 0xFF = s.regs 0xFF := by
  unfold writeBlock
  simp only [writeBytes_regBus]
  simp only [regBus, List.nil_append, List.singleton_append, List.length_map, List.length_range',
    beq_self_eq_true, true_and]
  apply storeFrom_other
  intro k hk
  simp only [List.length_map, List.length_range'] at hk
  unfold u8
  omega

/-- A byte write below register 0xFF on the register-file bus returns true and
leaves register 0xFF alone. -/
theorem writeByte_regBus_keeps_id (addr reg value : Nat) (s : RegFile) (h : reg < 0xFF) :
    (writeByte regBus addr reg value s).1 = true ∧
      (writeByte regBus addr reg value s).2.regs 0xFF = s.regs 0xFF :=
  writeBlock_regBus_keeps_id addr reg 1 _ s (by omega)

/-- A read-modify-write of a register below 0xFF on the register-file bus
returns true and leaves register 0xFF alone. -/
theorem modify_regBus_keeps_id (addr reg : Nat) (g : Nat → Nat) (s : RegFile) (h : reg < 0xFF) :
    (match readByte regBus addr reg s with
      | (none, w1) => (false, w1)
      | (some b, w1) => writeByte regBus addr reg (g b) w1).1 = true ∧
    (match readByte regBus addr reg s with
      | (none, w1) => (false, w1)
      | (some b, w1) => writeByte regBus addr reg (g b) w1).2.regs 0xFF = s.regs 0xFF := by
  rw [regBus_readByte]
  exact writeByte_regBus_keeps_id addr reg _ _ h

/-- The function `setBit` on a register below 0xFF of the register-file bus
returns true and leaves register 0xFF alone. -/
theorem setBit_regBus_keeps_id (addr reg bit : Nat) (value : Bool) (s : RegFile)
    (h : reg < 0xFF) :
    (setBit regBus addr reg bit value s).1 = true ∧
      (setBit regBus addr reg bit value s).2.regs 0xFF = s.regs 0xFF :=
  modify_regBus_keeps_id addr reg
    (fun byte => if value then u8 (u8 (andNot byte (1 <<< bit)) ||| (1 <<< bit))
      else u8 (andNot byte (1 <<< bit))) s h

/-- Two steps that each return true and leave register 0xFF alone do so
together. -/
theorem andThen_regBus_keeps_id (f g : RegFile → Bool × RegFile)
    (hf : ∀ s, (f s).1 = true ∧ (f s).2.regs 0xFF = s.regs 0xFF)
    (hg : ∀ s, (g s).1 = true ∧ (g s).2.regs 0xFF = s.regs 0xFF) (s : RegFile) :
    (andThen f g s).1 = true ∧ (andThen f g s).2.regs 0xFF = s.regs 0xFF := by
  unfold andThen
  have h1 := hf s
  cases hfs : f s with
  | mk b s1 =>
    rw [hfs] at h1
    simp only at h1
    obtain ⟨hb, hr⟩ := h1
    subst hb
    simp only
    exact ⟨(hg s1).1, (hg s1).2.trans hr⟩

/-- The function `clearFIFO` of the two variants on the register-file bus
returns true and leaves register 0xFF alone. -/
theorem clearFIFO_regBus_keeps_id (v : Variant) (hv : v.FIFO_BASE + 2 < 0xFF) (addr : Nat)
    (s : RegFile) :
    (clearFIFO regBus v addr s).1 = true ∧ (clearFIFO regBus v addr s).2.regs 0xFF = s.regs 0xFF := by
  have e1 : u8 (v.FIFO_BASE + 1) = v.FIFO_BASE + 1 := Nat.mod_eq_of_lt (by omega)
  have e2 : u8 (v.FIFO_BASE + 2) = v.FIFO_BASE + 2 := Nat.mod_eq_of_lt (by omega)
  have h := andThen_regBus_keeps_id (writeByte regBus addr (FIFO_WR_PTR_REG v) 0)
    (andThen (writeByte regBus addr (FIFO_RD_PTR_REG v) 0)
      (writeByte regBus addr (FIFO_OVF_CNT_REG v) 0))
    (fun x => writeByte_regBus_keeps_id addr _ 0 x (by unfold FIFO_WR_PTR_REG; omega))
    (fun x => andThen_regBus_keeps_id _ _
      (fun y => writeByte_regBus_keeps_id addr _ 0 y (by unfold FIFO_RD_PTR_REG; omega))
      (fun y => writeByte_regBus_keeps_id addr _ 0 y (by unfold FIFO_OVF_CNT_REG; omega)) x) s
  have heq : clearFIFO regBus v addr s = andThen (writeByte regBus addr (FIFO_WR_PTR_REG v) 0)
      (andThen (writeByte regBus addr (FIFO_RD_PTR_REG v) 0)
        (writeByte regBus addr (FIFO_OVF_CNT_REG v) 0)) s := by
    unfold clearFIFO andThen
    cases writeByte regBus addr (FIFO_WR_PTR_REG v) 0 s with
    | mk b1 s1 =>
      cases b1
      · rfl
      · simp only
        cases writeByte regBus addr (FIFO_RD_PTR_REG v) 0 s1 with
        | mk b2 s2 =>
          cases b2
          · rfl
          · simp only
            cases writeByte regBus addr (FIFO_OVF_CNT_REG v) 0 s2 with
            | mk b3 s3 => cases b3 <;> rfl
  rw [heq]
  exact h

/-- The function `setModeInternal` with a mode below 8 on the register-file
bus returns true and leaves register 0xFF alone. -/
theorem setModeInternal_regBus_keeps_id (v : Variant) (hv : v.FIFO_BASE + 2 < 0xFF)
    (hm : v.MODE_CFG_REG < 0xFF) (addr m : Nat) (hlt : m < 8) (s : RegFile) :
    (setModeInternal regBus v addr m s).1 = true ∧
      (setModeInternal regBus v addr m s).2.regs 0xFF = s.regs 0xFF := by
  have h0 : andNot m MODE_MASK = 0 := andNot_mask_eq_zero m 3 hlt
  unfold setModeInternal
  rw [if_neg (by simp [h0]), regBus_readByte]
  simp only
  have hw := writeByte_regBus_keeps_id addr v.MODE_CFG_REG
    (u8 (u8 (andNot (u8 (s.regs (u8 v.MODE_CFG_REG))) MODE_MASK) ||| m))
    ⟨s.regs, u8 (u8 v.MODE_CFG_REG + 1), [], [], s.now⟩ hm
  cases hws : writeByte regBus addr v.MODE_CFG_REG
      (u8 (u8 (andNot (u8 (s.regs (u8 v.MODE_CFG_REG))) MODE_MASK) ||| m))
      ⟨s.regs, u8 (u8 v.MODE_CFG_REG + 1), [], [], s.now⟩ with
  | mk b s1 =>
    rw [hws] at hw
    simp only at hw
    obtain ⟨hb, hr⟩ := hw
    subst hb
    simp only
    exact ⟨(clearFIFO_regBus_keeps_id v hv addr s1).1,
      (clearFIFO_regBus_keeps_id v hv addr s1).2.trans hr⟩

/-- The default configuration of the MAX30100 on the register-file bus returns
true and leaves register 0xFF alone. -/
theorem MAX30100_setDefaultConfiguration_regBus_keeps_id (addr : Nat) (s : RegFile) :
    (MAX30100_setDefaultConfiguration regBus addr s).1 = true ∧
      (MAX30100_setDefaultConfiguration regBus addr s).2.regs 0xFF = s.regs 0xFF := by
  have hled : ∀ led current x, (MAX30100_setLedCurrent regBus addr led current x).1 = true ∧
      (MAX30100_setLedCurrent regBus addr led current x).2.regs 0xFF = x.regs 0xFF :=
    fun led current x => modify_regBus_keeps_id addr MAX30100_LED_CFG_REG
      (fun cfg => u8 (u8 (andNot cfg (0xf <<< (4 * u8 led))) ||| (u8 current <<< (4 * u8 led))))
      x (by decide)
  have hres : ∀ V x, (MAX30100_setResolution regBus addr V x).1 = true ∧
      (MAX30100_setResolution regBus addr V x).2.regs 0xFF = x.regs 0xFF :=
    fun V x => modify_regBus_keeps_id addr MAX30100_SPO2_CFG_REG
      (fun cfg => u8 (u8 (andNot cfg 0x3) ||| u8 V)) x (by decide)
  have hrate : ∀ V x, (MAX30100_setSamplingRate regBus addr V x).1 = true ∧
      (MAX30100_setSamplingRate regBus addr V x).2.regs 0xFF = x.regs 0xFF :=
    fun V x => modify_regBus_keeps_id addr MAX30100_SPO2_CFG_REG
      (fun cfg => u8 (u8 (andNot cfg (0x7 <<< 2)) ||| (u8 V <<< 2))) x (by decide)
  have hmode : ∀ x, (MAX30100_setMode regBus addr MODE_SPO2 x).1 = true ∧
      (MAX30100_setMode regBus addr MODE_SPO2 x).2.regs 0xFF = x.regs 0xFF :=
    fun x => setModeInternal_regBus_keeps_id MAX30100 (by decide) (by decide) addr 3 (by decide) x
  unfold MAX30100_setDefaultConfiguration
  exact andThen_regBus_keeps_id _ _ (hled 1 4) (andThen_regBus_keeps_id _ _ (hled 0 6)
    (andThen_regBus_keeps_id _ _ (hres 3) (andThen_regBus_keeps_id _ _ (hrate 0) hmode))) s

/-- The settings part of the default configuration of the MAX30101 on the
register-file bus returns true and leaves register 0xFF alone. -/
theorem MAX30101_defaultSettings_regBus_keeps_id (addr : Nat) (s : RegFile) :
    (MAX30101_defaultSettings regBus addr s).1 = true ∧
      (MAX30101_defaultSettings regBus addr s).2.regs 0xFF = s.regs 0xFF := by
  have hled : ∀ led current x, led ≤ 3 →
      (MAX30101_setLedCurrent regBus addr led current x).1 = true ∧
      (MAX30101_setLedCurrent regBus addr led current x).2.regs 0xFF = x.regs 0xFF :=
    fun led current x h => writeByte_regBus_keeps_id addr _ current x (by
      unfold u8 LED_CFG_REG_BASE
      omega)
  have hres : ∀ x, (setResolution regBus addr 3 x).1 = true ∧
      (setResolution regBus addr 3 x).2.regs 0xFF = x.regs 0xFF := fun x => by
    rw [setResolution_regBus addr 3 x (by decide)]
    exact ⟨rfl, by simp [Function.update]⟩
  have hrate : ∀ x, (setSamplingRate regBus addr 0 x).1 = true ∧
      (setSamplingRate regBus addr 0 x).2.regs 0xFF = x.regs 0xFF := fun x => by
    rw [setSamplingRate_regBus addr 0 x (by decide)]
    exact ⟨rfl, by simp [Function.update]⟩
  have havg : ∀ x, (setSampleAveraging regBus addr 0 x).1 = true ∧
      (setSampleAveraging regBus addr 0 x).2.regs 0xFF = x.regs 0xFF := fun x => by
    rw [setSampleAveraging_regBus addr 0 x (by decide)]
    exact ⟨rfl, by simp [Function.update]⟩
  have hrange : ∀ x, (setADCRange regBus addr 3 x).1 = true ∧
      (setADCRange regBus addr 3 x).2.regs 0xFF = x.regs 0xFF := fun x => by
    rw [setADCRange_regBus addr 3 x (by decide)]
    exact ⟨rfl, by simp [Function.update]⟩
  have hroll : ∀ x, (enableFIFORollover regBus addr x).1 = true ∧
      (enableFIFORollover regBus addr x).2.regs 0xFF = x.regs 0xFF :=
    fun x => setBit_regBus_keeps_id addr FIFO_CFG_REG FIFO_ROLLOVER_EN_BIT true x (by decide)
  unfold MAX30101_defaultSettings
  exact andThen_regBus_keeps_id _ _ (fun x => hled 0 90 x (by decide))
    (andThen_regBus_keeps_id _ _ (fun x => hled 1 80 x (by decide))
      (andThen_regBus_keeps_id _ _ (fun x => hled 2 100 x (by decide))
        (andThen_regBus_keeps_id _ _ (fun x => hled 3 0 x (by decide))
          (andThen_regBus_keeps_id _ _ hres (andThen_regBus_keeps_id _ _ hrate
            (andThen_regBus_keeps_id _ _ havg
              (andThen_regBus_keeps_id _ _ hrange hroll))))))) s

/-- The default configuration of the MAX30101 on the register-file bus, on a
platform whose pointers have at most 8 bytes, returns true and leaves register
0xFF alone. -/
theorem MAX30101_setDefaultConfiguration_regBus_keeps_id (P : Platform) (hP : P.sizeofPtr ≤ 8)
    (addr : Nat) (st : MultiLedState) (s : RegFile) :
    (MAX30101_setDefaultConfiguration regBus P addr st s).1 = true ∧
      (MAX30101_setDefaultConfiguration regBus P addr st s).2.2.regs 0xFF = s.regs 0xFF := by
  have hc : countSlots ⟨0, 0, 0, 0⟩ 4 0 0 = some 0 := by rfl
  have hu : u8 P.sizeofPtr = P.sizeofPtr := Nat.mod_eq_of_lt (by omega)
  have hw := writeBlock_regBus_keeps_id addr MULTI_LED_CFG_REG_BASE (u8 P.sizeofPtr)
    (rawCfg P ⟨0, 0, 0, 0⟩) s (by rw [hu]; unfold MULTI_LED_CFG_REG_BASE; omega)
  unfold MAX30101_setDefaultConfiguration setMultiLedConfiguration
  rw [hc]
  simp only [setMultiLedConfigurationInternal]
  cases hws : writeBlock regBus addr MULTI_LED_CFG_REG_BASE (u8 P.sizeofPtr)
      (rawCfg P ⟨0, 0, 0, 0⟩) s with
  | mk b s1 =>
    rw [hws] at hw
    simp only at hw
    obtain ⟨hb, hr1⟩ := hw
    subst hb
    simp only
    obtain ⟨hc1, hc2⟩ := clearFIFO_regBus_keeps_id MAX30101 (by decide) addr s1
    cases hcs : clearFIFO regBus MAX30101 addr s1 with
    | mk b2 s2 =>
      rw [hcs] at hc1 hc2
      simp only at hc1 hc2
      subst hc1
      simp only
      obtain ⟨hd1, hd2⟩ := MAX30101_defaultSettings_regBus_keeps_id addr s2
      cases hds : MAX30101_defaultSettings regBus addr s2 with
      | mk b3 s3 =>
        rw [hds] at hd1 hd2
        simp only at hd1 hd2
        subst hd1
        simp only
        obtain ⟨hm1, hm2⟩ := setModeInternal_regBus_keeps_id MAX30101 (by decide) (by decide)
          addr 3 (by decide) s3
        rw [setMode_eq, if_pos (Or.inr (Or.inl rfl))]
        have hm1u : (setModeInternal regBus MAX30101 addr (u8 MODE_SPO2) s3).1 = true := hm1
        rw [if_pos hm1u]
        exact ⟨rfl, hm2.trans (hd2.trans (hc2.trans hr1))⟩

/-- On the register-file bus `readRevisionId()` returns the content of
register 0xFF. -/
theorem readRevisionId_regBus (addr : Nat) (s : RegFile) :
    readRevisionId regBus addr s =
      (u8 (s.regs 0xFF),
        { regs := s.regs, ptr := u8 (u8 0xFF + 1), tx := [], rx := [], now := s.now }) := by
  unfold readRevisionId
  rw [show REV_ID_REG = 0xFF from rfl, regBus_readByte]
  rfl

/-- On the register-file bus, what `reset()` of the MAX30101 does from its
part-ID read on (enable the temperature interrupt, run the default
configuration) succeeds, and a `readRevisionId()` after it returns the byte
the part-ID read delivered. -/
theorem MAX30101_revision_after_reset_steps (P : Platform) (hP : P.sizeofPtr ≤ 8) (addr : Nat)
    (st : MultiLedState) (s : RegFile) :
    (enableInterrupt regBus MAX30101 addr MAX30101.INT_TEMP_RDY (readPartId regBus addr s).2).1
        = true ∧
      (MAX30101_setDefaultConfiguration regBus P addr st
        (enableInterrupt regBus MAX30101 addr MAX30101.INT_TEMP_RDY
          (readPartId regBus addr s).2).2).1 = true ∧
      (readRevisionId regBus addr
        (MAX30101_setDefaultConfiguration regBus P addr st
          (enableInterrupt regBus MAX30101 addr MAX30101.INT_TEMP_RDY
            (readPartId regBus addr s).2).2).2.2).1 = (readPartId regBus addr s).1 := by
  have hp : readPartId regBus addr s =
      (u8 (s.regs 0xFF),
        { regs := s.regs, ptr := u8 (u8 0xFF + 1), tx := [], rx := [], now := s.now }) :=
    readRevisionId_regBus addr s
  have he : ∀ x, enableInterrupt regBus MAX30101 addr MAX30101.INT_TEMP_RDY x
      = setBit regBus addr 0x03 1 true x := fun x => rfl
  rw [hp]
  simp only [he]
  obtain ⟨h1, h2⟩ := setBit_regBus_keeps_id addr 0x03 1 true
    ⟨s.regs, u8 (u8 0xFF + 1), [], [], s.now⟩ (by decide)
  obtain ⟨h3, h4⟩ := MAX30101_setDefaultConfiguration_regBus_keeps_id P hP addr st
    (setBit regBus addr 0x03 1 true ⟨s.regs, u8 (u8 0xFF + 1), [], [], s.now⟩).2
  refine ⟨h1, h3, ?_⟩
  rw [readRevisionId_regBus, h4, h2]

/-- On the register-file bus, what `reset()` of the MAX30100 does from its
part-ID read on succeeds, and a `readRevisionId()` after it returns the byte
the part-ID read delivered. -/
theorem MAX30100_revision_after_reset_steps (addr : Nat) (s : RegFile) :
    (enableInterrupt regBus MAX30100 addr MAX30100.INT_TEMP_RDY (readPartId regBus addr s).2).1
        = true ∧
      (MAX30100_setDefaultConfiguration regBus addr
        (enableInterrupt regBus MAX30100 addr MAX30100.INT_TEMP_RDY
          (readPartId regBus addr s).2).2).1 = true ∧
      (readRevisionId regBus addr
        (MAX30100_setDefaultConfiguration regBus addr
          (enableInterrupt regBus MAX30100 addr MAX30100.INT_TEMP_RDY
            (readPartId regBus addr s).2).2).2).1 = (readPartId regBus addr s).1 := by
  have hp : readPartId regBus addr s =
      (u8 (s.regs 0xFF),
        { regs := s.regs, ptr := u8 (u8 0xFF + 1), tx := [], rx := [], now := s.now }) :=
    readRevisionId_regBus addr s
  have he : ∀ x, enableInterrupt regBus MAX30100 addr MAX30100.INT_TEMP_RDY x
      = setBit regBus addr 0x01 6 true x := fun x => rfl
  rw [hp]
  simp only [he]
  obtain ⟨h1, h2⟩ := setBit_regBus_keeps_id addr 0x01 6 true
    ⟨s.regs, u8 (u8 0xFF + 1), [], [], s.now⟩ (by decide)
  obtain ⟨h3, h4⟩ := MAX30100_setDefaultConfiguration_regBus_keeps_id addr
    (setBit regBus addr 0x01 6 true ⟨s.regs, u8 (u8 0xFF + 1), [], [], s.now⟩).2
  refine ⟨h1, h3, ?_⟩
  rw [readRevisionId_regBus, h4, h2]

/-- A `reset()` that returns true has read the expected part ID after its
wait for the reset bit. -/
theorem reset_true_part_id {St : Type} (A : Arduino W) (v : Variant) (addr : Nat)
    (setDefaultConfiguration : St → W → Bool × St × W) (fuel : Nat) (st st1 : St) (w w9 : W)
    (h : reset A v addr setDefaultConfiguration fuel st w = some (true, st1, w9)) :
    ∃ w1 w2, setBit A addr v.MODE_CFG_REG v.MODE_RST_BIT true w = (true, w1) ∧
      waitBit A addr v.MODE_CFG_REG v.MODE_RST_BIT false 100 fuel w1 = some (true, w2) ∧
      (readPartId A addr w2).1 = v.MAX3010x_PART_ID := by
  unfold reset at h
  split at h
  · simp at h
  · rename_i w1 hset
    split at h
    · simp at h
    · simp at h
    · rename_i w2 hwait
      refine ⟨w1, w2, hset, hwait, ?_⟩
      simp only at h
      by_contra hne
      rw [if_pos hne] at h
      simp at h

/-- On the device register file a read of register 0xFF delivers the part ID
the device holds there, whatever the state. -/
theorem deviceBus_readByte_id (v : Variant) (partId addr : Nat) (s : RegFile) :
    (readByte (deviceBus v partId) addr 0xFF s).1 = some (u8 partId) := by
  simp [readByte, readBlock, readBytes, deviceBus, regBus, storeFrom, List.range,
    List.range.loop, u8, Function.update]

/-- Claim C33: for every variant and every bus state `readRevisionId()` reads
register 0xFF, the register `readPartId()` reads, and is the same function of
the bus; on the register-file bus both return the content of register 0xFF.
On the register file of a device (register 0xFF read-only, the reset bit
self-clearing), whenever `reset()` returns true, `readRevisionId()` called in
the state that `reset()` left returns the variant's part ID, as `readPartId()`
does.  On the plain register-file bus, what `reset()` does from its part-ID
read on, for the MAX30100 and for the MAX30101, succeeds and leaves register
0xFF alone. -/
theorem C33_readRevisionId_reads_part_id {St : Type} (v : Variant) (partId addr : Nat)
    (setDefaultConfiguration : St → RegFile → Bool × St × RegFile) (fuel : Nat) (st st1 : St)
    (s s9 : RegFile)
    (hreset : reset (deviceBus v partId) v addr setDefaultConfiguration fuel st s
      = some (true, st1, s9)) :
    REV_ID_REG = 0xFF ∧ PART_ID_REG = 0xFF ∧
      (∀ (W : Type) (A : Arduino W) (x : W), readRevisionId A addr x = readPartId A addr x) ∧
      (∀ (W : Type) (A : Arduino W) (x : W), readRevisionId A addr x =
        ((readByte A addr 0xFF x).1.getD 0xFF, (readByte A addr 0xFF x).2)) ∧
      (∀ x : RegFile, (readRevisionId regBus addr x).1 = u8 (x.regs 0xFF) ∧
        (readPartId regBus addr x).1 = u8 (x.regs 0xFF) ∧
        (readRevisionId regBus addr x).2.regs = x.regs) ∧
      (readRevisionId (deviceBus v partId) addr s9).1 = v.MAX3010x_PART_ID ∧
      (readPartId (deviceBus v partId) addr s9).1 = v.MAX3010x_PART_ID ∧
      (∀ (P : Platform) (m : MultiLedState) (x : RegFile), P.sizeofPtr ≤ 8 →
        (enableInterrupt regBus MAX30101 addr MAX30101.INT_TEMP_RDY
          (readPartId regBus addr x).2).1 = true ∧
        (MAX30101_setDefaultConfiguration regBus P addr m
          (enableInterrupt regBus MAX30101 addr MAX30101.INT_TEMP_RDY
            (readPartId regBus addr x).2).2).1 = true ∧
        (readRevisionId regBus addr
          (MAX30101_setDefaultConfiguration regBus P addr m
            (enableInterrupt regBus MAX30101 addr MAX30101.INT_TEMP_RDY
              (readPartId regBus addr x).2).2).2.2).1 = (readPartId regBus addr x).1) ∧
      (∀ x : RegFile,
        (enableInterrupt regBus MAX30100 addr MAX30100.INT_TEMP_RDY
          (readPartId regBus addr x).2).1 = true ∧
        (MAX30100_setDefaultConfiguration regBus addr
          (enableInterrupt regBus MAX30100 addr MAX30100.INT_TEMP_RDY
            (readPartId regBus addr x).2).2).1 = true ∧
        (readRevisionId regBus addr
          (MAX30100_setDefaultConfiguration regBus addr
            (enableInterrupt regBus MAX30100 addr MAX30100.INT_TEMP_RDY
              (readPartId regBus addr x).2).2).2).1 = (readPartId regBus addr x).1) := by
  have hid : ∀ x : RegFile, (readPartId (deviceBus v partId) addr x).1 = u8 partId := by
    intro x
    have h := deviceBus_readByte_id v partId addr x
    unfold readPartId
    rw [show PART_ID_REG = 0xFF from rfl]
    cases hr : readByte (deviceBus v partId) addr 0xFF x with
    | mk o x1 =>
      rw [hr] at h
      simp only at h
      subst h
      rfl
  obtain ⟨w1, w2, _, _, h3⟩ :=
    reset_true_part_id (deviceBus v partId) v addr setDefaultConfiguration fuel st st1 s s9 hreset
  have hpart : u8 partId = v.MAX3010x_PART_ID := by rw [← hid w2]; exact h3
  refine ⟨rfl, rfl, fun W A x => rfl, ?_, ?_, ?_, ?_, ?_, ?_⟩
  · intro W A x
    unfold readRevisionId
    rw [show REV_ID_REG = 0xFF from rfl]
    cases readByte A addr 0xFF x with
    | mk o x1 => cases o <;> rfl
  · intro x
    have hp : readPartId regBus addr x =
        (u8 (x.regs 0xFF),
          { regs := x.regs, ptr := u8 (u8 0xFF + 1), tx := [], rx := [], now := x.now }) :=
      readRevisionId_regBus addr x
    exact ⟨by rw [readRevisionId_regBus], by rw [hp], by rw [readRevisionId_regBus]⟩
  · have : readRevisionId (deviceBus v partId) addr s9 = readPartId (deviceBus v partId) addr s9 :=
      rfl
    rw [this, hid s9, hpart]
  · rw [hid s9, hpart]
  · intro P m x hP
    exact MAX30101_revision_after_reset_steps P hP addr m x
  · intro x
    exact MAX30100_revision_after_reset_steps addr x

/-- Witness for C33: a MAX30101 on the register file of a device whose
register 0xFF holds 0x15, started with every register zero: `reset()` returns true and
`readRevisionId()` then returns 0x15, the part ID. -/
theorem C33_readRevisionId_reads_part_id_witness :
    ∃ st1 s9,
      MAX30101_reset (deviceBus MAX30101 0x15) ⟨2, fun _ => 0⟩ 0x57 5 ⟨99, 77, 55⟩ regs0
        = some (true, st1, s9) ∧
      st1 = ⟨MODE_SPO2, 2, 0⟩ ∧
      (readRevisionId (deviceBus MAX30101 0x15) 0x57 s9).1 = MAX30101.MAX3010x_PART_ID ∧
      (readRevisionId (deviceBus MAX30101 0x15) 0x57 s9).1 = 0x15 :=
  ⟨_, _, by rfl, by rfl,
    (C33_readRevisionId_reads_part_id MAX30101 0x15 0x57
      (MAX30101_setDefaultConfiguration (deviceBus MAX30101 0x15) ⟨2, fun _ => 0⟩ 0x57) 5
      ⟨99, 77, 55⟩ _ regs0 _ (by rfl)).2.2.2.2.2.1, by rfl⟩

end RevisionIdProps

/-! ## Timeout of `readSample` -/

section TimeoutProps

variable {W : Type}

/-- One iteration of the polling loop whose pointer read shows overflow = 0,
with a positive timeout that has elapsed: the loop is left through
`return sample` right after the clock was read. -/
theorem pollFIFO_timed_out (A : Arduino W) (v : Variant) (addr : Nat) (timeout : Int)
    (startTime fuel : Nat) (w w1 : W) (buf : List Nat)
    (hrb : readBlock A addr v.FIFO_BASE sizeofFIFORegisters w = (some buf, w1))
    (ht : 0 < timeout) (hov : (FIFORegisters.ofBytes buf).overflow = 0)
    (hel : timeout ≤ (elapsed (A.millis w1).1 startTime : Int)) :
    pollFIFO A v addr timeout startTime (fuel + 1) w = some (none, (A.millis w1).2) := by
  unfold pollFIFO
  rw [hrb]
  simp only
  rw [if_neg (by simpa using hov), if_pos ht, if_pos hel]

/-- One iteration of the polling loop whose pointer read shows overflow != 0:
the loop is left towards the data fetch, the clock is not read. -/
theorem pollFIFO_overflow (A : Arduino W) (v : Variant) (addr : Nat) (timeout : Int)
    (startTime fuel : Nat) (w w1 : W) (buf : List Nat)
    (hrb : readBlock A addr v.FIFO_BASE sizeofFIFORegisters w = (some buf, w1))
    (hov : (FIFORegisters.ofBytes buf).overflow ≠ 0) :
    pollFIFO A v addr timeout startTime (fuel + 1) w
      = some (some (FIFORegisters.ofBytes buf), w1) := by
  unfold pollFIFO
  rw [hrb]
  simp only
  rw [if_pos hov]

/-- With a timeout of zero or less the polling loop is left through
`return sample` only by a failed pointer read. -/
theorem pollFIFO_abort_without_timeout (A : Arduino W) (v : Variant) (addr : Nat)
    (timeout : Int) (ht : timeout ≤ 0) (startTime fuel : Nat) (w w1 : W)
    (h : pollFIFO A v addr timeout startTime fuel w = some (none, w1)) :
    ∃ w0, readBlock A addr v.FIFO_BASE sizeofFIFORegisters w0 = (none, w1) := by
  have hn : ¬ timeout > 0 := not_lt.mpr ht
  induction fuel generalizing w with
  | zero => simp [pollFIFO] at h
  | succ k ih =>
    unfold pollFIFO at h
    split at h
    · rename_i w0 hrb
      simp only [Option.some.injEq, Prod.mk.injEq, true_and] at h
      exact ⟨w, by rw [hrb, h]⟩
    · rename_i buf w0 hrb
      simp only at h
      rw [if_neg hn] at h
      split_ifs at h with h1 h2
      · simp at h
      · exact ih _ h
      · simp at h

/-- With a timeout of zero or less the polling loop does not depend on the
timeout or on the start time: the clock plays no part. -/
theorem pollFIFO_without_timeout (A : Arduino W) (v : Variant) (addr : Nat)
    (timeout : Int) (ht : timeout ≤ 0) (startTime startTime2 fuel : Nat) (w : W) :
    pollFIFO A v addr timeout startTime fuel w = pollFIFO A v addr 0 startTime2 fuel w := by
  have hn : ¬ timeout > 0 := not_lt.mpr ht
  have h0 : ¬ (0 : Int) > 0 := by decide
  induction fuel generalizing w with
  | zero => rfl
  | succ k ih =>
    unfold pollFIFO
    split
    · rfl
    · simp only
      rw [if_neg hn, if_neg h0]
      split_ifs
      · rfl
      · exact ih _
      · rfl

/-- Claim C34: `readSample(timeout)`.  When the first pointer poll succeeds,
(1) with timeout > 0, overflow = 0 and at least `timeout` milliseconds elapsed
since entry, `readSample` returns the invalid sample right after reading the
clock, without touching the FIFO data register, whatever the write and read
pointers of that poll are; (2) with overflow != 0 it goes on to the data fetch
without reading the clock, whatever the timeout; (3) both hold for every later
iteration of the polling loop; (4) with timeout <= 0 the loop is left through
`return sample` only by a failed pointer read, and its outcome does not depend
on the timeout or the start time. -/
theorem C34_readSample_timeout {S : Type} (A : Arduino W) (v : Variant) (addr n : Nat)
    (zero : S) (fill : List Nat → S → S) (timeout : Int) (fuel : Nat) (w w1 : W)
    (buf : List Nat)
    (hrb : readBlock A addr v.FIFO_BASE sizeofFIFORegisters (A.millis w).2 = (some buf, w1)) :
    (0 < timeout → (FIFORegisters.ofBytes buf).overflow = 0 →
        timeout ≤ (elapsed (A.millis w1).1 (A.millis w).1 : Int) →
        readSample A v addr n zero fill timeout (fuel + 1) w = some (zero, (A.millis w1).2)) ∧
      ((FIFORegisters.ofBytes buf).overflow ≠ 0 →
        readSample A v addr n zero fill timeout (fuel + 1) w =
          some (match readBlock A addr (FIFO_DATA_REG v) (u8 (v.SAMPLE_SIZE * n)) w1 with
            | (none, w2) =>
              (zero, (writeByte A addr (FIFO_RD_PTR_REG v) (FIFORegisters.ofBytes buf).read w2).2)
            | (some bytes, w2) => (fill (dataBuffer v bytes) zero, w2))) ∧
      (∀ (startTime k : Nat) (x x1 : W) (b : List Nat),
        readBlock A addr v.FIFO_BASE sizeofFIFORegisters x = (some b, x1) →
        (0 < timeout → (FIFORegisters.ofBytes b).overflow = 0 →
          timeout ≤ (elapsed (A.millis x1).1 startTime : Int) →
          pollFIFO A v addr timeout startTime (k + 1) x = some (none, (A.millis x1).2)) ∧
        ((FIFORegisters.ofBytes b).overflow ≠ 0 →
          pollFIFO A v addr timeout startTime (k + 1) x
            = some (some (FIFORegisters.ofBytes b), x1))) ∧
      (timeout ≤ 0 → ∀ (startTime k : Nat) (x x1 : W),
        pollFIFO A v addr timeout startTime k x = some (none, x1) →
        ∃ x0, readBlock A addr v.FIFO_BASE sizeofFIFORegisters x0 = (none, x1)) ∧
      (timeout ≤ 0 → ∀ (startTime startTime2 k : Nat) (x : W),
        pollFIFO A v addr timeout startTime k x = pollFIFO A v addr 0 startTime2 k x) := by
  refine ⟨?_, ?_, ?_, ?_, ?_⟩
  · intro ht hov hel
    unfold readSample
    simp only
    rw [pollFIFO_timed_out A v addr timeout _ fuel _ w1 buf hrb ht hov hel]
  · intro hov
    unfold readSample
    simp only
    rw [pollFIFO_overflow A v addr timeout _ fuel _ w1 buf hrb hov]
    simp only
    cases readBlock A addr (FIFO_DATA_REG v) (u8 (v.SAMPLE_SIZE * n)) w1 with
    | mk o w2 => cases o <;> rfl
  · intro startTime k x x1 b hb
    exact ⟨fun ht hov hel => pollFIFO_timed_out A v addr timeout startTime k x x1 b hb ht hov hel,
      fun hov => pollFIFO_overflow A v addr timeout startTime k x x1 b hb hov⟩
  · intro ht startTime k x x1 h
    exact pollFIFO_abort_without_timeout A v addr timeout ht startTime k x x1 h
  · intro ht startTime startTime2 k x
    exact pollFIFO_without_timeout A v addr timeout ht startTime startTime2 k x

/-- Witness for C34: a MAX30100 with timeout 10 whose first poll shows
write = 5, overflow = 0, read = 2 (data present) while the clock went from 7
to 20: the sample is invalid and the last call on the bus is the clock read;
and a MAX30101 whose first poll shows overflow = 1 goes on to the data
register with the same timeout. -/
theorem C34_readSample_timeout_witness :
    (MAX30100_readSample scriptBus 0x57 10 1 demoTimeout).map (fun r => (r.1, r.2.log.drop 9))
        = some (MAX30100Sample.zero, [.millis]) ∧
      (MAX30101_readSample scriptBus 0x57 ⟨MODE_SPO2, 2, 0⟩ (fun _ => 0) 10 1 demoFail101).map
          (fun r => (r.1.valid, r.2.log.drop 9))
        = some (false, [.beginTransmission 0x57, .write 7, .endTransmission true,
            .beginTransmission 0x57, .write 6, .write 9, .endTransmission true]) := by
  have h1 := (C34_readSample_timeout scriptBus MAX30100 0x57 MAX30100_nActiveSlots
    MAX30100Sample.zero MAX30100_fillSampleWithData 10 0 demoTimeout _ [5, 0, 2] (by rfl)).1
    (by decide) (by rfl) (by decide)
  have h2 := (C34_readSample_timeout scriptBus MAX30101 0x57 2
    (MAX30101Sample.zero (fun _ => 0)) (MultiLed_fillSampleWithData 2) 10 0 demoFail101 _
    [9, 1, 9] (by rfl)).2.1 (by decide)
  constructor
  · unfold MAX30100_readSample
    rw [h1]
    rfl
  · unfold MAX30101_readSample
    rw [h2]
    rfl

end TimeoutProps

/-! ## LED currents of the MAX30100 -/

section LedCurrentProps

variable {W : Type}

set_option maxRecDepth 1000000 in
/-- Bit arithmetic of `MAX30100::setLedCurrent` for `LED_IR = 0`: the low
nibble becomes the current, the high nibble is kept. -/
theorem ir_current_bits : ∀ old < 256, ∀ c < 16,
    u8 (u8 (andNot old (0xf <<< (4 * u8 0))) ||| (u8 c <<< (4 * u8 0)))
      = andNot old (0xF <<< (4 * 0)) ||| (c <<< (4 * 0)) ∧
    andNot old (0xF <<< (4 * 0)) ||| (c <<< (4 * 0)) = (old &&& 0xF0) ||| c ∧
    (old &&& 0xF0) ||| c = old / 16 * 16 + c := by
  decide

set_option maxRecDepth 1000000 in
/-- Bit arithmetic of `MAX30100::setLedCurrent` for `LED_RED = 1`: the high
nibble becomes the current, the low nibble is kept. -/
theorem red_current_bits : ∀ old < 256, ∀ c < 16,
    u8 (u8 (andNot old (0xf <<< (4 * u8 1))) ||| (u8 c <<< (4 * u8 1)))
      = andNot old (0xF <<< (4 * 1)) ||| (c <<< (4 * 1)) ∧
    andNot old (0xF <<< (4 * 1)) ||| (c <<< (4 * 1)) = (old &&& 0x0F) ||| (c <<< 4) ∧
    (old &&& 0x0F) ||| (c <<< 4) = c * 16 + old % 16 := by
  decide

/-- What `MAX30100::setLedCurrent` does after a successful read of the byte
`old`. -/
theorem MAX30100_setLedCurrent_write (A : Arduino W) (addr led current old : Nat) (w w1 : W)
    (hled : led ≤ 1) (hcur : current ≤ 15)
    (hread : readByte A addr MAX30100_LED_CFG_REG w = (some old, w1)) :
    MAX30100_setLedCurrent A addr led current w =
      writeByte A addr 0x09 (andNot old (0xF <<< (4 * led)) ||| (current <<< (4 * led))) w1 := by
  have hold := readByte_lt A addr _ w w1 old hread
  unfold MAX30100_setLedCurrent
  simp only [hread]
  have hl : led = 0 ∨ led = 1 := by omega
  rcases hl with hl | hl <;> subst hl
  · rw [(ir_current_bits old hold current (by omega)).1]
    rfl
  · rw [(red_current_bits old hold current (by omega)).1]
    rfl

/-- The effect of `MAX30100::setLedCurrent(LED_IR, c)` on the register-file
bus. -/
theorem MAX30100_setLedCurrent_ir_regBus (addr c : Nat) (hc : c ≤ 15) (s : RegFile) :
    MAX30100_setLedCurrent regBus addr 0 c s =
      (true, ⟨Function.update s.regs 0x09 (u8 (s.regs 0x09) / 16 * 16 + c), 0x0A, [], [], s.now⟩) := by
  have hb : u8 (s.regs 0x09) < 256 := Nat.mod_lt _ (by decide)
  obtain ⟨_, b2, b3⟩ := ir_current_bits _ hb c (by omega)
  rw [MAX30100_setLedCurrent_write regBus addr 0 c _ s _ (by decide) hc
    (regBus_readByte addr MAX30100_LED_CFG_REG s), regBus_writeByte]
  have hv : u8 (andNot (u8 (s.regs 0x09)) (0xF <<< (4 * 0)) ||| (c <<< (4 * 0)))
      = u8 (s.regs 0x09) / 16 * 16 + c := by
    rw [b2, b3]
    exact Nat.mod_eq_of_lt (by omega)
  show (true, (⟨Function.update s.regs 0x09
    (u8 (andNot (u8 (s.regs 0x09)) (0xF <<< (4 * 0)) ||| (c <<< (4 * 0)))), 0x0A, [], [],
      s.now⟩ : RegFile)) = _
  rw [hv]

/-- The effect of `MAX30100::setLedCurrent(LED_RED, c)` on the register-file
bus. -/
theorem MAX30100_setLedCurrent_red_regBus (addr c : Nat) (hc : c ≤ 15) (s : RegFile) :
    MAX30100_setLedCurrent regBus addr 1 c s =
      (true, ⟨Function.update s.regs 0x09 (c * 16 + u8 (s.regs 0x09) % 16), 0x0A, [], [], s.now⟩) := by
  have hb : u8 (s.regs 0x09) < 256 := Nat.mod_lt _ (by decide)
  obtain ⟨_, b2, b3⟩ := red_current_bits _ hb c (by omega)
  rw [MAX30100_setLedCurrent_write regBus addr 1 c _ s _ (by decide) hc
    (regBus_readByte addr MAX30100_LED_CFG_REG s), regBus_writeByte]
  have hv : u8 (andNot (u8 (s.regs 0x09)) (0xF <<< (4 * 1)) ||| (c <<< (4 * 1)))
      = c * 16 + u8 (s.regs 0x09) % 16 := by
    rw [b2, b3]
    exact Nat.mod_eq_of_lt (by omega)
  show (true, (⟨Function.update s.regs 0x09
    (u8 (andNot (u8 (s.regs 0x09)) (0xF <<< (4 * 1)) ||| (c <<< (4 * 1)))), 0x0A, [], [],
      s.now⟩ : RegFile)) = _
  rw [hv]

/-- On the register-file bus `MAX30100::setMode` with a mode below 8 returns
true and leaves the LED configuration register alone. -/
theorem MAX30100_setMode_regBus_led (addr m : Nat) (hm : m < 8) (s : RegFile) :
    (MAX30100_setMode regBus addr m s).1 = true ∧
      (MAX30100_setMode regBus addr m s).2.regs 0x09 = s.regs 0x09 := by
  have hu : u8 m = m := Nat.mod_eq_of_lt (by omega)
  have h0 : andNot m MODE_MASK = 0 := andNot_mask_eq_zero m 3 hm
  unfold MAX30100_setMode
  rw [hu]
  simp [setModeInternal, h0, regBus_readByte, regBus_writeByte, clearFIFO, MAX30100,
    FIFO_WR_PTR_REG, FIFO_RD_PTR_REG, FIFO_OVF_CNT_REG, Function.update, u8]

/-- On the register-file bus, setting the RED and the IR current of the
MAX30100 in either order leaves the same state: register 0x09 holds the RED
current in its high and the IR current in its low nibble. -/
theorem MAX30100_setLedCurrent_regBus_commute (addr a b : Nat) (ha : a ≤ 15) (hb : b ≤ 15)
    (s : RegFile) :
    MAX30100_setLedCurrent regBus addr 0 b (MAX30100_setLedCurrent regBus addr 1 a s).2 =
        (true, ⟨Function.update s.regs 0x09 (a * 16 + b), 0x0A, [], [], s.now⟩) ∧
      MAX30100_setLedCurrent regBus addr 1 a (MAX30100_setLedCurrent regBus addr 0 b s).2 =
        (true, ⟨Function.update s.regs 0x09 (a * 16 + b), 0x0A, [], [], s.now⟩) := by
  have hx : u8 (s.regs 0x09) < 256 := Nat.mod_lt _ (by decide)
  constructor
  · rw [MAX30100_setLedCurrent_red_regBus addr a ha, MAX30100_setLedCurrent_ir_regBus addr b hb]
    simp only [Function.update_same, Function.update_idem]
    have hv : u8 (a * 16 + u8 (s.regs 0x09) % 16) / 16 * 16 + b = a * 16 + b := by
      unfold u8 at hx ⊢
      omega
    rw [hv]
  · rw [MAX30100_setLedCurrent_ir_regBus addr b hb, MAX30100_setLedCurrent_red_regBus addr a ha]
    simp only [Function.update_same, Function.update_idem]
    have hv : a * 16 + u8 (u8 (s.regs 0x09) / 16 * 16 + b) % 16 = a * 16 + b := by
      unfold u8 at hx ⊢
      omega
    rw [hv]

/-- On the register-file bus the default configuration of the MAX30100
returns true and leaves 0x46 in the LED configuration register. -/
theorem MAX30100_setDefaultConfiguration_regBus_led (addr : Nat) (s : RegFile) :
    (MAX30100_setDefaultConfiguration regBus addr s).1 = true ∧
      (MAX30100_setDefaultConfiguration regBus addr s).2.regs 0x09 = 0x46 := by
  have hc := (MAX30100_setLedCurrent_regBus_commute addr 4 6 (by decide) (by decide) s).1
  have hr := MAX30100_setLedCurrent_red_regBus addr 4 (by decide) s
  rw [hr] at hc
  have hm : ∀ x : RegFile, (MAX30100_setMode regBus addr MODE_SPO2 x).1 = true ∧
      (MAX30100_setMode regBus addr MODE_SPO2 x).2.regs 0x09 = x.regs 0x09 :=
    fun x => MAX30100_setMode_regBus_led addr MODE_SPO2 (by decide) x
  unfold MAX30100_setDefaultConfiguration
  simp only [andThen, hr, hc, MAX30100_setResolution_regBus, MAX30100_setSamplingRate_regBus]
  rw [(hm _).2]
  exact ⟨(hm _).1, by simp [Function.update]⟩

/-- Claim C35: for the MAX30100, for `led` in {LED_IR = 0, LED_RED = 1} and
`current` in 0..15, after a successful read of the byte `old`
`setLedCurrent(led, current)` is the write of
`(old & ~(0xF << 4*led)) | (current << 4*led)` to LED_CFG_REG (0x09): for
LED_IR the low nibble becomes `current` and the high nibble is kept, for
LED_RED the high nibble becomes `current` and the low nibble is kept.  On the
register-file bus setting the RED and the IR current in either order leaves
the same state, and the default configuration returns true and leaves 0x46 in
the register. -/
theorem C35_MAX30100_setLedCurrent (A : Arduino W) (addr led current old : Nat) (w w1 : W)
    (hled : led ≤ 1) (hcur : current ≤ 15)
    (hread : readByte A addr MAX30100_LED_CFG_REG w = (some old, w1)) :
    MAX30100_LED_CFG_REG = 0x09 ∧
      MAX30100_setLedCurrent A addr led current w =
        writeByte A addr 0x09 (andNot old (0xF <<< (4 * led)) ||| (current <<< (4 * led))) w1 ∧
      andNot old (0xF <<< (4 * led)) ||| (current <<< (4 * led)) < 256 ∧
      (led = 0 →
        andNot old (0xF <<< (4 * led)) ||| (current <<< (4 * led)) = (old &&& 0xF0) ||| current ∧
        (andNot old (0xF <<< (4 * led)) ||| (current <<< (4 * led))) % 16 = current ∧
        (andNot old (0xF <<< (4 * led)) ||| (current <<< (4 * led))) / 16 = old / 16) ∧
      (led = 1 →
        andNot old (0xF <<< (4 * led)) ||| (current <<< (4 * led))
          = (old &&& 0x0F) ||| (current <<< 4) ∧
        (andNot old (0xF <<< (4 * led)) ||| (current <<< (4 * led))) / 16 = current ∧
        (andNot old (0xF <<< (4 * led)) ||| (current <<< (4 * led))) % 16 = old % 16) ∧
      (∀ (s : RegFile) (a b : Nat), a ≤ 15 → b ≤ 15 →
        MAX30100_setLedCurrent regBus addr 0 b (MAX30100_setLedCurrent regBus addr 1 a s).2 =
          MAX30100_setLedCurrent regBus addr 1 a (MAX30100_setLedCurrent regBus addr 0 b s).2 ∧
        (MAX30100_setLedCurrent regBus addr 0 b
          (MAX30100_setLedCurrent regBus addr 1 a s).2).2.regs 0x09 = a * 16 + b) ∧
      (∀ s : RegFile, (MAX30100_setDefaultConfiguration regBus addr s).1 = true ∧
        (MAX30100_setDefaultConfiguration regBus addr s).2.regs 0x09 = 0x46) := by
  have hold := readByte_lt A addr _ w w1 old hread
  refine ⟨rfl, MAX30100_setLedCurrent_write A addr led current old w w1 hled hcur hread,
    ?_, ?_, ?_, ?_, fun s => MAX30100_setDefaultConfiguration_regBus_led addr s⟩
  · have hl : led = 0 ∨ led = 1 := by omega
    rcases hl with hl | hl <;> subst hl
    · obtain ⟨_, b2, b3⟩ := ir_current_bits old hold current (by omega)
      rw [b2, b3]
      omega
    · obtain ⟨_, b2, b3⟩ := red_current_bits old hold current (by omega)
      rw [b2, b3]
      omega
  · intro hl
    subst hl
    obtain ⟨_, b2, b3⟩ := ir_current_bits old hold current (by omega)
    refine ⟨b2, ?_, ?_⟩
    · rw [b2, b3]
      omega
    · rw [b2, b3]
      omega
  · intro hl
    subst hl
    obtain ⟨_, b2, b3⟩ := red_current_bits old hold current (by omega)
    refine ⟨b2, ?_, ?_⟩
    · rw [b2, b3]
      omega
    · rw [b2, b3]
      omega
  · intro s a b ha hb
    obtain ⟨h1, h2⟩ := MAX30100_setLedCurrent_regBus_commute addr a b ha hb s
    refine ⟨h1.trans h2.symm, ?_⟩
    rw [h1]
    simp only [Function.update_same]

/-- Witness for C35: on a scripted bus whose LED configuration register reads
0xA7, `setLedCurrent(LED_RED, 4)` writes 0x47, and on the register file with
0xC5 in the register the RED current 4 and the IR current 6 give 0x46 in
either order. -/
theorem C35_MAX30100_setLedCurrent_witness :
    (MAX30100_setLedCurrent scriptBus 0x57 1 4 demoLed).2.log.drop 6 =
        [.beginTransmission 0x57, .write 0x09, .write 0x47, .endTransmission true] ∧
      (MAX30100_setLedCurrent regBus 0x57 1 4
        (MAX30100_setLedCurrent regBus 0x57 0 6 regsDemo).2).2.regs 0x09 = 0x46 := by
  have h := C35_MAX30100_setLedCurrent scriptBus 0x57 1 4 0xA7 demoLed _ (by decide) (by decide)
    (by rfl)
  have hc := h.2.2.2.2.2.1 regsDemo 4 6 (by decide) (by decide)
  constructor
  · rw [h.2.1]
    rfl
  · rw [← hc.1, hc.2]

end LedCurrentProps

/-! ## Moving average filter -/

section FilterProps

open MovingAverageFilter

/-- The summing loop of `process` adds the elements `i`, ..., `i + n - 1` of
the array to the accumulator. -/
theorem sumLoop_eq (values : Nat → ℚ) (n i : Nat) (acc : ℚ) :
    sumLoop values n i acc = acc + ∑ j in Finset.range n, values (i + j) := by
  induction n generalizing i acc with
  | zero => simp [sumLoop]
  | succ k ih =>
    rw [sumLoop, ih, Finset.sum_range_succ']
    have : ∀ j, values (i + 1 + j) = values (i + (j + 1)) := fun j => by
      rw [Nat.add_assoc, Nat.add_comm 1 j]
    simp only [this, Nat.add_zero]
    ring

/-- The state of a moving average filter after the calls `process(y)` for
the `y` of `xs`, from a constructed or reset filter: the write index is the
number of calls modulo `K`, the count is `min n K`, the last `K` values sit at
their positions modulo `K`, and the first `count` elements of the array add up
to the sum of the last `min n K` values. -/
theorem filter_state (K : Nat) (hK : 1 ≤ K) (values : Nat → ℚ) (xs : List ℚ) :
    (xs.foldl (fun g y => (process K g y).2) (init values)).index_ = xs.length % K ∧
      (xs.foldl (fun g y => (process K g y).2) (init values)).count_ = min xs.length K ∧
      (∀ i, i < xs.length → xs.length ≤ i + K →
        (xs.foldl (fun g y => (process K g y).2) (init values)).values_ (i % K) = xs.getD i 0) ∧
      ∑ j in Finset.range (min xs.length K),
          (xs.foldl (fun g y => (process K g y).2) (init values)).values_ j
        = (xs.drop (xs.length - min xs.length K)).sum := by
  induction xs using List.reverseRecOn with
  | nil => simp [init]
  | append_singleton xs x ih =>
    obtain ⟨hi, hc, hv, hs⟩ := ih
    rw [List.foldl_append, List.length_append]
    simp only [List.foldl_cons, List.foldl_nil, List.length_singleton]
    generalize xs.foldl (fun g y => (process K g y).2) (init values) = f at hi hc hv hs
    simp only [process]
    rw [hi, hc]
    have hp : xs.length % K < K := Nat.mod_lt _ (by omega)
    refine ⟨Nat.mod_add_mod _ _ _, ?_, ?_, ?_⟩
    · split_ifs with h
      · rw [Nat.min_def] at h ⊢
        rw [Nat.min_def]
        split_ifs at h ⊢ <;> omega
      · rw [Nat.min_def] at h ⊢
        rw [Nat.min_def]
        split_ifs at h ⊢ <;> omega
    · intro i hil hik
      by_cases hin : i = xs.length
      · subst hin
        rw [Function.update_same, List.getD_append_right _ _ _ _ (le_refl _)]
        simp
      · have hlt : i < xs.length := by omega
        have hne : i % K ≠ xs.length % K := by
          intro he
          have hd : K ∣ xs.length - i := (Nat.modEq_iff_dvd' (le_of_lt hlt)).mp he
          have := Nat.le_of_dvd (by omega) hd
          omega
        rw [Function.update_noteq hne, hv i hlt (by omega), List.getD_append _ _ _ _ hlt]
    · by_cases hn : xs.length < K
      · have hm1 : min (xs.length + 1) K = xs.length + 1 := by
          rw [Nat.min_def]; split_ifs <;> omega
        have hm0 : min xs.length K = xs.length := by
          rw [Nat.min_def]; split_ifs <;> omega
        rw [hm0] at hs
        rw [hm1, Nat.mod_eq_of_lt hn, Finset.sum_range_succ, Function.update_same]
        have hcongr : ∑ j in Finset.range xs.length, Function.update f.values_ xs.length x j
            = ∑ j in Finset.range xs.length, f.values_ j := by
          apply Finset.sum_congr rfl
          intro j hj
          rw [Finset.mem_range] at hj
          rw [Function.update_noteq (by omega)]
        rw [hcongr, hs]
        simp
      · have hn2 : K ≤ xs.length := by omega
        have hm1 : min (xs.length + 1) K = K := by
          rw [Nat.min_def]; split_ifs <;> omega
        have hm0 : min xs.length K = K := by
          rw [Nat.min_def]; split_ifs <;> omega
        rw [hm0] at hs
        rw [hm1]
        have hmem : xs.length % K ∈ Finset.range K := Finset.mem_range.mpr hp
        have h1 := Finset.sum_update_of_mem hmem f.values_ x
        have h2 := Finset.add_sum_erase (Finset.range K) f.values_ hmem
        rw [Finset.sdiff_singleton_eq_erase] at h1
        have hold : f.values_ (xs.length % K) = xs.getD (xs.length - K) 0 := by
          have := hv (xs.length - K) (by omega) (by omega)
          rwa [← Nat.mod_eq_sub_mod hn2] at this
        have hdrop : xs.drop (xs.length - K)
            = xs.getD (xs.length - K) 0 :: xs.drop (xs.length - K + 1) := by
          have hlt : xs.length - K < xs.length := by omega
          rw [List.getD_eq_getElem _ _ hlt]
          exact List.drop_eq_getElem_cons hlt
        have hidx : xs.length + 1 - K = xs.length - K + 1 := by omega
        rw [hdrop, List.sum_cons] at hs
        rw [h1, hidx, List.drop_append_of_le_length (by omega), List.sum_append]
        simp only [List.sum_cons, List.sum_nil, add_zero]
        rw [hold] at h2
        linarith

/-- Claim C36: `MovingAverageFilter<K>` with `K >= 1`, over exact arithmetic.
From a constructed filter, or one that was `reset()` (which is the constructed
state over the same array), after the calls `process(y)` for the `y` of `xs`
the call `process(x)`, the `n`-th call with `n = xs.length + 1`, returns the
sum of the last `min n K` values passed to `process` divided by `min n K`,
`count()` is then `min n K`, and the write index is below `K` before and after
the call. -/
theorem C36_moving_average (K : Nat) (hK : 1 ≤ K) (values : Nat → ℚ) (xs : List ℚ) (x : ℚ) :
    (process K (xs.foldl (fun g y => (process K g y).2) (init values)) x).1 =
        ((xs ++ [x]).drop (xs.length + 1 - min (xs.length + 1) K)).sum
          / ((min (xs.length + 1) K : Nat) : ℚ) ∧
      (process K (xs.foldl (fun g y => (process K g y).2) (init values)) x).2.count
        = min (xs.length + 1) K ∧
      (process K (xs.foldl (fun g y => (process K g y).2) (init values)) x).2.index_ < K ∧
      (xs.foldl (fun g y => (process K g y).2) (init values)).index_ < K ∧
      (∀ g : MovingAverageFilter, g.reset = init g.values_ ∧ g.reset.count = 0) := by
  have hpos : 0 < K := by omega
  have h0 := (filter_state K hK values xs).1
  obtain ⟨h1, h2, _, h4⟩ := filter_state K hK values (xs ++ [x])
  rw [List.foldl_append, List.length_append] at h1 h2 h4
  simp only [List.foldl_cons, List.foldl_nil, List.length_singleton] at h1 h2 h4
  refine ⟨?_, h2, ?_, ?_, fun g => ⟨rfl, rfl⟩⟩
  · have hout : (process K (xs.foldl (fun g y => (process K g y).2) (init values)) x).1 =
        sumLoop (process K (xs.foldl (fun g y => (process K g y).2) (init values)) x).2.values_
          (process K (xs.foldl (fun g y => (process K g y).2) (init values)) x).2.count_ 0 0
        / (((process K (xs.foldl (fun g y => (process K g y).2) (init values)) x).2.count_ : Nat)
          : ℚ) := rfl
    rw [hout, sumLoop_eq, h2]
    simp only [Nat.zero_add, zero_add]
    rw [h4]
  · rw [h1]
    exact Nat.mod_lt _ hpos
  · rw [h0]
    exact Nat.mod_lt _ hpos

/-- Witness for C36: a filter of size 3 fed 1, 2, 3 and then 4 returns 3, the
mean of 2, 3 and 4, and counts 3 values. -/
theorem C36_moving_average_witness :
    (process 3 ([1, 2, 3].foldl (fun g y => (process 3 g y).2) (init (fun _ => 0))) 4).1 = 3 ∧
      (process 3 ([1, 2, 3].foldl (fun g y => (process 3 g y).2) (init (fun _ => 0))) 4).2.count
        = 3 := by
  have h := C36_moving_average 3 (by decide) (fun _ => 0) [1, 2, 3] 4
  refine ⟨?_, ?_⟩
  · rw [h.1]
    norm_num
  · rw [h.2.1]
    rfl

end FilterProps

end MAX3010x
